import Mathlib

/-!
# OmnidirectionalShadows: point-light shadow demo

A shallow embedding of the camera helper (`camera.h`), the path resolver
(`filesystem.h`) and the entry point (`point_shadows_soft.cpp`), with the
properties of the specification stated and proved over it.

Scalars (`float` in the source) are the elements of a type `K` with the
arithmetic operations and comparisons the code uses; the library functions of
`<cmath>` and GLM the program calls (`sin`, `cos`, `tan`, `inversesqrt`,
`radians`) are the fields of a `Scalar K` record, so every definition below is
a computable function of them.  `K` is read in two ways: as a field (exact, real
arithmetic), where theorems state what they need of the library functions as
hypotheses, which the real functions satisfy; and as `F32`, the IEEE-754
binary32 `float` the program runs on, with its rounding, infinities and NaNs.
-/

namespace OmniShadows

/-! ## GLM vectors and matrices -/

/-- The `glm::vec3` of the source. -/
structure Vec3 (K : Type) where
  x : K
  y : K
  z : K
deriving DecidableEq, Repr

/-- The `glm::vec4` of the source. -/
structure Vec4 (K : Type) where
  x : K
  y : K
  z : K
  w : K
deriving DecidableEq, Repr

/-- The `glm::mat4` of the source, column-major as in GLM: `m[0] .. m[3]` are the columns. -/
structure Mat4 (K : Type) where
  c0 : Vec4 K
  c1 : Vec4 K
  c2 : Vec4 K
  c3 : Vec4 K
deriving DecidableEq, Repr

/-- The scalar library functions the program calls (`<cmath>` and GLM). -/
structure Scalar (K : Type) where
  sin : K → K
  cos : K → K
  tan : K → K
  inversesqrt : K → K
  radians : K → K

section Glm

variable {K : Type}

/-- GLM `vec3 + vec3`. -/
def Vec3.add [Add K] (a b : Vec3 K) : Vec3 K := ⟨a.x + b.x, a.y + b.y, a.z + b.z⟩

/-- GLM `vec3 - vec3`. -/
def Vec3.sub [Sub K] (a b : Vec3 K) : Vec3 K := ⟨a.x - b.x, a.y - b.y, a.z - b.z⟩

/-- GLM `vec3 * scalar`. -/
def Vec3.smul [Mul K] (a : Vec3 K) (k : K) : Vec3 K := ⟨a.x * k, a.y * k, a.z * k⟩

instance [Add K] : Add (Vec3 K) := ⟨Vec3.add⟩
instance [Sub K] : Sub (Vec3 K) := ⟨Vec3.sub⟩
instance [Mul K] : HMul (Vec3 K) K (Vec3 K) := ⟨Vec3.smul⟩

/-- GLM `glm::dot` on `vec3`. -/
def dot [Add K] [Mul K] (a b : Vec3 K) : K := a.x * b.x + a.y * b.y + a.z * b.z

/-- GLM `glm::cross`. -/
def cross [Sub K] [Mul K] (a b : Vec3 K) : Vec3 K :=
  ⟨a.y * b.z - b.y * a.z, a.z * b.x - b.z * a.x, a.x * b.y - b.x * a.y⟩

/-- GLM `glm::normalize`: `v * inversesqrt(dot(v, v))`. -/
def normalize [Add K] [Mul K] (m : Scalar K) (v : Vec3 K) : Vec3 K := v * m.inversesqrt (dot v v)

/-- GLM `vec4 + vec4`. -/
def Vec4.add [Add K] (a b : Vec4 K) : Vec4 K := ⟨a.x + b.x, a.y + b.y, a.z + b.z, a.w + b.w⟩

/-- GLM `vec4 * scalar`. -/
def Vec4.smul [Mul K] (a : Vec4 K) (k : K) : Vec4 K := ⟨a.x * k, a.y * k, a.z * k, a.w * k⟩

/-- GLM `mat4 * vec4`: the columns scaled by the components of `v` and summed in pairs, as
GLM sums them: `(m[0] * v[0] + m[1] * v[1]) + (m[2] * v[2] + m[3] * v[3])`. -/
def Mat4.mulVec [Add K] [Mul K] (m : Mat4 K) (v : Vec4 K) : Vec4 K :=
  Vec4.add (Vec4.add (m.c0.smul v.x) (m.c1.smul v.y)) (Vec4.add (m.c2.smul v.z) (m.c3.smul v.w))

/-- One column of GLM `mat4 * mat4`: `a[0] * v[0] + a[1] * v[1] + a[2] * v[2] + a[3] * v[3]`,
summed from the left. -/
def Mat4.mulCol [Add K] [Mul K] (a : Mat4 K) (v : Vec4 K) : Vec4 K :=
  Vec4.add (Vec4.add (Vec4.add (a.c0.smul v.x) (a.c1.smul v.y)) (a.c2.smul v.z)) (a.c3.smul v.w)

/-- GLM `mat4 * mat4`: column `j` of the product is
`a[0] * b[j][0] + a[1] * b[j][1] + a[2] * b[j][2] + a[3] * b[j][3]`. -/
def Mat4.mul [Add K] [Mul K] (a b : Mat4 K) : Mat4 K :=
  ⟨a.mulCol b.c0, a.mulCol b.c1, a.mulCol b.c2, a.mulCol b.c3⟩

instance [Add K] [Mul K] : Mul (Mat4 K) := ⟨Mat4.mul⟩

/-- The homogeneous point `(p, 1)` a vertex shader feeds to a matrix. -/
def point [One K] (p : Vec3 K) : Vec4 K := ⟨p.x, p.y, p.z, 1⟩

/-- GLM `glm::lookAt` (right-handed, the GLM default). -/
def lookAt [Add K] [Sub K] [Mul K] [Neg K] [Zero K] [One K] (m : Scalar K) (eye center up : Vec3 K) : Mat4 K :=
  let f := normalize m (center - eye)
  let s := normalize m (cross f up)
  let u := cross s f
  ⟨⟨s.x, u.x, -f.x, 0⟩,
   ⟨s.y, u.y, -f.y, 0⟩,
   ⟨s.z, u.z, -f.z, 0⟩,
   ⟨-dot s eye, -dot u eye, dot f eye, 1⟩⟩

/-- GLM `glm::perspective` (right-handed, depth range -1..1, the GLM default). -/
def perspective [Add K] [Sub K] [Mul K] [Div K] [Neg K] [Zero K] [One K] [NatCast K]
    (m : Scalar K) (fovy aspect zNear zFar : K) : Mat4 K :=
  let tanHalfFovy := m.tan (fovy / 2)
  ⟨⟨1 / (aspect * tanHalfFovy), 0, 0, 0⟩,
   ⟨0, 1 / tanHalfFovy, 0, 0⟩,
   ⟨0, 0, -(zFar + zNear) / (zFar - zNear), -1⟩,
   ⟨0, 0, -(2 * zFar * zNear) / (zFar - zNear), 0⟩⟩

end Glm

/-! ## Entry point: the shadow matrices (`point_shadows_soft.cpp`, lines 193-202) -/

/-- `SCR_WIDTH`. -/
def SCR_WIDTH : Nat := 1800
/-- `SCR_HEIGHT`. -/
def SCR_HEIGHT : Nat := 1600
/-- `SHADOW_WIDTH`. -/
def SHADOW_WIDTH : Nat := 1024
/-- `SHADOW_HEIGHT`. -/
def SHADOW_HEIGHT : Nat := 1024

/-- `GL_TEXTURE_CUBE_MAP_POSITIVE_X` (0x8515); the five other faces follow it. -/
def GL_TEXTURE_CUBE_MAP_POSITIVE_X : Nat := 0x8515

section ShadowMatrices

variable {K : Type} [Add K] [Sub K] [Mul K] [Div K] [Neg K] [Zero K] [One K] [NatCast K]

/-- `near_plane` of `main`. -/
def near_plane : K := 1
/-- `far_plane` of `main`. -/
def far_plane : K := 25

/-- `shadowProj` of `main`. -/
def shadowProj (m : Scalar K) : Mat4 K :=
  perspective m (m.radians 90) ((SHADOW_WIDTH : K) / (SHADOW_HEIGHT : K)) near_plane far_plane

/-- `shadowTransforms` of `main` after the six `push_back` calls. -/
def shadowTransforms (m : Scalar K) (lightPos : Vec3 K) : List (Mat4 K) :=
  [ shadowProj m * lookAt m lightPos (lightPos + ⟨1, 0, 0⟩) ⟨0, -1, 0⟩,
    shadowProj m * lookAt m lightPos (lightPos + ⟨-1, 0, 0⟩) ⟨0, -1, 0⟩,
    shadowProj m * lookAt m lightPos (lightPos + ⟨0, 1, 0⟩) ⟨0, 0, 1⟩,
    shadowProj m * lookAt m lightPos (lightPos + ⟨0, -1, 0⟩) ⟨0, 0, -1⟩,
    shadowProj m * lookAt m lightPos (lightPos + ⟨0, 0, 1⟩) ⟨0, -1, 0⟩,
    shadowProj m * lookAt m lightPos (lightPos + ⟨0, 0, -1⟩) ⟨0, -1, 0⟩ ]

/-- The major-axis direction of the cubemap face with the given texture target
(OpenGL: `+X, -X, +Y, -Y, +Z, -Z` from `GL_TEXTURE_CUBE_MAP_POSITIVE_X` on). -/
def faceAxis (target : Nat) : Option (Vec3 K) :=
  if target = 0x8515 then some ⟨1, 0, 0⟩
  else if target = 0x8516 then some ⟨-1, 0, 0⟩
  else if target = 0x8517 then some ⟨0, 1, 0⟩
  else if target = 0x8518 then some ⟨0, -1, 0⟩
  else if target = 0x8519 then some ⟨0, 0, 1⟩
  else if target = 0x851A then some ⟨0, 0, -1⟩
  else none

/-- The look direction `d_i` the claim lists for matrix `i`. -/
def lookDirection (i : Fin 6) : Vec3 K :=
  match i with
  | 0 => ⟨1, 0, 0⟩
  | 1 => ⟨-1, 0, 0⟩
  | 2 => ⟨0, 1, 0⟩
  | 3 => ⟨0, -1, 0⟩
  | 4 => ⟨0, 0, 1⟩
  | 5 => ⟨0, 0, -1⟩

/-- The up vector `u_i` passed to `lookAt` for matrix `i`. -/
def lookUp (i : Fin 6) : Vec3 K :=
  match i with
  | 0 => ⟨0, -1, 0⟩
  | 1 => ⟨0, -1, 0⟩
  | 2 => ⟨0, 0, 1⟩
  | 3 => ⟨0, 0, -1⟩
  | 4 => ⟨0, -1, 0⟩
  | 5 => ⟨0, -1, 0⟩

end ShadowMatrices

/-! ## Camera (`camera.h`) -/

/-- The `Camera_Movement` enumeration. -/
inductive Camera_Movement where
  | FORWARD
  | BACKWARD
  | LEFT
  | RIGHT
deriving DecidableEq, Repr

/-- The `Camera` class: its ten data members. -/
structure Camera (K : Type) where
  Position : Vec3 K
  Front : Vec3 K
  Up : Vec3 K
  Right : Vec3 K
  WorldUp : Vec3 K
  Yaw : K
  Pitch : K
  MovementSpeed : K
  MouseSensitivity : K
  Zoom : K

section CameraDefs

variable {K : Type} [Add K] [Sub K] [Mul K] [Div K] [Neg K] [Zero K] [One K] [NatCast K]
  [LT K] [DecidableRel ((· < ·) : K → K → Prop)]

/-- Default `YAW`. -/
def YAW : K := -90
/-- Default `PITCH`. -/
def PITCH : K := 0
/-- Default `SPEED` (2.5). -/
def SPEED : K := 5 / 2
/-- Default `SENSITIVITY` (0.1). -/
def SENSITIVITY : K := 1 / 10
/-- Default `ZOOM`. -/
def ZOOM : K := 45

/-- `Camera::updateCameraVectors`. -/
def Camera.updateCameraVectors (m : Scalar K) (c : Camera K) : Camera K :=
  let front : Vec3 K :=
    ⟨m.cos (m.radians c.Yaw) * m.cos (m.radians c.Pitch),
     m.sin (m.radians c.Pitch),
     m.sin (m.radians c.Yaw) * m.cos (m.radians c.Pitch)⟩
  let c1 := { c with Front := normalize m front }
  let c2 := { c1 with Right := normalize m (cross c1.Front c1.WorldUp) }
  { c2 with Up := normalize m (cross c2.Right c2.Front) }

/-- The vector constructor `Camera::Camera(position, up, yaw, pitch)`.  `Up` and `Right` have
no initialiser and are first written by `updateCameraVectors`; they start as `up0`, `right0`. -/
def Camera.new (m : Scalar K) (position up : Vec3 K) (yaw pitch : K)
    (up0 right0 : Vec3 K) : Camera K :=
  Camera.updateCameraVectors m
    { Position := position, Front := ⟨0, 0, -1⟩, Up := up0, Right := right0, WorldUp := up,
      Yaw := yaw, Pitch := pitch,
      MovementSpeed := SPEED, MouseSensitivity := SENSITIVITY, Zoom := ZOOM }

/-- `Camera::GetViewMatrix`: the returned matrix and the camera after the call. -/
def Camera.GetViewMatrix (m : Scalar K) (c : Camera K) : Mat4 K × Camera K :=
  (lookAt m c.Position (c.Position + c.Front) c.Up, c)

/-- `Camera::ProcessKeyboard`. -/
def Camera.ProcessKeyboard (c : Camera K) (direction : Camera_Movement) (deltaTime : K) :
    Camera K :=
  let velocity := c.MovementSpeed * deltaTime
  let c1 := if direction = .FORWARD then { c with Position := c.Position + c.Front * velocity }
            else c
  let c2 := if direction = .BACKWARD then { c1 with Position := c1.Position - c1.Front * velocity }
            else c1
  let c3 := if direction = .LEFT then { c2 with Position := c2.Position - c2.Right * velocity }
            else c2
  if direction = .RIGHT then { c3 with Position := c3.Position + c3.Right * velocity } else c3

/-- `Camera::ProcessMouseMovement`. -/
def Camera.ProcessMouseMovement (m : Scalar K) (c : Camera K) (xoffset yoffset : K)
    (constrainPitch : Bool) : Camera K :=
  let xoffset := xoffset * c.MouseSensitivity
  let yoffset := yoffset * c.MouseSensitivity
  let c1 := { c with Yaw := c.Yaw + xoffset }
  let c2 := { c1 with Pitch := c1.Pitch + yoffset }
  let c3 :=
    if constrainPitch then
      let c2a := if c2.Pitch > 89 then { c2 with Pitch := 89 } else c2
      if c2a.Pitch < -89 then { c2a with Pitch := -89 } else c2a
    else c2
  Camera.updateCameraVectors m c3

/-- `Camera::ProcessMouseScroll`. -/
def Camera.ProcessMouseScroll (c : Camera K) (yoffset : K) : Camera K :=
  let c1 := { c with Zoom := c.Zoom - yoffset }
  let c2 := if c1.Zoom < 1 then { c1 with Zoom := 1 } else c1
  if c2.Zoom > 45 then { c2 with Zoom := 45 } else c2

/-- The camera's basis is the one `updateCameraVectors` is meant to derive: `Front` from the
Euler angles, `Right = normalize(Front x WorldUp)`, `Up = Right x Front`, all three of unit
length and pairwise orthogonal. -/
def Camera.DerivedBasis (m : Scalar K) (c : Camera K) : Prop :=
  c.Front = ⟨m.cos (m.radians c.Yaw) * m.cos (m.radians c.Pitch),
             m.sin (m.radians c.Pitch),
             m.sin (m.radians c.Yaw) * m.cos (m.radians c.Pitch)⟩ ∧
  c.Right = normalize m (cross c.Front c.WorldUp) ∧
  c.Up = cross c.Right c.Front ∧
  dot c.Front c.Front = 1 ∧ dot c.Right c.Right = 1 ∧ dot c.Up c.Up = 1 ∧
  dot c.Front c.Right = 0 ∧ dot c.Front c.Up = 0 ∧ dot c.Right c.Up = 0

/-- `Front`, `Right`, `Up` are unit vectors and pairwise orthogonal. -/
def Camera.Orthonormal (c : Camera K) : Prop :=
  dot c.Front c.Front = 1 ∧ dot c.Right c.Right = 1 ∧ dot c.Up c.Up = 1 ∧
  dot c.Front c.Right = 0 ∧ dot c.Front c.Up = 0 ∧ dot c.Right c.Up = 0

end CameraDefs

/-! ## Entry point: the shadow toggle of `processInput` (lines 446-455) -/

/-- What `glfwGetKey` returns: `GLFW_PRESS` or `GLFW_RELEASE`. -/
inductive KeyState where
  | GLFW_RELEASE
  | GLFW_PRESS
deriving DecidableEq, Repr

/-- The globals `shadows` and `shadowsKeyPressed`. -/
structure Toggle where
  shadows : Bool
  shadowsKeyPressed : Bool
deriving DecidableEq, Repr

/-- The initial values of the two globals. -/
def Toggle.init : Toggle := { shadows := true, shadowsKeyPressed := false }

/-- The last two `if` statements of `processInput`, for the SPACE key state `space` of the
frame. -/
def processInputSpace (t : Toggle) (space : KeyState) : Toggle :=
  let t1 := if space = .GLFW_PRESS ∧ ¬ t.shadowsKeyPressed
            then { shadows := !t.shadows, shadowsKeyPressed := true } else t
  if space = .GLFW_RELEASE then { t1 with shadowsKeyPressed := false } else t1

/-- The toggle after one `processInput` per frame over a sequence of SPACE key states. -/
def runSpace (t : Toggle) : List KeyState → Toggle
  | [] => t
  | k :: ks => runSpace (processInputSpace t k) ks

/-- For each frame, whether `processInput` changed the value of `shadows` in it. -/
def flipFrames (t : Toggle) : List KeyState → List Bool
  | [] => []
  | k :: ks => ((processInputSpace t k).shadows != t.shadows) :: flipFrames (processInputSpace t k) ks

/-- For each frame, whether SPACE was pressed in it while `shadowsKeyPressed` was false. -/
def pressEdges (t : Toggle) : List KeyState → List Bool
  | [] => []
  | k :: ks =>
    (decide (k = .GLFW_PRESS) && !t.shadowsKeyPressed) :: pressEdges (processInputSpace t k) ks

/-! ## FileSystem (`filesystem.h`) -/

/-- The two functions a `Builder` pointer can hold. -/
inductive Builder where
  | getPathRelativeRoot
  | getPathRelativeBinary
deriving DecidableEq, Repr

/-- The function-local statics of `FileSystem`; `none` is "not yet initialised".  A C string
pointer is an `Option String`, `none` being `nullptr`. -/
structure FileSystem where
  envRoot : Option (Option String)
  givenRoot : Option (Option String)
  root : Option String
  pathBuilder : Option Builder
deriving DecidableEq, Repr

/-- The statics before the first call. -/
def FileSystem.init : FileSystem :=
  { envRoot := none, givenRoot := none, root := none, pathBuilder := none }

/-- `FileSystem::getRoot`.  `getenv` is what `getenv("LOGL_ROOT_PATH")` returns at the time of
the call, `logl_root` the constant of the generated `root_directory.h`.  Each static is
initialised the first time control passes its declaration. -/
def FileSystem.getRoot (getenv logl_root : Option String) (s : FileSystem) :
    String × FileSystem :=
  let envRoot := match s.envRoot with
    | some v => v
    | none => getenv
  let givenRoot := match s.givenRoot with
    | some v => v
    | none => (match envRoot with
      | some e => some e
      | none => logl_root)
  let root := match s.root with
    | some v => v
    | none => (match givenRoot with
      | some g => g
      | none => "")
  (root, { s with envRoot := some envRoot, givenRoot := some givenRoot, root := some root })

/-- `FileSystem::getPathBuilder`. -/
def FileSystem.getPathBuilder (getenv logl_root : Option String) (s : FileSystem) :
    Builder × FileSystem :=
  let r := FileSystem.getRoot getenv logl_root s
  if r.1 ≠ "" then (.getPathRelativeRoot, r.2) else (.getPathRelativeBinary, r.2)

/-- `FileSystem::getPathRelativeRoot`. -/
def FileSystem.getPathRelativeRoot (getenv logl_root : Option String) (s : FileSystem)
    (path : String) : String × FileSystem :=
  let r := FileSystem.getRoot getenv logl_root s
  (r.1 ++ "/" ++ path, r.2)

/-- `FileSystem::getPathRelativeBinary`. -/
def FileSystem.getPathRelativeBinary (s : FileSystem) (path : String) : String × FileSystem :=
  ("../../../" ++ path, s)

/-- `FileSystem::getPath`: the static `pathBuilder` is initialised by the first call. -/
def FileSystem.getPath (getenv logl_root : Option String) (s : FileSystem) (path : String) :
    String × FileSystem :=
  let b := match s.pathBuilder with
    | some b => (b, s)
    | none => FileSystem.getPathBuilder getenv logl_root s
  let s1 := { b.2 with pathBuilder := some b.1 }
  match b.1 with
  | .getPathRelativeRoot => FileSystem.getPathRelativeRoot getenv logl_root s1 path
  | .getPathRelativeBinary => FileSystem.getPathRelativeBinary s1 path

/-! ## Entry point: the OpenGL calls of `main` -/

/-- `GL_TEXTURE_2D`. -/
def GL_TEXTURE_2D : Nat := 0x0DE1
/-- `GL_TEXTURE_CUBE_MAP`. -/
def GL_TEXTURE_CUBE_MAP : Nat := 0x8513
/-- `GL_TEXTURE_MAG_FILTER`. -/
def GL_TEXTURE_MAG_FILTER : Nat := 0x2800
/-- `GL_TEXTURE_MIN_FILTER`. -/
def GL_TEXTURE_MIN_FILTER : Nat := 0x2801
/-- `GL_TEXTURE_WRAP_S`. -/
def GL_TEXTURE_WRAP_S : Nat := 0x2802
/-- `GL_TEXTURE_WRAP_T`. -/
def GL_TEXTURE_WRAP_T : Nat := 0x2803
/-- `GL_TEXTURE_WRAP_R`. -/
def GL_TEXTURE_WRAP_R : Nat := 0x8072
/-- `GL_NEAREST`. -/
def GL_NEAREST : Nat := 0x2600
/-- `GL_LINEAR`. -/
def GL_LINEAR : Nat := 0x2601
/-- `GL_NEAREST_MIPMAP_NEAREST`. -/
def GL_NEAREST_MIPMAP_NEAREST : Nat := 0x2700
/-- `GL_LINEAR_MIPMAP_NEAREST`. -/
def GL_LINEAR_MIPMAP_NEAREST : Nat := 0x2701
/-- `GL_NEAREST_MIPMAP_LINEAR`. -/
def GL_NEAREST_MIPMAP_LINEAR : Nat := 0x2702
/-- `GL_LINEAR_MIPMAP_LINEAR`. -/
def GL_LINEAR_MIPMAP_LINEAR : Nat := 0x2703
/-- `GL_CLAMP_TO_EDGE`. -/
def GL_CLAMP_TO_EDGE : Nat := 0x812F
/-- `GL_REPEAT`. -/
def GL_REPEAT : Nat := 0x2901
/-- `GL_FRAMEBUFFER`. -/
def GL_FRAMEBUFFER : Nat := 0x8D40
/-- `GL_DEPTH_ATTACHMENT`. -/
def GL_DEPTH_ATTACHMENT : Nat := 0x8D00
/-- `GL_NONE`. -/
def GL_NONE : Nat := 0
/-- `GL_DEPTH_COMPONENT`. -/
def GL_DEPTH_COMPONENT : Nat := 0x1902
/-- `GL_FLOAT`. -/
def GL_FLOAT : Nat := 0x1406
/-- `GL_COLOR_BUFFER_BIT`. -/
def GL_COLOR_BUFFER_BIT : Nat := 0x4000
/-- `GL_DEPTH_BUFFER_BIT`. -/
def GL_DEPTH_BUFFER_BIT : Nat := 0x0100
/-- `GL_TEXTURE0`. -/
def GL_TEXTURE0 : Nat := 0x84C0
/-- `GL_TEXTURE1`. -/
def GL_TEXTURE1 : Nat := 0x84C1

/-- The object names `main` holds: the `ID` of the two `Shader` objects, the texture returned
by `loadTexture`, and the names written by `glGenFramebuffers` and `glGenTextures`. -/
structure Handles where
  shader : Nat
  simpleDepthShader : Nat
  grassTexture : Nat
  depthMapFBO : Nat
  depthCubemap : Nat
deriving DecidableEq, Repr

/-- One call `main` issues: an OpenGL or GLFW call, a `Shader` method, or `renderScene`. -/
inductive Call (K : Type) where
  | glGenFramebuffers (name : Nat)
  | glGenTextures (name : Nat)
  | glBindTexture (target texture : Nat)
  | glTexImage2D (target : Nat) (level : Int) (internalformat : Nat) (width height : Nat)
      (border : Int) (format type : Nat)
  | glTexParameteri (target pname param : Nat)
  | glBindFramebuffer (target framebuffer : Nat)
  | glFramebufferTexture (target attachment texture : Nat) (level : Int)
  | glDrawBuffer (buf : Nat)
  | glReadBuffer (src : Nat)
  | glClearColor (r g b a : K)
  | glClear (mask : Nat)
  | glViewport (x y width height : Int)
  | glActiveTexture (texture : Nat)
  | use (shader : Nat)
  | setInt (shader : Nat) (name : String) (value : Int)
  | setFloat (shader : Nat) (name : String) (value : K)
  | setVec3 (shader : Nat) (name : String) (value : Vec3 K)
  | setMat4 (shader : Nat) (name : String) (value : Mat4 K)
  | renderScene (shader : Nat)
  | glfwSwapBuffers
  | glfwPollEvents (resize : Option (Int × Int))

/-- The filter and wrap parameters of a texture object. -/
structure TexParams where
  magFilter : Nat
  minFilter : Nat
  wrapS : Nat
  wrapT : Nat
  wrapR : Nat
deriving DecidableEq, Repr

/-- `glTexParameteri` on one texture object, for the five parameters the program sets. -/
def TexParams.set (t : TexParams) (pname param : Nat) : TexParams :=
  if pname = GL_TEXTURE_MAG_FILTER then { t with magFilter := param }
  else if pname = GL_TEXTURE_MIN_FILTER then { t with minFilter := param }
  else if pname = GL_TEXTURE_WRAP_S then { t with wrapS := param }
  else if pname = GL_TEXTURE_WRAP_T then { t with wrapT := param }
  else if pname = GL_TEXTURE_WRAP_R then { t with wrapR := param }
  else t

/-- The part of the OpenGL context the claims speak of. -/
structure GLState where
  framebuffer : Nat
  viewport : Int × Int × Int × Int
  program : Nat
  activeTexture : Nat
  boundTexture : Nat → Nat → Nat
  texParams : Nat → TexParams

/-- A fresh context: nothing bound, unit `GL_TEXTURE0` active, every texture with the OpenGL
default parameters, the viewport the size of the window. -/
def GLState.init : GLState :=
  { framebuffer := 0, viewport := (0, 0, 1800, 1600), program := 0, activeTexture := GL_TEXTURE0,
    boundTexture := fun _ _ => 0,
    texParams := fun _ => ⟨GL_LINEAR, GL_NEAREST_MIPMAP_LINEAR, GL_REPEAT, GL_REPEAT, GL_REPEAT⟩ }

/-- The effect of one call on the context.  `glfwPollEvents` runs
`framebuffer_size_callback` when the window was resized. -/
def GLState.step {K : Type} (s : GLState) : Call K → GLState
  | .glBindTexture target texture =>
    { s with boundTexture := fun u t =>
        if u = s.activeTexture ∧ t = target then texture else s.boundTexture u t }
  | .glTexParameteri target pname param =>
    { s with texParams := fun n =>
        if n = s.boundTexture s.activeTexture target then (s.texParams n).set pname param
        else s.texParams n }
  | .glBindFramebuffer target framebuffer =>
    if target = GL_FRAMEBUFFER then { s with framebuffer := framebuffer } else s
  | .glViewport x y width height => { s with viewport := (x, y, width, height) }
  | .glActiveTexture texture => { s with activeTexture := texture }
  | .use shader => { s with program := shader }
  | .glfwPollEvents (some (width, height)) => { s with viewport := (0, 0, width, height) }
  | _ => s

/-- The context after a sequence of calls. -/
def GLState.run {K : Type} (s : GLState) : List (Call K) → GLState
  | [] => s
  | c :: cs => GLState.run (s.step c) cs

/-- What is observed of a frame: each scene pass with the shader it was given and the
program, framebuffer and viewport current when it was issued, and each buffer swap. -/
inductive Event where
  | pass (shader program framebuffer : Nat) (viewport : Int × Int × Int × Int)
  | swap
deriving DecidableEq, Repr

/-- The passes and swaps of a sequence of calls, in order. -/
def observe {K : Type} (s : GLState) : List (Call K) → List Event
  | [] => []
  | .renderScene shader :: cs =>
    .pass shader s.program s.framebuffer s.viewport :: observe s cs
  | .glfwSwapBuffers :: cs => .swap :: observe s cs
  | c :: cs => observe (s.step c) cs

/-- Mip-mapped linear filtering as the specification words it: the minification filter is a
mipmap filter with linear interpolation and the magnification filter is `GL_LINEAR`. -/
def TexParams.MipmappedLinear (t : TexParams) : Prop :=
  (t.minFilter = GL_LINEAR_MIPMAP_LINEAR ∨ t.minFilter = GL_LINEAR_MIPMAP_NEAREST ∨
    t.minFilter = GL_NEAREST_MIPMAP_LINEAR) ∧ t.magFilter = GL_LINEAR

instance (t : TexParams) : Decidable t.MipmappedLinear := by
  unfold TexParams.MipmappedLinear; infer_instance

section MainCalls

variable {K : Type} [LinearOrderedField K]

/-- The depth-map set-up of `main` (lines 101-157). -/
def setupCalls (h : Handles) : List (Call K) :=
  [ .glGenFramebuffers h.depthMapFBO,
    .glGenTextures h.depthCubemap,
    .glBindTexture GL_TEXTURE_CUBE_MAP h.depthCubemap ] ++
  (List.range 6).map (fun i =>
    .glTexImage2D (GL_TEXTURE_CUBE_MAP_POSITIVE_X + i) 0 GL_DEPTH_COMPONENT
      SHADOW_WIDTH SHADOW_HEIGHT 0 GL_DEPTH_COMPONENT GL_FLOAT) ++
  [ .glTexParameteri GL_TEXTURE_CUBE_MAP GL_TEXTURE_MAG_FILTER GL_NEAREST,
    .glTexParameteri GL_TEXTURE_CUBE_MAP GL_TEXTURE_MIN_FILTER GL_NEAREST,
    .glTexParameteri GL_TEXTURE_CUBE_MAP GL_TEXTURE_WRAP_S GL_CLAMP_TO_EDGE,
    .glTexParameteri GL_TEXTURE_CUBE_MAP GL_TEXTURE_WRAP_T GL_CLAMP_TO_EDGE,
    .glTexParameteri GL_TEXTURE_CUBE_MAP GL_TEXTURE_WRAP_R GL_CLAMP_TO_EDGE,
    .glBindFramebuffer GL_FRAMEBUFFER h.depthMapFBO,
    .glFramebufferTexture GL_FRAMEBUFFER GL_DEPTH_ATTACHMENT h.depthCubemap 0,
    .glDrawBuffer GL_NONE,
    .glReadBuffer GL_NONE,
    .glBindFramebuffer GL_FRAMEBUFFER 0,
    .use h.shader,
    .setInt h.shader "diffuseTexture" 0,
    .setInt h.shader "depthMap" 1 ]

/-- The calls of one iteration of the render loop, from `glClearColor` to `glfwPollEvents`
(lines 182-253), for the light position and camera of the frame. -/
def frameCalls (m : Scalar K) (h : Handles) (camera : Camera K) (shadows : Bool)
    (lightPos : Vec3 K) (resize : Option (Int × Int)) : List (Call K) :=
  [ .glClearColor (1 / 10) (1 / 10) (1 / 10) 1,
    .glClear (GL_COLOR_BUFFER_BIT ||| GL_DEPTH_BUFFER_BIT),
    .glViewport 0 0 SHADOW_WIDTH SHADOW_HEIGHT,
    .glBindFramebuffer GL_FRAMEBUFFER h.depthMapFBO,
    .glClear GL_DEPTH_BUFFER_BIT,
    .use h.simpleDepthShader ] ++
  (shadowTransforms m lightPos).enum.map (fun it =>
    .setMat4 h.simpleDepthShader ("shadowMatrices[" ++ toString it.1 ++ "]") it.2) ++
  [ .setFloat h.simpleDepthShader "far_plane" far_plane,
    .setVec3 h.simpleDepthShader "lightPos" lightPos,
    .renderScene h.simpleDepthShader,
    .glBindFramebuffer GL_FRAMEBUFFER 0,
    .glViewport 0 0 SCR_WIDTH SCR_HEIGHT,
    .glClear (GL_COLOR_BUFFER_BIT ||| GL_DEPTH_BUFFER_BIT),
    .use h.shader,
    .setMat4 h.shader "projection"
      (perspective m (m.radians camera.Zoom) ((SCR_WIDTH : K) / (SCR_HEIGHT : K)) (1 / 10) 100),
    .setMat4 h.shader "view" (camera.GetViewMatrix m).1,
    .setVec3 h.shader "lightPos" lightPos,
    .setVec3 h.shader "viewPos" camera.Position,
    .setInt h.shader "shadows" (if shadows then 1 else 0),
    .setFloat h.shader "far_plane" far_plane,
    .glActiveTexture GL_TEXTURE0,
    .glBindTexture GL_TEXTURE_2D h.grassTexture,
    .glActiveTexture GL_TEXTURE1,
    .glBindTexture GL_TEXTURE_CUBE_MAP h.depthCubemap,
    .renderScene h.shader,
    .glfwSwapBuffers,
    .glfwPollEvents resize ]

/-- The scalar inputs of one frame: the camera, the `shadows` flag and the light position
after `processInput`, and the resize event (if any) `glfwPollEvents` delivers. -/
structure Frame (K : Type) where
  camera : Camera K
  shadows : Bool
  lightPos : Vec3 K
  resize : Option (Int × Int)

/-- The calls of the render loop over a sequence of frames. -/
def renderLoop (m : Scalar K) (h : Handles) : List (Frame K) → List (Call K)
  | [] => []
  | f :: fs => frameCalls m h f.camera f.shadows f.lightPos f.resize ++ renderLoop m h fs

/-- The events the claim expects of one frame: the depth pass into `depthMapFBO` at the
shadow-map size, the forward pass into framebuffer 0 at the window size, then the swap. -/
def expectedFrame (h : Handles) : List Event :=
  [ .pass h.simpleDepthShader h.simpleDepthShader h.depthMapFBO (0, 0, 1024, 1024),
    .pass h.shader h.shader 0 (0, 0, 1800, 1600),
    .swap ]

end MainCalls

/-! ## FileSystem: call sequences and the texture path of `main` -/

/-- The strings returned by a sequence of `FileSystem::getPath` calls; each call comes with
the value `getenv("LOGL_ROOT_PATH")` has at that moment. -/
def FileSystem.getPathSeq (logl_root : Option String) (s : FileSystem) :
    List (Option String × String) → List String
  | [] => []
  | (getenv, path) :: rest =>
    (FileSystem.getPath getenv logl_root s path).1 ::
      FileSystem.getPathSeq logl_root (FileSystem.getPath getenv logl_root s path).2 rest

/-- The path `main` passes to `loadTexture` (line 93): the first `getPath` call of the
program. -/
def grassTexturePath (getenv logl_root : Option String) : String :=
  (FileSystem.getPath getenv logl_root FileSystem.init "resources/textures/grass.jpeg").1

/-! ## Shader (`shader.h`) -/

/-- `GL_VERTEX_SHADER`. -/
def GL_VERTEX_SHADER : Nat := 0x8B31
/-- `GL_FRAGMENT_SHADER`. -/
def GL_FRAGMENT_SHADER : Nat := 0x8B30
/-- `GL_GEOMETRY_SHADER`. -/
def GL_GEOMETRY_SHADER : Nat := 0x8DD9

/-- What the `Shader` constructor does to the outside: opening a file stream, an OpenGL call,
or one statement writing its operands to `std::cout`. -/
inductive ShaderEvent where
  | ifstreamOpen (path : String)
  | glCreateShader (type name : Nat)
  | glShaderSource (shader : Nat) (source : String)
  | glCompileShader (shader : Nat)
  | glCreateProgram (name : Nat)
  | glAttachShader (program shader : Nat)
  | glLinkProgram (program : Nat)
  | glDeleteShader (shader : Nat)
  | cout (parts : List String)
deriving DecidableEq, Repr

/-- Whether the event is an OpenGL call. -/
def ShaderEvent.isGL : ShaderEvent → Bool
  | .ifstreamOpen _ => false
  | .cout _ => false
  | _ => true

/-- Whether the event opens a file stream. -/
def ShaderEvent.isOpen : ShaderEvent → Bool
  | .ifstreamOpen _ => true
  | _ => false

/-- What the constructor meets outside the program: the file system (`file path` is the
content of the file, `none` when `open` sets `failbit` and so throws `ifstream::failure` with
message `what path`), the names the driver returns from `glCreateShader` and
`glCreateProgram`, and the compile and link status and info log of each object. -/
structure ShaderEnv where
  file : String → Option String
  what : String → String
  vertex : Nat
  fragment : Nat
  geometry : Nat
  program : Nat
  compileStatus : Nat → Bool
  shaderInfoLog : Nat → String
  linkStatus : Nat → Bool
  programInfoLog : Nat → String

/-- The three source strings of the constructor and the events so far. -/
structure ShaderLocals where
  vertexCode : String
  fragmentCode : String
  geometryCode : String
  trace : List ShaderEvent
deriving DecidableEq, Repr

/-- Record one more event. -/
def ShaderLocals.emit (s : ShaderLocals) (e : ShaderEvent) : ShaderLocals :=
  { s with trace := s.trace ++ [e] }

/-- The `Shader` object: its program `ID`. -/
structure Shader where
  ID : Nat
deriving DecidableEq, Repr

/-- The `try` block of the constructor (lines 31-55): the locals when control leaves it, and
`Except.error` with the message of the `ifstream::failure` in flight when an `open` threw.
The two stream contents are assigned to `vertexCode` and `fragmentCode` only after both files
were opened. -/
def Shader.tryBlock (env : ShaderEnv) (vertexPath fragmentPath : String)
    (geometryPath : Option String) (s : ShaderLocals) : Except String Unit × ShaderLocals :=
  let s1 := s.emit (.ifstreamOpen vertexPath)
  match env.file vertexPath with
  | none => (.error (env.what vertexPath), s1)
  | some v =>
    let s2 := s1.emit (.ifstreamOpen fragmentPath)
    match env.file fragmentPath with
    | none => (.error (env.what fragmentPath), s2)
    | some f =>
      let s3 := { s2 with vertexCode := v, fragmentCode := f }
      match geometryPath with
      | none => (.ok (), s3)
      | some gp =>
        let s4 := s3.emit (.ifstreamOpen gp)
        match env.file gp with
        | none => (.error (env.what gp), s4)
        | some g => (.ok (), { s4 with geometryCode := g })

/-- `Shader::checkCompileErrors`. -/
def Shader.checkCompileErrors (env : ShaderEnv) (shader : Nat) (type : String)
    (s : ShaderLocals) : ShaderLocals :=
  if type ≠ "PROGRAM" then
    if !env.compileStatus shader then
      s.emit (.cout ["ERROR::SHADER_COMPILATION_ERROR of type: ", type, "\n",
        env.shaderInfoLog shader,
        "\n -- --------------------------------------------------- -- "])
    else s
  else
    if !env.linkStatus shader then
      s.emit (.cout ["ERROR::PROGRAM_LINKING_ERROR of type: ", type, "\n",
        env.programInfoLog shader,
        "\n -- --------------------------------------------------- -- "])
    else s

/-- The constructor `Shader::Shader(vertexPath, fragmentPath, geometryPath)`; `geometryPath`
is `none` for `nullptr`.  Returns the object (or the exception leaving the constructor) and
the events in order. -/
def Shader.new (env : ShaderEnv) (vertexPath fragmentPath : String)
    (geometryPath : Option String) : Except String Shader × List ShaderEvent :=
  let r := Shader.tryBlock env vertexPath fragmentPath geometryPath ⟨"", "", "", []⟩
  -- catch (std::ifstream::failure& e)
  let s0 := match r.1 with
    | .error e => r.2.emit (.cout ["ERROR::SHADER::FILE_NOT_SUCCESSFULLY_READ: ", e])
    | .ok _ => r.2
  let s1 := s0.emit (.glCreateShader GL_VERTEX_SHADER env.vertex)
  let s2 := s1.emit (.glShaderSource env.vertex s1.vertexCode)
  let s3 := s2.emit (.glCompileShader env.vertex)
  let s4 := Shader.checkCompileErrors env env.vertex "VERTEX" s3
  let s5 := s4.emit (.glCreateShader GL_FRAGMENT_SHADER env.fragment)
  let s6 := s5.emit (.glShaderSource env.fragment s5.fragmentCode)
  let s7 := s6.emit (.glCompileShader env.fragment)
  let s8 := Shader.checkCompileErrors env env.fragment "FRAGMENT" s7
  let s9 := match geometryPath with
    | some _ =>
      let g1 := s8.emit (.glCreateShader GL_GEOMETRY_SHADER env.geometry)
      let g2 := g1.emit (.glShaderSource env.geometry g1.geometryCode)
      let g3 := g2.emit (.glCompileShader env.geometry)
      Shader.checkCompileErrors env env.geometry "GEOMETRY" g3
    | none => s8
  let s10 := s9.emit (.glCreateProgram env.program)
  let s11 := s10.emit (.glAttachShader env.program env.vertex)
  let s12 := s11.emit (.glAttachShader env.program env.fragment)
  let s13 := match geometryPath with
    | some _ => s12.emit (.glAttachShader env.program env.geometry)
    | none => s12
  let s14 := s13.emit (.glLinkProgram env.program)
  let s15 := Shader.checkCompileErrors env env.program "PROGRAM" s14
  let s16 := s15.emit (.glDeleteShader env.vertex)
  let s17 := s16.emit (.glDeleteShader env.fragment)
  let s18 := match geometryPath with
    | some _ => s17.emit (.glDeleteShader env.geometry)
    | none => s17
  (.ok ⟨env.program⟩, s18.trace)

/-- The sources the three stages are compiled from: the locals after the `try` block. -/
def Shader.sources (env : ShaderEnv) (vertexPath fragmentPath : String)
    (geometryPath : Option String) : ShaderLocals :=
  (Shader.tryBlock env vertexPath fragmentPath geometryPath ⟨"", "", "", []⟩).2

/-- A file system in which no file can be opened, with fixed object names and every compile
and link succeeding. -/
def ShaderEnv.noFiles : ShaderEnv :=
  { file := fun _ => none, what := fun _ => "basic_ios::clear", vertex := 1, fragment := 2,
    geometry := 3, program := 4, compileStatus := fun _ => true, shaderInfoLog := fun _ => "",
    linkStatus := fun _ => true, programInfoLog := fun _ => "" }

/-- What `checkCompileErrors` prints for the object `shader`. -/
def Shader.checkOutput (env : ShaderEnv) (shader : Nat) (type : String) : List ShaderEvent :=
  (Shader.checkCompileErrors env shader type ⟨"", "", "", []⟩).trace

/-- What the `catch` block prints for the outcome of the `try` block. -/
def Shader.catchOutput : Except String Unit → List ShaderEvent
  | .error e => [.cout ["ERROR::SHADER::FILE_NOT_SUCCESSFULLY_READ: ", e]]
  | .ok _ => []

/-- Whether the event writes to `std::cout`. -/
def ShaderEvent.isCout : ShaderEvent → Bool
  | .cout _ => true
  | _ => false

/-- The first of the vertex, fragment and (when given) geometry file, in that order, that
cannot be opened; `none` when every file the constructor is given can be opened. -/
def Shader.firstUnreadable (env : ShaderEnv) (vertexPath fragmentPath : String)
    (geometryPath : Option String) : Option String :=
  if env.file vertexPath = none then some vertexPath
  else if env.file fragmentPath = none then some fragmentPath
  else match geometryPath with
    | some g => if env.file g = none then some g else none
    | none => none

/-- The line `checkCompileErrors` prints for a stage that failed to compile. -/
def compileErrorLine (type infoLog : String) : ShaderEvent :=
  .cout ["ERROR::SHADER_COMPILATION_ERROR of type: ", type, "\n", infoLog,
    "\n -- --------------------------------------------------- -- "]

/-- The line `checkCompileErrors` prints for a program that failed to link. -/
def linkErrorLine (infoLog : String) : ShaderEvent :=
  .cout ["ERROR::PROGRAM_LINKING_ERROR of type: ", "PROGRAM", "\n", infoLog,
    "\n -- --------------------------------------------------- -- "]

/-! ## Mesh (`mesh.h`) -/

/-- `GL_TRIANGLES`. -/
def GL_TRIANGLES : Nat := 0x0004
/-- `GL_UNSIGNED_INT`. -/
def GL_UNSIGNED_INT : Nat := 0x1405

/-- The `glm::vec2` of the source. -/
structure Vec2 (K : Type) where
  x : K
  y : K
deriving DecidableEq, Repr

/-- The `Vertex` struct (the bone arrays, which no code writes, are left out). -/
structure Vertex (K : Type) where
  Position : Vec3 K
  Normal : Vec3 K
  TexCoords : Vec2 K
  Tangent : Vec3 K
  Bitangent : Vec3 K
deriving DecidableEq, Repr

/-- The `Texture` struct. -/
structure Texture where
  id : Nat
  type : String
  path : String
deriving DecidableEq, Repr

/-- The `Mesh` class: its data members (the private `VBO`, `EBO` are never read). -/
structure Mesh (K : Type) where
  vertices : List (Vertex K)
  indices : List Nat
  textures : List Texture
  VAO : Nat
deriving DecidableEq, Repr

/-- An OpenGL call of `Mesh::Draw`; `glUniform1i program name value` stands for
`glUniform1i(glGetUniformLocation(program, name), value)`. -/
inductive DrawCall where
  | glActiveTexture (texture : Nat)
  | glUniform1i (program : Nat) (name : String) (value : Nat)
  | glBindTexture (target texture : Nat)
  | glBindVertexArray (array : Nat)
  | glDrawElements (mode count type : Nat)
deriving DecidableEq, Repr

/-- The four counters of `Mesh::Draw`. -/
structure SamplerCounters where
  diffuseNr : Nat
  specularNr : Nat
  normalNr : Nat
  heightNr : Nat
deriving DecidableEq, Repr

/-- The `if … else if` chain of `Mesh::Draw`: the `number` string for a texture type and the
counters after the post-increment. -/
def Mesh.number (name : String) (c : SamplerCounters) : String × SamplerCounters :=
  if name = "texture_diffuse" then (toString c.diffuseNr, { c with diffuseNr := c.diffuseNr + 1 })
  else if name = "texture_specular" then
    (toString c.specularNr, { c with specularNr := c.specularNr + 1 })
  else if name = "texture_normal" then
    (toString c.normalNr, { c with normalNr := c.normalNr + 1 })
  else if name = "texture_height" then
    (toString c.heightNr, { c with heightNr := c.heightNr + 1 })
  else ("", c)

/-- The texture loop of `Mesh::Draw` from index `i` on, over the textures not yet visited. -/
def Mesh.bindTextures (shader : Shader) : Nat → SamplerCounters → List Texture → List DrawCall
  | _, _, [] => []
  | i, c, t :: ts =>
    [ .glActiveTexture (GL_TEXTURE0 + i),
      .glUniform1i shader.ID (t.type ++ (Mesh.number t.type c).1) i,
      .glBindTexture GL_TEXTURE_2D t.id ] ++
    Mesh.bindTextures shader (i + 1) (Mesh.number t.type c).2 ts

/-- `Mesh::Draw`. -/
def Mesh.Draw {K : Type} (mesh : Mesh K) (shader : Shader) : List DrawCall :=
  Mesh.bindTextures shader 0 ⟨1, 1, 1, 1⟩ mesh.textures ++
  [ .glBindVertexArray mesh.VAO,
    .glDrawElements GL_TRIANGLES mesh.indices.length GL_UNSIGNED_INT,
    .glBindVertexArray 0,
    .glActiveTexture GL_TEXTURE0 ]

/-- The sampler name the claim gives the texture at index `i` of `textures`: for the four
numbered types the type followed by the 1-based count of textures of that type among the
indices `0..i`, for any other type the bare type. -/
def samplerName (textures : List Texture) (i : Nat) : String :=
  match textures[i]? with
  | none => ""
  | some t =>
    if t.type = "texture_diffuse" ∨ t.type = "texture_specular" ∨ t.type = "texture_normal" ∨
        t.type = "texture_height" then
      t.type ++ toString ((textures.take (i + 1)).countP (fun u => u.type = t.type))
    else t.type

/-- The counters of `Mesh::Draw` after the textures `pre`: one more than the number of
textures of each type seen. -/
def countersAfter (pre : List Texture) : SamplerCounters :=
  ⟨1 + pre.countP (fun u => u.type = "texture_diffuse"),
   1 + pre.countP (fun u => u.type = "texture_specular"),
   1 + pre.countP (fun u => u.type = "texture_normal"),
   1 + pre.countP (fun u => u.type = "texture_height")⟩

/-- The calls the claim expects for the textures from index `i` on. -/
def expectedBinds (shader : Shader) (textures : List Texture) : Nat → List Texture → List DrawCall
  | _, [] => []
  | i, t :: ts =>
    [ .glActiveTexture (GL_TEXTURE0 + i),
      .glUniform1i shader.ID (samplerName textures i) i,
      .glBindTexture GL_TEXTURE_2D t.id ] ++ expectedBinds shader textures (i + 1) ts

/-! ## Model (`model.h`) -/

/-- `AI_SCENE_FLAGS_INCOMPLETE`. -/
def AI_SCENE_FLAGS_INCOMPLETE : Nat := 0x1

/-- The texture types of the importer that `processMesh` asks for, and the others. -/
inductive aiTextureType where
  | aiTextureType_NONE
  | aiTextureType_DIFFUSE
  | aiTextureType_SPECULAR
  | aiTextureType_AMBIENT
  | aiTextureType_EMISSIVE
  | aiTextureType_HEIGHT
  | aiTextureType_NORMALS
deriving DecidableEq, Repr

/-- An importer material: for each type the texture paths in material order, so that
`GetTextureCount(type)` is the length and `GetTexture(type, i)` the `i`-th entry. -/
structure aiMaterial where
  textures : aiTextureType → List String

/-- An importer mesh: the arrays `processMesh` reads; an absent array is `none`. -/
structure aiMesh (K : Type) where
  mVertices : List (Vec3 K)
  mNormals : Option (List (Vec3 K))
  mTextureCoords0 : Option (List (Vec3 K))
  mTangents : List (Vec3 K)
  mBitangents : List (Vec3 K)
  mFaces : List (List Nat)
  mMaterialIndex : Nat

/-- An importer node: the indices of its meshes in the scene, and its children. -/
inductive aiNode where
  | mk (mMeshes : List Nat) (mChildren : List aiNode)

/-- An importer scene. -/
structure aiScene (K : Type) where
  mFlags : Nat
  mRootNode : Option aiNode
  mMeshes : List (aiMesh K)
  mMaterials : List aiMaterial

/-- The importer as `loadModel` sees it: what `ReadFile` returns for a path (`none` for a
null scene) and the string `GetErrorString` then returns. -/
structure Importer (K : Type) where
  ReadFile : String → Option (aiScene K)
  GetErrorString : String → String

/-- The names the driver hands out: the texture name written by the `n`-th `glGenTextures`
call of `TextureFromFile` and the name written by the `n`-th `glGenVertexArrays` call of
`setupMesh`. -/
structure GLNames where
  texture : Nat → Nat
  vertexArray : Nat → Nat

/-- One call of `TextureFromFile`: its arguments and the file name it hands to `stbi_load`. -/
structure TextureLoad where
  path : String
  directory : String
  filename : String
deriving DecidableEq, Repr

/-- What a `Model` leaves outside itself: the `TextureFromFile` calls made, the number of
vertex arrays generated, and the lines written to `cout`. -/
structure World where
  loads : List TextureLoad
  vertexArrays : Nat
  cout : List (List String)
deriving DecidableEq, Repr

/-- Nothing done yet. -/
def World.init : World := { loads := [], vertexArrays := 0, cout := [] }

/-- The data members of `Model`. -/
structure Model (K : Type) where
  textures_loaded : List Texture
  meshes : List (Mesh K)
  directory : String
  gammaCorrection : Bool

/-- `TextureFromFile(path, directory)`: the texture name returned.  The image upload, which
does not bear on the value returned, is left out. -/
def TextureFromFile (gl : GLNames) (path directory : String) (w : World) : Nat × World :=
  let filename := directory ++ "/" ++ path
  (gl.texture w.loads.length, { w with loads := w.loads ++ [⟨path, directory, filename⟩] })

section ModelDefs

variable {K : Type} [Zero K]

/-- The constructor `Mesh::Mesh`: `setupMesh` writes the name of a new vertex array to
`VAO`. -/
def Mesh.new (gl : GLNames) (vertices : List (Vertex K)) (indices : List Nat)
    (textures : List Texture) (w : World) : Mesh K × World :=
  (⟨vertices, indices, textures, gl.vertexArray w.vertexArrays⟩,
    { w with vertexArrays := w.vertexArrays + 1 })

/-- One iteration of the loop of `loadMaterialTextures`, for the path `str`: reuse the first
loaded texture with that path, or load the file and remember it. -/
def Model.loadTexture (gl : GLNames) (typeName : String) (str : String)
    (acc : List Texture × Model K × World) : List Texture × Model K × World :=
  match acc.2.1.textures_loaded.find? (fun t => t.path = str) with
  | some t => (acc.1 ++ [t], acc.2.1, acc.2.2)
  | none =>
    let r := TextureFromFile gl str acc.2.1.directory acc.2.2
    let texture : Texture := ⟨r.1, typeName, str⟩
    (acc.1 ++ [texture],
      { acc.2.1 with textures_loaded := acc.2.1.textures_loaded ++ [texture] }, r.2)

/-- `Model::loadMaterialTextures`: the textures returned, and the model and world after. -/
def Model.loadMaterialTextures (gl : GLNames) (mat : aiMaterial) (type : aiTextureType)
    (typeName : String) (m : Model K) (w : World) : List Texture × Model K × World :=
  (mat.textures type).foldl (fun acc str => Model.loadTexture gl typeName str acc) ([], m, w)

/-- The vertex `processMesh` builds for index `i`.  Members a branch does not assign are
indeterminate in the source; they are zero here. -/
def Model.processVertex (mesh : aiMesh K) (i : Nat) : Vertex K :=
  let zero3 : Vec3 K := ⟨0, 0, 0⟩
  let position := mesh.mVertices.getD i zero3
  let normal := match mesh.mNormals with
    | some ns => ns.getD i zero3
    | none => zero3
  match mesh.mTextureCoords0 with
  | some uv =>
    { Position := position, Normal := normal,
      TexCoords := ⟨(uv.getD i zero3).x, (uv.getD i zero3).y⟩,
      Tangent := mesh.mTangents.getD i zero3, Bitangent := mesh.mBitangents.getD i zero3 }
  | none =>
    { Position := position, Normal := normal, TexCoords := ⟨0, 0⟩,
      Tangent := zero3, Bitangent := zero3 }

/-- The vertex list of `processMesh`. -/
def Model.processVertices (mesh : aiMesh K) : List (Vertex K) :=
  (List.range mesh.mVertices.length).map (Model.processVertex mesh)

/-- The index list of `processMesh`: the indices of every face, face after face. -/
def Model.processIndices (mesh : aiMesh K) : List Nat :=
  mesh.mFaces.flatten

/-- `Model::processMesh`. -/
def Model.processMesh (gl : GLNames) (scene : aiScene K) (mesh : aiMesh K) (m : Model K)
    (w : World) : Mesh K × Model K × World :=
  let vertices := Model.processVertices mesh
  let indices := Model.processIndices mesh
  let material := scene.mMaterials.getD mesh.mMaterialIndex ⟨fun _ => []⟩
  let d := Model.loadMaterialTextures gl material .aiTextureType_DIFFUSE "texture_diffuse" m w
  let s := Model.loadMaterialTextures gl material .aiTextureType_SPECULAR "texture_specular"
    d.2.1 d.2.2
  let n := Model.loadMaterialTextures gl material .aiTextureType_HEIGHT "texture_normal"
    s.2.1 s.2.2
  let h := Model.loadMaterialTextures gl material .aiTextureType_AMBIENT "texture_height"
    n.2.1 n.2.2
  let r := Mesh.new gl vertices indices (d.1 ++ s.1 ++ n.1 ++ h.1) h.2.2
  (r.1, h.2.1, r.2)

/-- The first loop of `processNode`: process the mesh of each index and append it to
`meshes`. -/
def Model.processNodeMeshes (gl : GLNames) (scene : aiScene K) :
    List Nat → Model K × World → Model K × World
  | [], st => st
  | idx :: rest, st =>
    let r := Model.processMesh gl scene
      (scene.mMeshes.getD idx ⟨[], none, none, [], [], [], 0⟩) st.1 st.2
    Model.processNodeMeshes gl scene rest
      ({ r.2.1 with meshes := r.2.1.meshes ++ [r.1] }, r.2.2)

mutual
/-- `Model::processNode`. -/
def Model.processNode (gl : GLNames) (scene : aiScene K) :
    aiNode → Model K × World → Model K × World
  | .mk mMeshes mChildren, st =>
    Model.processChildren gl scene mChildren (Model.processNodeMeshes gl scene mMeshes st)
/-- The second loop of `processNode`: recurse into each child in order. -/
def Model.processChildren (gl : GLNames) (scene : aiScene K) :
    List aiNode → Model K × World → Model K × World
  | [], st => st
  | c :: cs, st => Model.processChildren gl scene cs (Model.processNode gl scene c st)
end

end ModelDefs

mutual
/-- The mesh indices of a node tree in depth-first pre-order: those of the node, then those
of each child subtree in child order. -/
def aiNode.meshRefs : aiNode → List Nat
  | .mk mMeshes mChildren => mMeshes ++ aiNode.meshRefsList mChildren
/-- The mesh indices of a list of subtrees, subtree after subtree. -/
def aiNode.meshRefsList : List aiNode → List Nat
  | [] => []
  | c :: cs => aiNode.meshRefs c ++ aiNode.meshRefsList cs
end

mutual
/-- The sum of `mNumMeshes` over all nodes of a tree. -/
def aiNode.totalMeshes : aiNode → Nat
  | .mk mMeshes mChildren => mMeshes.length + aiNode.totalMeshesList mChildren
/-- The sum of `mNumMeshes` over all nodes of a list of trees. -/
def aiNode.totalMeshesList : List aiNode → Nat
  | [] => 0
  | c :: cs => aiNode.totalMeshes c + aiNode.totalMeshesList cs
end

/-- The geometry of a mesh: its vertices and indices. -/
def Mesh.geometry {K : Type} (mesh : Mesh K) : List (Vertex K) × List Nat :=
  (mesh.vertices, mesh.indices)

/-- The geometry `processMesh` extracts from the scene mesh with index `idx`. -/
def aiScene.geometry {K : Type} [Zero K] (scene : aiScene K) (idx : Nat) :
    List (Vertex K) × List Nat :=
  (Model.processVertices (scene.mMeshes.getD idx ⟨[], none, none, [], [], [], 0⟩),
   Model.processIndices (scene.mMeshes.getD idx ⟨[], none, none, [], [], [], 0⟩))

/-- A sequence of `loadMaterialTextures` calls on one model, each given by its material,
type and type name: the list returned by each call, and the model and world at the end. -/
def Model.loadSeq {K : Type} (gl : GLNames) :
    List (aiMaterial × aiTextureType × String) → Model K → World →
      List (List Texture) × Model K × World
  | [], m, w => ([], m, w)
  | c :: rest, m, w =>
    let r := Model.loadMaterialTextures gl c.1 c.2.1 c.2.2 m w
    let rs := Model.loadSeq gl rest r.2.1 r.2.2
    (r.1 :: rs.1, rs.2)

/-- The paths of `textures_loaded` are pairwise distinct and are exactly the paths
`TextureFromFile` was called with, in order. -/
def Model.LoadedOnce {K : Type} (m : Model K) (w : World) : Prop :=
  w.loads.map (fun l => l.path) = m.textures_loaded.map (fun t => t.path) ∧
  (m.textures_loaded.map (fun t => t.path)).Nodup

/-- `std::string::find_last_of(c)` on the characters of a string: the position of the last
occurrence of `c`, `none` for `npos`. -/
def find_last_of : List Char → Char → Option Nat
  | [], _ => none
  | x :: xs, c =>
    match find_last_of xs c with
    | some k => some (k + 1)
    | none => if x = c then some 0 else none

/-- `std::string::substr(0, count)`, `count` being `none` for `npos`. -/
def substr0 (s : String) (count : Option Nat) : String :=
  match count with
  | some k => String.mk (s.data.take k)
  | none => s

section ModelLoadDefs

variable {K : Type} [Zero K]

/-- `Model::loadModel`. -/
def Model.loadModel (gl : GLNames) (importer : Importer K) (path : String) (m : Model K)
    (w : World) : Model K × World :=
  match importer.ReadFile path with
  | none =>
    (m, { w with cout := w.cout ++ [["ERROR::ASSIMP:: ", importer.GetErrorString path]] })
  | some scene =>
    if scene.mFlags &&& AI_SCENE_FLAGS_INCOMPLETE ≠ 0 then
      (m, { w with cout := w.cout ++ [["ERROR::ASSIMP:: ", importer.GetErrorString path]] })
    else
      match scene.mRootNode with
      | none =>
        (m, { w with cout := w.cout ++ [["ERROR::ASSIMP:: ", importer.GetErrorString path]] })
      | some root =>
        Model.processNode gl scene root
          ({ m with directory := substr0 path (find_last_of path.data '/') }, w)

/-- The constructor `Model::Model(path, gamma)`: the vectors and the string start empty. -/
def Model.new (gl : GLNames) (importer : Importer K) (path : String) (gamma : Bool)
    (w : World) : Model K × World :=
  Model.loadModel gl importer path ⟨[], [], "", gamma⟩ w

end ModelLoadDefs

/-- `Model::Draw`: the calls of `Mesh::Draw` for each mesh in order. -/
def Model.Draw {K : Type} (m : Model K) (shader : Shader) : List DrawCall :=
  m.meshes.flatMap (fun mesh => mesh.Draw shader)


/-! ## Entry point: `renderScene` (lines 260-311) -/

/-- `GL_CULL_FACE`. -/
def GL_CULL_FACE : Nat := 0x0B44
/-- `GL_DEPTH_TEST`. -/
def GL_DEPTH_TEST : Nat := 0x0B71

section SceneDefs

variable {K : Type} [Field K]

/-- GLM `glm::mat4(1.0f)`: the identity. -/
def Mat4.identity : Mat4 K :=
  ⟨⟨1, 0, 0, 0⟩, ⟨0, 1, 0, 0⟩, ⟨0, 0, 1, 0⟩, ⟨0, 0, 0, 1⟩⟩

/-- GLM `glm::translate(m, v)`: the last column becomes
`m[0] * v[0] + m[1] * v[1] + m[2] * v[2] + m[3]`. -/
def translate (m : Mat4 K) (v : Vec3 K) : Mat4 K :=
  ⟨m.c0, m.c1, m.c2,
    Vec4.add (Vec4.add (Vec4.add (m.c0.smul v.x) (m.c1.smul v.y)) (m.c2.smul v.z)) m.c3⟩

/-- GLM `glm::scale(m, v)`: the first three columns are scaled by the components of `v`. -/
def scale (m : Mat4 K) (v : Vec3 K) : Mat4 K :=
  ⟨m.c0.smul v.x, m.c1.smul v.y, m.c2.smul v.z, m.c3⟩

/-- A call of `renderScene`: a `Shader` setter, a capability switch, or `renderCube`.  The
setters write the uniform of the program in use, which is the shader passed: both callers
call `use()` on it first. -/
inductive SceneCall (K : Type) where
  | setMat4 (shader : Nat) (name : String) (value : Mat4 K)
  | setInt (shader : Nat) (name : String) (value : Int)
  | glEnable (cap : Nat)
  | glDisable (cap : Nat)
  | renderCube

/-- `renderScene(shader)`: its calls in order. -/
def renderScene (shader : Shader) : List (SceneCall K) :=
  [ .setMat4 shader.ID "model" (scale Mat4.identity ⟨5, 5, 5⟩),
    .glDisable GL_CULL_FACE,
    .setInt shader.ID "reverse_normals" 1,
    .renderCube,
    .setInt shader.ID "reverse_normals" 0,
    .glEnable GL_CULL_FACE,
    .setMat4 shader.ID "model"
      (scale (translate Mat4.identity ⟨4, -(7 / 2), 0⟩) ⟨1 / 2, 1 / 2, 1 / 2⟩),
    .renderCube,
    .setMat4 shader.ID "model"
      (scale (translate Mat4.identity ⟨2, 3, 1⟩) ⟨3 / 4, 3 / 4, 3 / 4⟩),
    .renderCube,
    .setMat4 shader.ID "model"
      (scale (translate Mat4.identity ⟨-3, -1, 0⟩) ⟨1 / 2, 1 / 2, 1 / 2⟩),
    .renderCube,
    .setMat4 shader.ID "model"
      (scale (translate Mat4.identity ⟨-(3 / 2), 1, 3 / 2⟩) ⟨1 / 2, 1 / 2, 1 / 2⟩),
    .renderCube,
    .setMat4 shader.ID "model"
      (scale (translate Mat4.identity ⟨-(3 / 2), 2, -3⟩) ⟨3 / 4, 3 / 4, 3 / 4⟩),
    .renderCube ]

/-- The state `renderScene` changes: whether face culling is enabled, and the integer and
matrix uniforms by shader and name. -/
structure SceneState (K : Type) where
  cullFace : Bool
  ints : Nat → String → Int
  mats : Nat → String → Mat4 K

/-- The effect of one call on the state. -/
def SceneState.step (s : SceneState K) : SceneCall K → SceneState K
  | .setMat4 shader name value =>
    { s with mats := fun p n => if p = shader ∧ n = name then value else s.mats p n }
  | .setInt shader name value =>
    { s with ints := fun p n => if p = shader ∧ n = name then value else s.ints p n }
  | .glEnable cap => if cap = GL_CULL_FACE then { s with cullFace := true } else s
  | .glDisable cap => if cap = GL_CULL_FACE then { s with cullFace := false } else s
  | .renderCube => s

/-- The state after a sequence of calls. -/
def SceneState.run (s : SceneState K) : List (SceneCall K) → SceneState K
  | [] => s
  | c :: cs => SceneState.run (s.step c) cs

/-- For each `renderCube` of a sequence of calls, in order: whether culling is enabled, the
value of `reverse_normals` and the `model` matrix of the shader at that moment. -/
def cubesDrawn (shader : Shader) (s : SceneState K) :
    List (SceneCall K) → List (Bool × Int × Mat4 K)
  | [] => []
  | .renderCube :: cs =>
    (s.cullFace, s.ints shader.ID "reverse_normals", s.mats shader.ID "model") ::
      cubesDrawn shader s cs
  | c :: cs => cubesDrawn shader (s.step c) cs

end SceneDefs

/-! ## Entry point: `renderCube` (lines 313-413) -/

/-- One vertex as the attribute pointers of `renderCube` read it from the array: attribute 0
is three floats at offset 0 (position), attribute 1 three floats at offset 3 (normal),
attribute 2 two floats at offset 6 (texture coordinates), with a stride of 8 floats. -/
structure CubeVertex (K : Type) where
  position : Vec3 K
  normal : Vec3 K
  texCoords : Vec2 K
deriving DecidableEq, Repr

section CubeDefs

variable {K : Type} [LinearOrderedField K]

/-- The array `vertices` of `renderCube`. -/
def renderCube.vertices : List K :=
  [
    -- back face
    -1, -1, -1, 0, 0, -1, 0, 0,
    1, 1, -1, 0, 0, -1, 1, 1,
    1, -1, -1, 0, 0, -1, 1, 0,
    1, 1, -1, 0, 0, -1, 1, 1,
    -1, -1, -1, 0, 0, -1, 0, 0,
    -1, 1, -1, 0, 0, -1, 0, 1,
    -- front face
    -1, -1, 1, 0, 0, 1, 0, 0,
    1, -1, 1, 0, 0, 1, 1, 0,
    1, 1, 1, 0, 0, 1, 1, 1,
    1, 1, 1, 0, 0, 1, 1, 1,
    -1, 1, 1, 0, 0, 1, 0, 1,
    -1, -1, 1, 0, 0, 1, 0, 0,
    -- left face
    -1, 1, 1, -1, 0, 0, 1, 0,
    -1, 1, -1, -1, 0, 0, 1, 1,
    -1, -1, -1, -1, 0, 0, 0, 1,
    -1, -1, -1, -1, 0, 0, 0, 1,
    -1, -1, 1, -1, 0, 0, 0, 0,
    -1, 1, 1, -1, 0, 0, 1, 0,
    -- right face
    1, 1, 1, 1, 0, 0, 1, 0,
    1, -1, -1, 1, 0, 0, 0, 1,
    1, 1, -1, 1, 0, 0, 1, 1,
    1, -1, -1, 1, 0, 0, 0, 1,
    1, 1, 1, 1, 0, 0, 1, 0,
    1, -1, 1, 1, 0, 0, 0, 0,
    -- bottom face
    -1, -1, -1, 0, -1, 0, 0, 1,
    1, -1, -1, 0, -1, 0, 1, 1,
    1, -1, 1, 0, -1, 0, 1, 0,
    1, -1, 1, 0, -1, 0, 1, 0,
    -1, -1, 1, 0, -1, 0, 0, 0,
    -1, -1, -1, 0, -1, 0, 0, 1,
    -- top face
    -1, 1, -1, 0, 1, 0, 0, 1,
    1, 1, 1, 0, 1, 0, 1, 0,
    1, 1, -1, 0, 1, 0, 1, 1,
    1, 1, 1, 0, 1, 0, 1, 0,
    -1, 1, -1, 0, 1, 0, 0, 1,
    -1, 1, 1, 0, 1, 0, 0, 0
  ]

/-- The vertices the attribute pointers read from a float array, 8 floats each. -/
def readVertices : List K → List (CubeVertex K)
  | x :: y :: z :: nx :: ny :: nz :: s :: t :: rest =>
    ⟨⟨x, y, z⟩, ⟨nx, ny, nz⟩, ⟨s, t⟩⟩ :: readVertices rest
  | _ => []

/-- The triangles `GL_TRIANGLES` assembles from a vertex list: consecutive triples. -/
def assembleTriangles : List (CubeVertex K) → List (CubeVertex K × CubeVertex K × CubeVertex K)
  | v0 :: v1 :: v2 :: rest => (v0, v1, v2) :: assembleTriangles rest
  | _ => []

/-- The vertices `glDrawArrays(GL_TRIANGLES, 0, 36)` draws from the array of `renderCube`. -/
def renderCube.drawn : List (CubeVertex K) :=
  (readVertices renderCube.vertices).take 36

/-- The extent of a list of numbers: the largest minus the smallest (0 for the empty list). -/
def extent : List K → K
  | [] => 0
  | x :: xs => xs.foldl max x - xs.foldl min x

/-- What the claim asks of a triangle `(v0, v1, v2)`: the three vertices carry the same normal
`n`, which is an axis-aligned unit vector, each vertex lies on the face of that normal
(`v . n = 1`), and the winding is counter-clockwise seen from outside
(`((v1 - v0) x (v2 - v0)) . n > 0`). -/
def FrontFacing (t : CubeVertex K × CubeVertex K × CubeVertex K) : Prop :=
  t.2.1.normal = t.1.normal ∧ t.2.2.normal = t.1.normal ∧
  (t.1.normal = ⟨1, 0, 0⟩ ∨ t.1.normal = ⟨-1, 0, 0⟩ ∨ t.1.normal = ⟨0, 1, 0⟩ ∨
    t.1.normal = ⟨0, -1, 0⟩ ∨ t.1.normal = ⟨0, 0, 1⟩ ∨ t.1.normal = ⟨0, 0, -1⟩) ∧
  dot t.1.position t.1.normal = 1 ∧ dot t.2.1.position t.1.normal = 1 ∧
  dot t.2.2.position t.1.normal = 1 ∧
  0 < dot (cross (t.2.1.position - t.1.position) (t.2.2.position - t.1.position)) t.1.normal

end CubeDefs

/-! ## Shader: the sources compiled -/

/-- Whether the event is a `glShaderSource` call. -/
def ShaderEvent.isSource : ShaderEvent → Bool
  | .glShaderSource _ _ => true
  | _ => false

/-- A file system holding exactly the listed files (path and content), with fixed object names
and every compile and link succeeding. -/
def ShaderEnv.withFiles (files : List (String × String)) : ShaderEnv :=
  { file := fun p => files.lookup p, what := fun _ => "basic_ios::clear", vertex := 1,
    fragment := 2, geometry := 3, program := 4, compileStatus := fun _ => true,
    shaderInfoLog := fun _ => "", linkStatus := fun _ => true, programInfoLog := fun _ => "" }

/-! ## Model: directory of the loads -/

/-- Every `TextureFromFile` call so far was given the directory `d` and opened
`d + "/" + path`. -/
def World.LoadsFrom (d : String) (w : World) : Prop :=
  ∀ l ∈ w.loads, l.directory = d ∧ l.filename = d ++ "/" ++ l.path

/-- A material whose only textures are the given paths of one type. -/
def aiMaterial.single (type : aiTextureType) (paths : List String) : aiMaterial :=
  ⟨fun t => if t = type then paths else []⟩

/-! ## Entry point: the light and the scene geometry -/

section LightDefs

variable {K : Type} [LinearOrderedField K]

/-- The light position of a frame: `lightPos` starts as `(0, 0, 0)` and line 178 sets
`lightPos.z = sin(glfwGetTime() * 0.5) * 3.0`; `time` is the value of `glfwGetTime()`. -/
def lightPosAt (m : Scalar K) (time : K) : Vec3 K :=
  ⟨0, 0, m.sin (time * (1 / 2)) * 3⟩

/-- The solid cube drawn with model matrix `M`: the image of `[-1, 1]^3`, the cube spanned by
the vertex positions of `renderCube`. -/
def InCube (M : Mat4 K) (q : Vec3 K) : Prop :=
  ∃ v : Vec3 K, |v.x| ≤ 1 ∧ |v.y| ≤ 1 ∧ |v.z| ≤ 1 ∧ M.mulVec (point v) = point q

/-- The interior of the cube drawn with model matrix `M`: the image of the open cube. -/
def StrictlyInCube (M : Mat4 K) (q : Vec3 K) : Prop :=
  ∃ v : Vec3 K, |v.x| < 1 ∧ |v.y| < 1 ∧ |v.z| < 1 ∧ M.mulVec (point v) = point q

end LightDefs

/-! ## Entry point: sampler uniforms and attachments -/

/-- The objects of the context the sampler claim speaks of: the integer uniforms by program
and name (`none` while never set) and the texture attached to `GL_DEPTH_ATTACHMENT` of each
framebuffer. -/
structure GLObjects where
  ints : Nat → String → Option Int
  depthAttachment : Nat → Nat

/-- The effect of one call on the objects, in the context state `s` before the call.
`setInt` is `glUniform1i` at the location looked up in `shader`: it writes that uniform when
`shader` is the program in use (as in every call of `main`).  `glFramebufferTexture` attaches
to the framebuffer bound. -/
def GLObjects.step {K : Type} (g : GLObjects) (s : GLState) : Call K → GLObjects
  | .setInt shader name value =>
    if s.program = shader then
      { g with ints := fun p n => if p = shader ∧ n = name then some value else g.ints p n }
    else g
  | .glFramebufferTexture target attachment texture _ =>
    if target = GL_FRAMEBUFFER ∧ attachment = GL_DEPTH_ATTACHMENT then
      { g with depthAttachment := fun f =>
          if f = s.framebuffer then texture else g.depthAttachment f }
    else g
  | _ => g

/-- The objects after a sequence of calls started in the context state `s`. -/
def GLObjects.run {K : Type} (g : GLObjects) (s : GLState) : List (Call K) → GLObjects
  | [] => g
  | c :: cs => GLObjects.run (g.step s c) (s.step c) cs

/-- The context state and objects at each `renderScene` call of a sequence, in order. -/
def passStates {K : Type} (s : GLState) (g : GLObjects) :
    List (Call K) → List (GLState × GLObjects)
  | [] => []
  | .renderScene shader :: cs => (s, g) :: passStates (s.step (.renderScene shader : Call K))
      (g.step s (.renderScene shader : Call K)) cs
  | c :: cs => passStates (s.step c) (g.step s c) cs

/-- What start-up establishes and every frame keeps: the two sampler uniforms of the
lighting shader and the depth attachment of `depthMapFBO`. -/
def SamplersSet (h : Handles) (g : GLObjects) : Prop :=
  g.ints h.shader "diffuseTexture" = some 0 ∧ g.ints h.shader "depthMap" = some 1 ∧
  g.depthAttachment h.depthMapFBO = h.depthCubemap

/-- The sampler units agree with the texture units: the unit named by `diffuseTexture` (0)
has the diffuse texture bound as `GL_TEXTURE_2D`, the unit named by `depthMap` (1) has bound
as `GL_TEXTURE_CUBE_MAP` the depth cubemap, which is the depth attachment of `depthMapFBO`. -/
def SamplersAgree (h : Handles) (st : GLState × GLObjects) : Prop :=
  st.2.ints h.shader "diffuseTexture" = some 0 ∧
  st.1.boundTexture (GL_TEXTURE0 + 0) GL_TEXTURE_2D = h.grassTexture ∧
  st.2.ints h.shader "depthMap" = some 1 ∧
  st.1.boundTexture (GL_TEXTURE0 + 1) GL_TEXTURE_CUBE_MAP = h.depthCubemap ∧
  st.2.depthAttachment h.depthMapFBO = h.depthCubemap

/-! ## The `float` of the source: IEEE-754 binary32

The GLM and camera definitions above are functions of the arithmetic operations alone, so
they can be read over a field (exact arithmetic) and over the `float` the program runs on.
`F32` is that `float`: its values are the 32-bit patterns, its operations round to nearest,
ties to even.
-/

/-- An IEEE-754 binary32 value, by its three bit fields: the sign bit, the 8-bit biased
exponent and the 23-bit fraction. -/
structure F32 where
  sign : Bool
  exp : Fin 256
  frac : Fin 8388608
deriving DecidableEq, Repr

/-- The value with the given fields, each taken modulo the size of its field. -/
def F32.pack (sign : Bool) (exp frac : Nat) : F32 :=
  ⟨sign, ⟨exp % 256, Nat.mod_lt _ (by decide)⟩, ⟨frac % 8388608, Nat.mod_lt _ (by decide)⟩⟩

/-- The value with the 32-bit pattern `n`. -/
def F32.ofBits (n : Nat) : F32 := F32.pack (n / 2147483648 % 2 == 1) (n / 8388608) n

/-- Whether the value is a NaN: exponent field all ones, fraction non-zero. -/
def F32.isNaN (a : F32) : Bool := a.exp.val == 255 && a.frac.val != 0

/-- Whether the value is an infinity: exponent field all ones, fraction zero. -/
def F32.isInf (a : F32) : Bool := a.exp.val == 255 && a.frac.val == 0

/-- The quiet NaN an invalid operation returns (`0x7FC00000`). -/
def F32.nan : F32 := F32.pack false 255 4194304

/-- The infinity of the given sign. -/
def F32.inf (sign : Bool) : F32 := F32.pack sign 255 0

/-- The zero of the given sign. -/
def F32.zero (sign : Bool) : F32 := F32.pack sign 0 0

/-- The significand of a finite value, with the hidden bit of a normal number. -/
def F32.sig (a : F32) : Nat := if a.exp.val = 0 then a.frac.val else 8388608 + a.frac.val

/-- The exponent of a finite value above the least one: the value is
`(-1)^sign * sig * 2^(ex - 149)`. -/
def F32.ex (a : F32) : Nat := a.exp.val - 1

/-- The magnitude of a finite value in units of `2^(-149)`. -/
def F32.units (a : F32) : Nat := a.sig <<< a.ex

/-- For `n` below `2^(lo + 2^k)` with a bit at or above position `lo`: the position of the
highest bit of `n`, by bisection. -/
def highBit (n : Nat) : Nat → Nat → Nat
  | 0, lo => lo
  | k + 1, lo => if n >>> (lo + 2 ^ k) = 0 then highBit n k lo else highBit n k (lo + 2 ^ k)

/-- The number of bits of `n`, for `n` below `2^1024`. -/
def bitLength (n : Nat) : Nat := if n = 0 then 0 else highBit n 10 0 + 1

/-- Round to nearest, ties to even: the binary32 value nearest to `(-1)^sign * n * 2^(-scale)`,
an infinity when that is beyond the largest finite value.  `n` is below `2^1024`. -/
def F32.round (sign : Bool) (n scale : Nat) : F32 :=
  if n = 0 then F32.zero sign
  else
    -- `t - 173` bits are dropped: those below 24 significant bits, or below the unit `2^(-149)`
    let t := max (bitLength n + 149) (scale + 24)
    let q0 := (n <<< (173 - t)) >>> (t - 173)
    let rem := n - ((n >>> (t - 173)) <<< (t - 173))
    let half := 1 <<< (t - 173)
    let q := if 2 * rem > half ∨ (2 * rem = half ∧ q0 % 2 = 1) then q0 + 1 else q0
    let ex := t - 24 - scale
    if q < 8388608 then F32.pack sign 0 q
    else if q = 16777216 then
      (if ex + 2 ≥ 255 then F32.inf sign else F32.pack sign (ex + 2) 0)
    else if ex + 1 ≥ 255 then F32.inf sign
    else F32.pack sign (ex + 1) (q - 8388608)

/-- IEEE-754 addition. -/
def F32.add (a b : F32) : F32 :=
  if a.isNaN || b.isNaN then F32.nan
  else if a.isInf then (if b.isInf && a.sign != b.sign then F32.nan else a)
  else if b.isInf then b
  else if a.sign = b.sign then F32.round a.sign (a.units + b.units) 149
  else if a.units = b.units then F32.zero false
  else if a.units > b.units then F32.round a.sign (a.units - b.units) 149
  else F32.round b.sign (b.units - a.units) 149

/-- IEEE-754 negation: the sign bit flipped. -/
def F32.neg (a : F32) : F32 := ⟨!a.sign, a.exp, a.frac⟩

/-- IEEE-754 subtraction. -/
def F32.sub (a b : F32) : F32 := F32.add a (F32.neg b)

/-- IEEE-754 multiplication. -/
def F32.mul (a b : F32) : F32 :=
  if a.isNaN || b.isNaN then F32.nan
  else if a.isInf || b.isInf then
    (if a.units = 0 || b.units = 0 then F32.nan else F32.inf (a.sign != b.sign))
  else F32.round (a.sign != b.sign) (a.units * b.units) 298

/-- IEEE-754 division.  The quotient is taken with 400 extra bits and a sticky bit below
them, which rounds as the exact quotient does. -/
def F32.div (a b : F32) : F32 :=
  if a.isNaN || b.isNaN then F32.nan
  else if a.isInf then (if b.isInf then F32.nan else F32.inf (a.sign != b.sign))
  else if b.isInf then F32.zero (a.sign != b.sign)
  else if b.units = 0 then
    (if a.units = 0 then F32.nan else F32.inf (a.sign != b.sign))
  else
    let n := a.units <<< 400
    F32.round (a.sign != b.sign) (2 * (n / b.units) + (if n % b.units = 0 then 0 else 1)) 401

/-- The integer square root by bisection on the bits, from bit `b - 1` down. -/
def isqrtAux (n : Nat) : Nat → Nat → Nat
  | 0, r => r
  | b + 1, r =>
    if (r + (1 <<< b)) * (r + (1 <<< b)) ≤ n then isqrtAux n b (r + (1 <<< b))
    else isqrtAux n b r

/-- The integer square root of `n`. -/
def isqrt (n : Nat) : Nat := isqrtAux n (bitLength n / 2 + 1) 0

/-- IEEE-754 square root, with a sticky bit as in `F32.div`. -/
def F32.sqrt (a : F32) : F32 :=
  if a.isNaN then F32.nan
  else if a.isInf then (if a.sign then F32.nan else a)
  else if a.units = 0 then a
  else if a.sign then F32.nan
  else
    let n := a.units <<< 129
    F32.round false (2 * isqrt n + (if isqrt n * isqrt n = n then 0 else 1)) 140

/-- The key that orders the values that are not NaN: the bit pattern read as a sign and a
magnitude (both zeros have key 0). -/
def F32.key (a : F32) : Int :=
  if a.sign then -((a.exp.val * 8388608 + a.frac.val : Nat) : Int)
  else ((a.exp.val * 8388608 + a.frac.val : Nat) : Int)

instance : Add F32 := ⟨F32.add⟩
instance : Sub F32 := ⟨F32.sub⟩
instance : Mul F32 := ⟨F32.mul⟩
instance : Div F32 := ⟨F32.div⟩
instance : Neg F32 := ⟨F32.neg⟩
instance : Zero F32 := ⟨F32.zero false⟩
instance : One F32 := ⟨F32.pack false 127 0⟩
/-- A literal or an integer converted to `float`. -/
instance : NatCast F32 := ⟨fun n => F32.round false n 0⟩
/-- The comparison `<` of C++: false when either side is a NaN. -/
instance : LT F32 := ⟨fun a b => a.isNaN = false ∧ b.isNaN = false ∧ a.key < b.key⟩
/-- The comparison `<=` of C++: false when either side is a NaN. -/
instance : LE F32 := ⟨fun a b => a.isNaN = false ∧ b.isNaN = false ∧ a.key ≤ b.key⟩
instance (a b : F32) : Decidable (a < b) :=
  inferInstanceAs (Decidable (a.isNaN = false ∧ b.isNaN = false ∧ a.key < b.key))
instance (a b : F32) : Decidable (a ≤ b) :=
  inferInstanceAs (Decidable (a.isNaN = false ∧ b.isNaN = false ∧ a.key ≤ b.key))

/-- GLM `glm::inversesqrt`: `1 / sqrt(x)`. -/
def F32.inversesqrt (x : F32) : F32 := 1 / F32.sqrt x

/-- GLM `glm::radians`: the degrees times the `float` nearest to pi / 180 (`0x3C8EFA35`). -/
def F32.radians (degrees : F32) : F32 := degrees * F32.ofBits 0x3C8EFA35

/-- The library functions on `float`: `inversesqrt` and `radians` as GLM defines them, the
three `<cmath>` functions as given. -/
def F32.scalar (sin cos tan : F32 → F32) : Scalar F32 :=
  ⟨sin, cos, tan, F32.inversesqrt, F32.radians⟩

section StdMinMax

variable {K : Type} [LT K] [DecidableRel ((· < ·) : K → K → Prop)]

/-- The `max` of the specification, read as C++ `std::max(a, b)`: `(a < b) ? b : a`. -/
def stdMax (a b : K) : K := if a < b then b else a

/-- The `min` of the specification, read as C++ `std::min(a, b)`: `(b < a) ? b : a`. -/
def stdMin (a b : K) : K := if b < a then b else a

end StdMinMax

/-! ## Theorems -/

section ShadowMatricesProofs

variable {K : Type} [Field K]

@[simp] theorem Vec3.add_mk (a b c d e f : K) :
    (⟨a, b, c⟩ : Vec3 K) + ⟨d, e, f⟩ = ⟨a + d, b + e, c + f⟩ := rfl

@[simp] theorem Vec3.sub_mk (a b c d e f : K) :
    (⟨a, b, c⟩ : Vec3 K) - ⟨d, e, f⟩ = ⟨a - d, b - e, c - f⟩ := rfl

@[simp] theorem Vec3.smul_mk (a b c k : K) :
    (⟨a, b, c⟩ : Vec3 K) * k = ⟨a * k, b * k, c * k⟩ := rfl

/-- The view matrix of `lookAt` sends the eye to the origin, whatever the basis. -/
theorem lookAt_eye (m : Scalar K) (eye center up : Vec3 K) :
    (lookAt m eye center up).mulVec (point eye) = ⟨0, 0, 0, 1⟩ := by
  obtain ⟨x, y, z⟩ := eye
  simp only [lookAt, Mat4.mulVec, point, Vec4.add, Vec4.smul, dot, Vec4.mk.injEq]
  refine ⟨by ring, by ring, by ring, by ring⟩

/-- C1 (as the specification states it, refuted): on `float`, with the light at
`(0, 0, 0.3f)` (`0x3E99999A`), on the segment the light moves along, matrix 4 (face `+Z`) is
`shadowProj * lookAt(lightPos, lightPos + d_4, u_4)`, and its view part maps `lightPos + d_4`
to `(0, 0, -0.99999994f)` (`0xBF7FFFFF`), not to `(0, 0, -1)`: `lightPos + d_4` is rounded,
and `(lightPos + d_4) - lightPos` is no longer `d_4`.  Whatever `sin`, `cos`, `tan` return. -/
theorem shadowTransforms_face_inexact :
    (∀ sin cos tan : F32 → F32,
      (shadowTransforms (F32.scalar sin cos tan) ⟨0, 0, F32.ofBits 0x3E99999A⟩)[4]? =
        some (shadowProj (F32.scalar sin cos tan) *
          lookAt (F32.scalar sin cos tan) ⟨0, 0, F32.ofBits 0x3E99999A⟩
            ((⟨0, 0, F32.ofBits 0x3E99999A⟩ : Vec3 F32) + lookDirection 4) (lookUp 4)) ∧
      (lookAt (F32.scalar sin cos tan) ⟨0, 0, F32.ofBits 0x3E99999A⟩
        ((⟨0, 0, F32.ofBits 0x3E99999A⟩ : Vec3 F32) + lookDirection 4) (lookUp 4)).mulVec
          (point ((⟨0, 0, F32.ofBits 0x3E99999A⟩ : Vec3 F32) + lookDirection 4))
        = ⟨0, 0, F32.ofBits 0xBF7FFFFF, 1⟩) ∧
    (⟨0, 0, F32.ofBits 0xBF7FFFFF, 1⟩ : Vec4 F32) ≠ ⟨0, 0, -1, 1⟩ := by
  refine ⟨fun sin cos tan => ⟨rfl, ?_⟩, by decide!⟩
  simp only [lookAt, normalize, F32.scalar]
  decide!

/-- C1 (amended): `main` builds exactly six shadow matrices; matrix `i` is
`shadowProj * lookAt(lightPos, lightPos + d_i, u_i)` with `d_i` the axis of the cubemap face
`GL_TEXTURE_CUBE_MAP_POSITIVE_X + i` (`+X, -X, +Y, -Y, +Z, -Z`), whatever the arithmetic.  Over
real arithmetic (a field in which the inverse square root of 1 is 1) its view part maps the
light position to the origin and `lightPos + d_i` to `(0, 0, -1)`. -/
theorem shadowTransforms_six_faces :
    (∀ (F : Type) [Add F] [Sub F] [Mul F] [Div F] [Neg F] [Zero F] [One F] [NatCast F]
        (m : Scalar F) (lightPos : Vec3 F),
      (shadowTransforms m lightPos).length = 6 ∧
      ∀ i : Fin 6,
        faceAxis (GL_TEXTURE_CUBE_MAP_POSITIVE_X + i.val) = some (lookDirection i : Vec3 F) ∧
        (shadowTransforms m lightPos)[i.val]? =
          some (shadowProj m * lookAt m lightPos (lightPos + lookDirection i) (lookUp i))) ∧
    (∀ (R : Type) [Field R] (m : Scalar R) (lightPos : Vec3 R), m.inversesqrt 1 = 1 →
      ∀ i : Fin 6,
        (lookAt m lightPos (lightPos + lookDirection i) (lookUp i)).mulVec (point lightPos)
          = ⟨0, 0, 0, 1⟩ ∧
        (lookAt m lightPos (lightPos + lookDirection i) (lookUp i)).mulVec
          (point (lightPos + lookDirection i)) = ⟨0, 0, -1, 1⟩) := by
  constructor
  · intro F _ _ _ _ _ _ _ _ m lightPos
    refine ⟨rfl, fun i => ⟨?_, ?_⟩⟩
    · fin_cases i <;> simp [faceAxis, GL_TEXTURE_CUBE_MAP_POSITIVE_X, lookDirection]
    · fin_cases i <;> rfl
  · intro R _ m lightPos h1 i
    refine ⟨lookAt_eye _ _ _ _, ?_⟩
    obtain ⟨x, y, z⟩ := lightPos
    fin_cases i <;>
      simp [lookDirection, lookUp, lookAt, normalize, cross, dot, Mat4.mulVec, point,
        Vec4.add, Vec4.smul, h1]

/-- Witness of C1 over the reals: the light at `(0, 0, 3)`, face 0. -/
theorem shadowTransforms_six_faces_witness :
    (Real.sqrt 1)⁻¹ = 1 ∧
    (lookAt (⟨Real.sin, Real.cos, Real.tan, fun x => (Real.sqrt x)⁻¹, fun d => d * (Real.pi / 180)⟩ :
      Scalar ℝ) ⟨0, 0, 3⟩
      ((⟨0, 0, 3⟩ : Vec3 ℝ) + lookDirection 0) (lookUp 0)).mulVec
        (point ((⟨0, 0, 3⟩ : Vec3 ℝ) + lookDirection 0)) = ⟨0, 0, -1, 1⟩ :=
  ⟨by simp, (shadowTransforms_six_faces.2 ℝ (⟨Real.sin, Real.cos, Real.tan, fun x => (Real.sqrt x)⁻¹, fun d => d * (Real.pi / 180)⟩ :
      Scalar ℝ) ⟨0, 0, 3⟩ (by simp) 0).2⟩

end ShadowMatricesProofs

/-! ### The render loop -/

section RenderLoopProofs

variable {K : Type} [LinearOrderedField K]

omit [LinearOrderedField K] in
theorem observe_append (s : GLState) (a b : List (Call K)) :
    observe s (a ++ b) = observe s a ++ observe (s.run a) b := by
  induction a generalizing s with
  | nil => rfl
  | cons c cs ih => cases c <;> simp [observe, GLState.run, GLState.step, ih]

theorem observe_frameCalls (m : Scalar K) (h : Handles) (camera : Camera K) (shadows : Bool)
    (lightPos : Vec3 K) (resize : Option (Int × Int)) (s : GLState) :
    observe s (frameCalls m h camera shadows lightPos resize) = expectedFrame h := by
  simp [frameCalls, shadowTransforms, observe, GLState.step, expectedFrame, List.enum,
    List.enumFrom, GL_FRAMEBUFFER, SHADOW_WIDTH, SHADOW_HEIGHT, SCR_WIDTH, SCR_HEIGHT]

/-- C2: in every iteration of the render loop, from any context state, exactly two scene
passes are issued, in order: `renderScene` with the depth shader while `depthMapFBO` is bound
and the viewport is 1024 x 1024, then `renderScene` with the lighting shader while framebuffer
0 is bound and the viewport is 1800 x 1600 (so never while `depthMapFBO` is bound); the swap
follows both. -/
theorem renderLoop_two_passes (m : Scalar K) (h : Handles) (hfbo : h.depthMapFBO ≠ 0)
    (s : GLState) (frames : List (Frame K)) :
    observe s (renderLoop m h frames) =
      (frames.map (fun _ => expectedFrame h)).flatten ∧
    (∀ f : Frame K, ∀ s0 : GLState,
      observe s0 (frameCalls m h f.camera f.shadows f.lightPos f.resize) =
        [ .pass h.simpleDepthShader h.simpleDepthShader h.depthMapFBO
            (0, 0, (SHADOW_WIDTH : Int), (SHADOW_HEIGHT : Int)),
          .pass h.shader h.shader 0 (0, 0, (SCR_WIDTH : Int), (SCR_HEIGHT : Int)),
          .swap ]) ∧
    (∀ sh p fb vp, (expectedFrame h)[1]? = some (Event.pass sh p fb vp) →
      sh = h.shader ∧ fb ≠ h.depthMapFBO) := by
  refine ⟨?_, ?_, ?_⟩
  · induction frames generalizing s with
    | nil => rfl
    | cons f fs ih =>
      simp only [renderLoop, observe_append, observe_frameCalls, List.map_cons, List.flatten_cons]
      rw [ih]
  · intro f s0
    rw [observe_frameCalls]
    simp [expectedFrame, SHADOW_WIDTH, SHADOW_HEIGHT, SCR_WIDTH, SCR_HEIGHT]
  · intro sh p fb vp hq
    simp only [expectedFrame, List.getElem?_cons_succ, List.getElem?_cons_zero, Option.some.injEq,
      Event.pass.injEq] at hq
    exact ⟨hq.1.symm, by rw [← hq.2.2.1]; exact fun e => hfbo e.symm⟩

/-- Witness of C2: one frame of the initial camera over the reals, framebuffer name 1. -/
theorem renderLoop_two_passes_witness :
    (1 : Nat) ≠ 0 ∧
    observe GLState.init (renderLoop (⟨Real.sin, Real.cos, Real.tan, fun x => (Real.sqrt x)⁻¹, fun d => d * (Real.pi / 180)⟩ :
      Scalar ℝ) ⟨3, 6, 1, 1, 2⟩
      [⟨(⟨⟨0, 0, 3⟩, ⟨0, 0, -1⟩, ⟨0, 1, 0⟩, ⟨1, 0, 0⟩, ⟨0, 1, 0⟩, -90, 0, 5 / 2, 1 / 10, 45⟩ :
      Camera ℝ), true, ⟨0, 0, 0⟩, none⟩]) =
      [ .pass 6 6 1 (0, 0, 1024, 1024), .pass 3 3 0 (0, 0, 1800, 1600), .swap ] :=
  ⟨by decide, (renderLoop_two_passes (⟨Real.sin, Real.cos, Real.tan, fun x => (Real.sqrt x)⁻¹, fun d => d * (Real.pi / 180)⟩ :
      Scalar ℝ) ⟨3, 6, 1, 1, 2⟩ (by decide) GLState.init
      [⟨(⟨⟨0, 0, 3⟩, ⟨0, 0, -1⟩, ⟨0, 1, 0⟩, ⟨1, 0, 0⟩, ⟨0, 1, 0⟩, -90, 0, 5 / 2, 1 / 10, 45⟩ :
      Camera ℝ), true, ⟨0, 0, 0⟩, none⟩]).1⟩

end RenderLoopProofs

/-! ### The depth cubemap's filters -/

section FilterProofs

variable {K : Type} [LinearOrderedField K]

omit [LinearOrderedField K] in
theorem run_append (s : GLState) (a b : List (Call K)) :
    s.run (a ++ b) = (s.run a).run b := by
  induction a generalizing s with
  | nil => rfl
  | cons c cs ih => simp [GLState.run, ih]

theorem texParams_frameCalls (m : Scalar K) (h : Handles) (camera : Camera K) (shadows : Bool)
    (lightPos : Vec3 K) (resize : Option (Int × Int)) (s : GLState) :
    (s.run (frameCalls m h camera shadows lightPos resize)).texParams = s.texParams := by
  cases resize <;>
    simp [frameCalls, shadowTransforms, GLState.run, GLState.step, List.enum, List.enumFrom,
      GL_FRAMEBUFFER]

theorem texParams_renderLoop (m : Scalar K) (h : Handles) (frames : List (Frame K))
    (s : GLState) : (s.run (renderLoop m h frames)).texParams = s.texParams := by
  induction frames generalizing s with
  | nil => rfl
  | cons f fs ih => rw [renderLoop, run_append, ih, texParams_frameCalls]

/-- C3 (as the specification states it, refuted): after the set-up of `main` on a fresh
context the depth cubemap (texture 2) does not have mip-mapped linear filtering. -/
theorem depthCubemap_not_mipmapped_linear :
    ¬ ((GLState.init.run (setupCalls ⟨3, 6, 1, 1, 2⟩ : List (Call ℚ))).texParams 2).MipmappedLinear := by
  simp [TexParams.MipmappedLinear, setupCalls, GLState.run, GLState.step, GLState.init,
    TexParams.set, GL_TEXTURE_CUBE_MAP, GL_TEXTURE_MAG_FILTER, GL_TEXTURE_MIN_FILTER,
    GL_TEXTURE_WRAP_S, GL_TEXTURE_WRAP_T, GL_TEXTURE_WRAP_R, GL_NEAREST, GL_LINEAR,
    GL_LINEAR_MIPMAP_LINEAR, GL_LINEAR_MIPMAP_NEAREST, GL_NEAREST_MIPMAP_LINEAR, GL_FRAMEBUFFER,
    GL_TEXTURE0]

/-- C3 (amended): the depth cubemap the forward pass samples is configured with nearest
filtering: from any context state, after the set-up of `main` both its minification and its
magnification filter are `GL_NEAREST` (its three wrap modes `GL_CLAMP_TO_EDGE`), and no frame
of the render loop changes them. -/
theorem depthCubemap_filters_nearest (m : Scalar K) (h : Handles) (s : GLState)
    (frames : List (Frame K)) :
    (((s.run (setupCalls h : List (Call K))).run (renderLoop m h frames)).texParams
        h.depthCubemap) =
      ⟨GL_NEAREST, GL_NEAREST, GL_CLAMP_TO_EDGE, GL_CLAMP_TO_EDGE, GL_CLAMP_TO_EDGE⟩ := by
  rw [texParams_renderLoop]
  simp [setupCalls, GLState.run, GLState.step, TexParams.set, GL_TEXTURE_MAG_FILTER,
    GL_TEXTURE_MIN_FILTER, GL_TEXTURE_WRAP_S, GL_TEXTURE_WRAP_T, GL_TEXTURE_WRAP_R,
    GL_FRAMEBUFFER]

end FilterProofs

/-! ### The shadow toggle -/

theorem runSpace_hold (sh : Bool) (n : Nat) :
    runSpace ⟨sh, true⟩ (List.replicate n .GLFW_PRESS) = ⟨sh, true⟩ := by
  induction n with
  | zero => rfl
  | succ n ih => simpa [List.replicate_succ, runSpace, processInputSpace] using ih

theorem flipFrames_hold (sh : Bool) (n : Nat) :
    flipFrames ⟨sh, true⟩ (List.replicate n .GLFW_PRESS) = List.replicate n false := by
  induction n with
  | zero => rfl
  | succ n ih => simpa [List.replicate_succ, flipFrames, processInputSpace] using ih

/-- C4: the shadow toggle is edge-triggered.  Over every sequence of SPACE key states the
frames in which `shadows` changes are exactly those in which SPACE is pressed while
`shadowsKeyPressed` is false; holding SPACE for `n + 1` frames from the released state flips
`shadows` once, in the first frame; a release clears `shadowsKeyPressed` and keeps
`shadows`. -/
theorem shadow_toggle_edge_triggered :
    (∀ (t : Toggle) (ks : List KeyState), flipFrames t ks = pressEdges t ks) ∧
    (∀ (t : Toggle) (k : KeyState), (processInputSpace t k).shadows =
      if k = .GLFW_PRESS ∧ t.shadowsKeyPressed = false then !t.shadows else t.shadows) ∧
    (∀ (sh : Bool) (n : Nat),
      runSpace ⟨sh, false⟩ (List.replicate (n + 1) .GLFW_PRESS) = ⟨!sh, true⟩ ∧
      flipFrames ⟨sh, false⟩ (List.replicate (n + 1) .GLFW_PRESS)
        = true :: List.replicate n false) ∧
    (∀ t : Toggle, processInputSpace t .GLFW_RELEASE = ⟨t.shadows, false⟩) := by
  refine ⟨?_, ?_, ?_, ?_⟩
  · intro t ks
    induction ks generalizing t with
    | nil => rfl
    | cons k ks ih =>
      obtain ⟨sh, kp⟩ := t
      cases k <;> cases sh <;> cases kp <;> simp [flipFrames, pressEdges, processInputSpace, ih]
  · rintro ⟨sh, kp⟩ k
    cases k <;> cases sh <;> cases kp <;> simp [processInputSpace]
  · intro sh n
    constructor
    · simpa [List.replicate_succ, runSpace, processInputSpace] using runSpace_hold (!sh) n
    · simpa [List.replicate_succ, flipFrames, processInputSpace] using flipFrames_hold (!sh) n
  · rintro ⟨sh, kp⟩
    simp [processInputSpace]

/-! ### The order of `float` -/

theorem F32.lt_def (a b : F32) :
    a < b ↔ a.isNaN = false ∧ b.isNaN = false ∧ a.key < b.key := Iff.rfl

theorem F32.le_def (a b : F32) :
    a ≤ b ↔ a.isNaN = false ∧ b.isNaN = false ∧ a.key ≤ b.key := Iff.rfl

/-- Two values with the same non-zero key are the same value. -/
theorem F32.key_inj (a b : F32) (h : a.key = b.key) (h0 : b.key ≠ 0) : a = b := by
  obtain ⟨sa, ⟨ea, hea⟩, ⟨fa, hfa⟩⟩ := a
  obtain ⟨sb, ⟨eb, heb⟩, ⟨fb, hfb⟩⟩ := b
  cases sa <;> cases sb <;> simp only [F32.key, Bool.false_eq_true, if_false, if_true] at h h0 <;>
    simp only [F32.mk.injEq, Fin.mk.injEq, true_and] <;> omega

/-- The two `if` statements that clamp a value from above and then from below, against the
`min`/`max` form. -/
theorem F32.clamp_hi_lo (lo hi p : F32) (hlo : lo.isNaN = false) (hhi : hi.isNaN = false)
    (h : lo.key < hi.key) (hlo0 : lo.key ≠ 0) (hhi0 : hi.key ≠ 0) (hp : p.isNaN = false) :
    (if (if p > hi then hi else p) < lo then lo else (if p > hi then hi else p))
      = stdMin hi (stdMax lo p) ∧
    lo ≤ (if (if p > hi then hi else p) < lo then lo else (if p > hi then hi else p)) ∧
    (if (if p > hi then hi else p) < lo then lo else (if p > hi then hi else p)) ≤ hi := by
  simp only [stdMin, stdMax, gt_iff_lt]
  by_cases h1 : hi < p
  · have h2 : ¬ hi < lo := by
      rw [F32.lt_def]; rintro ⟨_, _, h3⟩; omega
    have h4 : lo < p := by
      rw [F32.lt_def] at h1 ⊢
      exact ⟨hlo, hp, by omega⟩
    have h5 : ¬ p < hi := by
      rw [F32.lt_def] at h1 ⊢; rintro ⟨_, _, h3⟩; omega
    simp only [h1, h2, h4, h5, if_true, if_false]
    refine ⟨trivial, ?_, ?_⟩
    · rw [F32.le_def]; exact ⟨hlo, hhi, by omega⟩
    · rw [F32.le_def]; exact ⟨hhi, hhi, le_refl _⟩
  · simp only [h1, if_false]
    by_cases h2 : p < lo
    · have h4 : ¬ lo < p := by
        rw [F32.lt_def] at h2 ⊢; rintro ⟨_, _, h3⟩; omega
      have h6 : lo < hi := by rw [F32.lt_def]; exact ⟨hlo, hhi, h⟩
      simp only [h2, h4, h6, if_true, if_false]
      refine ⟨trivial, ?_, ?_⟩
      · rw [F32.le_def]; exact ⟨hlo, hlo, le_refl _⟩
      · rw [F32.le_def]; exact ⟨hlo, hhi, by omega⟩
    · simp only [h2, if_false]
      have k1 : p.key ≤ hi.key := by
        by_contra hc; apply h1; rw [F32.lt_def]; exact ⟨hhi, hp, by omega⟩
      have k2 : lo.key ≤ p.key := by
        by_contra hc; apply h2; rw [F32.lt_def]; exact ⟨hp, hlo, by omega⟩
      refine ⟨?_, ?_, ?_⟩
      · by_cases h3 : lo < p
        · simp only [h3, if_true]
          by_cases h4 : p < hi
          · simp only [h4, if_true]
          · simp only [h4, if_false]
            apply F32.key_inj _ _ _ hhi0
            have : ¬ p.key < hi.key := by
              intro hc; apply h4; rw [F32.lt_def]; exact ⟨hp, hhi, hc⟩
            omega
        · have h6 : lo < hi := by rw [F32.lt_def]; exact ⟨hlo, hhi, h⟩
          simp only [h3, h6, if_true, if_false]
          apply F32.key_inj _ _ _ hlo0
          have : ¬ lo.key < p.key := by
            intro hc; apply h3; rw [F32.lt_def]; exact ⟨hlo, hp, hc⟩
          omega
      · rw [F32.le_def]; exact ⟨hlo, hp, k2⟩
      · rw [F32.le_def]; exact ⟨hp, hhi, k1⟩

/-- With a NaN both comparisons are false: the clamp leaves it. -/
theorem F32.clamp_nan (lo hi p : F32) (hp : p.isNaN = true) :
    (if (if p > hi then hi else p) < lo then lo else (if p > hi then hi else p)) = p := by
  have h1 : ¬ hi < p := by
    rw [F32.lt_def]; rintro ⟨_, h3, _⟩; rw [hp] at h3; exact Bool.noConfusion h3
  have h2 : ¬ p < lo := by
    rw [F32.lt_def]; rintro ⟨h3, _, _⟩; rw [hp] at h3; exact Bool.noConfusion h3
  simp only [gt_iff_lt, h1, h2, if_false]

/-- The two `if` statements that clamp a value from below and then from above, against the
`min`/`max` form. -/
theorem F32.clamp_lo_hi (lo hi p : F32) (hlo : lo.isNaN = false) (hhi : hi.isNaN = false)
    (h : lo.key < hi.key) (hlo0 : lo.key ≠ 0) (hhi0 : hi.key ≠ 0) (hp : p.isNaN = false) :
    (if (if p < lo then lo else p) > hi then hi else (if p < lo then lo else p))
      = stdMin hi (stdMax lo p) ∧
    lo ≤ (if (if p < lo then lo else p) > hi then hi else (if p < lo then lo else p)) ∧
    (if (if p < lo then lo else p) > hi then hi else (if p < lo then lo else p)) ≤ hi := by
  have h6 : lo < hi := by rw [F32.lt_def]; exact ⟨hlo, hhi, h⟩
  simp only [stdMin, stdMax, gt_iff_lt]
  by_cases h1 : p < lo
  · have h2 : ¬ hi < lo := by
      rw [F32.lt_def]; rintro ⟨_, _, h3⟩; omega
    have h4 : ¬ lo < p := by
      rw [F32.lt_def] at h1 ⊢; rintro ⟨_, _, h3⟩; omega
    simp only [h1, h2, h4, h6, if_true, if_false]
    refine ⟨trivial, ?_, ?_⟩
    · rw [F32.le_def]; exact ⟨hlo, hlo, le_refl _⟩
    · rw [F32.le_def]; exact ⟨hlo, hhi, by omega⟩
  · simp only [h1, if_false]
    have k2 : lo.key ≤ p.key := by
      by_contra hc; apply h1; rw [F32.lt_def]; exact ⟨hp, hlo, by omega⟩
    by_cases h2 : hi < p
    · have h4 : lo < p := by
        rw [F32.lt_def] at h2 ⊢; exact ⟨hlo, hp, by omega⟩
      have h5 : ¬ p < hi := by
        rw [F32.lt_def] at h2 ⊢; rintro ⟨_, _, h3⟩; omega
      simp only [h2, h4, h5, if_true, if_false]
      refine ⟨trivial, ?_, ?_⟩
      · rw [F32.le_def]; exact ⟨hlo, hhi, by omega⟩
      · rw [F32.le_def]; exact ⟨hhi, hhi, le_refl _⟩
    · simp only [h2, if_false]
      have k1 : p.key ≤ hi.key := by
        by_contra hc; apply h2; rw [F32.lt_def]; exact ⟨hhi, hp, by omega⟩
      refine ⟨?_, ?_, ?_⟩
      · by_cases h3 : lo < p
        · simp only [h3, if_true]
          by_cases h4 : p < hi
          · simp only [h4, if_true]
          · simp only [h4, if_false]
            apply F32.key_inj _ _ _ hhi0
            have : ¬ p.key < hi.key := by
              intro hc; apply h4; rw [F32.lt_def]; exact ⟨hp, hhi, hc⟩
            omega
        · simp only [h3, h6, if_true, if_false]
          apply F32.key_inj _ _ _ hlo0
          have : ¬ lo.key < p.key := by
            intro hc; apply h3; rw [F32.lt_def]; exact ⟨hlo, hp, hc⟩
          omega
      · rw [F32.le_def]; exact ⟨hlo, hp, k2⟩
      · rw [F32.le_def]; exact ⟨hp, hhi, k1⟩

/-- With a NaN both comparisons are false: the clamp leaves it. -/
theorem F32.clamp_nan_lo_hi (lo hi p : F32) (hp : p.isNaN = true) :
    (if (if p < lo then lo else p) > hi then hi else (if p < lo then lo else p)) = p := by
  have h1 : ¬ hi < p := by
    rw [F32.lt_def]; rintro ⟨_, h3, _⟩; rw [hp] at h3; exact Bool.noConfusion h3
  have h2 : ¬ p < lo := by
    rw [F32.lt_def]; rintro ⟨h3, _, _⟩; rw [hp] at h3; exact Bool.noConfusion h3
  simp only [gt_iff_lt, h1, h2, if_false]

/-! ### Camera input handlers -/

section CameraInputProofs

variable {K : Type} [LinearOrderedField K]

theorem updateCameraVectors_angles (m : Scalar K) (c : Camera K) :
    (c.updateCameraVectors m).Pitch = c.Pitch ∧ (c.updateCameraVectors m).Yaw = c.Yaw :=
  ⟨rfl, rfl⟩

/-- C7 (as the specification states it, refuted): a `yoffset` that is a NaN.  The sum
`Pitch + yoffset * MouseSensitivity` is a NaN, both comparisons with it are false, and the new
`Pitch` is that NaN, which does not lie in `[-89, 89]`. -/
theorem ProcessMouseMovement_nan_pitch :
    (∀ sin cos tan : F32 → F32,
      ((⟨⟨0, 0, 3⟩, ⟨0, 0, -1⟩, ⟨0, 1, 0⟩, ⟨1, 0, 0⟩, ⟨0, 1, 0⟩, -90, 0, 5 / 2, 1 / 10, 45⟩ :
        Camera F32).ProcessMouseMovement (F32.scalar sin cos tan) 0 F32.nan true).Pitch
        = F32.nan) ∧
    F32.nan.isNaN = true ∧
    ¬ ((-89 : F32) ≤ F32.nan ∧ F32.nan ≤ 89) := by
  refine ⟨fun sin cos tan => ?_, by decide!, by decide!⟩
  simp only [Camera.ProcessMouseMovement, Camera.updateCameraVectors, if_true]
  decide!

/-- C7 (amended): `ProcessMouseMovement` with `constrainPitch = true`, on `float`.  The new
`Yaw` is `Yaw + xoffset * MouseSensitivity`.  When `Pitch + yoffset * MouseSensitivity` is not
a NaN, the new `Pitch` is `min(89, max(-89, Pitch + yoffset * MouseSensitivity))` and lies in
`[-89, 89]`; when it is a NaN, the new `Pitch` is that NaN. -/
theorem ProcessMouseMovement_clamps_pitch (m : Scalar F32) (c : Camera F32)
    (xoffset yoffset : F32) :
    (c.ProcessMouseMovement m xoffset yoffset true).Yaw
      = c.Yaw + xoffset * c.MouseSensitivity ∧
    if (c.Pitch + yoffset * c.MouseSensitivity).isNaN then
      (c.ProcessMouseMovement m xoffset yoffset true).Pitch
        = c.Pitch + yoffset * c.MouseSensitivity
    else
      (c.ProcessMouseMovement m xoffset yoffset true).Pitch
        = stdMin 89 (stdMax (-89) (c.Pitch + yoffset * c.MouseSensitivity)) ∧
      (-89 : F32) ≤ (c.ProcessMouseMovement m xoffset yoffset true).Pitch ∧
      (c.ProcessMouseMovement m xoffset yoffset true).Pitch ≤ 89 := by
  have hP : (c.ProcessMouseMovement m xoffset yoffset true).Pitch =
      (if (if c.Pitch + yoffset * c.MouseSensitivity > 89 then (89 : F32)
            else c.Pitch + yoffset * c.MouseSensitivity) < -89 then (-89 : F32)
       else (if c.Pitch + yoffset * c.MouseSensitivity > 89 then (89 : F32)
            else c.Pitch + yoffset * c.MouseSensitivity)) := by
    simp only [Camera.ProcessMouseMovement, Camera.updateCameraVectors, if_true]
    split_ifs <;> rfl
  refine ⟨?_, ?_⟩
  · simp only [Camera.ProcessMouseMovement, Camera.updateCameraVectors, if_true]
    split_ifs <;> rfl
  · rw [hP]
    cases hp : (c.Pitch + yoffset * c.MouseSensitivity).isNaN
    · simp only [Bool.false_eq_true, if_false]
      exact F32.clamp_hi_lo (-89) 89 _ (by decide!) (by decide!) (by decide!) (by decide!)
        (by decide!) hp
    · simp only [if_true]
      exact F32.clamp_nan (-89) 89 _ hp

/-- C8 (as the specification states it, refuted): a `yoffset` that is a NaN.  `Zoom - yoffset`
is a NaN, both comparisons with it are false, and the new `Zoom` is that NaN, for which
`1 <= Zoom <= 45` is false. -/
theorem ProcessMouseScroll_nan_zoom :
    ((⟨⟨0, 0, 3⟩, ⟨0, 0, -1⟩, ⟨0, 1, 0⟩, ⟨1, 0, 0⟩, ⟨0, 1, 0⟩, -90, 0, 5 / 2, 1 / 10, 45⟩ :
      Camera F32).ProcessMouseScroll F32.nan).Zoom = F32.nan ∧
    F32.nan.isNaN = true ∧
    ¬ ((1 : F32) ≤ F32.nan ∧ F32.nan ≤ 45) := by
  decide!

/-- C8 (amended): `ProcessMouseScroll` on `float`; no field other than `Zoom` changes.  When
`Zoom - yoffset` is not a NaN, the new `Zoom` is `min(45, max(1, Zoom - yoffset))`, so
`1 <= Zoom <= 45`; when it is a NaN, the new `Zoom` is that NaN. -/
theorem ProcessMouseScroll_clamps_zoom (c : Camera F32) (yoffset : F32) :
    if (c.Zoom - yoffset).isNaN then
      c.ProcessMouseScroll yoffset = { c with Zoom := c.Zoom - yoffset }
    else
      c.ProcessMouseScroll yoffset
        = { c with Zoom := stdMin 45 (stdMax 1 (c.Zoom - yoffset)) } ∧
      (1 : F32) ≤ (c.ProcessMouseScroll yoffset).Zoom ∧
      (c.ProcessMouseScroll yoffset).Zoom ≤ 45 := by
  have hZ : c.ProcessMouseScroll yoffset = { c with Zoom :=
      (if (if c.Zoom - yoffset < 1 then (1 : F32) else c.Zoom - yoffset) > 45 then (45 : F32)
       else (if c.Zoom - yoffset < 1 then (1 : F32) else c.Zoom - yoffset)) } := by
    simp only [Camera.ProcessMouseScroll]
    split_ifs <;> rfl
  rw [hZ]
  cases hp : (c.Zoom - yoffset).isNaN
  · simp only [Bool.false_eq_true, if_false]
    obtain ⟨k1, k2, k3⟩ := F32.clamp_lo_hi 1 45 (c.Zoom - yoffset) (by decide!) (by decide!)
      (by decide!) (by decide!) (by decide!) hp
    exact ⟨by rw [k1], k2, k3⟩
  · simp only [if_true]
    rw [F32.clamp_nan_lo_hi 1 45 _ hp]

/-- C9: `ProcessKeyboard` moves only the position: with `velocity = MovementSpeed * deltaTime`
the new `Position` is `Position + Front * velocity` for FORWARD, `Position - Front * velocity`
for BACKWARD, `Position - Right * velocity` for LEFT and `Position + Right * velocity` for
RIGHT; every other field is unchanged. -/
theorem ProcessKeyboard_moves_position (c : Camera K) (direction : Camera_Movement)
    (deltaTime : K) :
    c.ProcessKeyboard direction deltaTime =
      { c with Position :=
          match direction with
          | .FORWARD => c.Position + c.Front * (c.MovementSpeed * deltaTime)
          | .BACKWARD => c.Position - c.Front * (c.MovementSpeed * deltaTime)
          | .LEFT => c.Position - c.Right * (c.MovementSpeed * deltaTime)
          | .RIGHT => c.Position + c.Right * (c.MovementSpeed * deltaTime) } := by
  cases direction <;> simp [Camera.ProcessKeyboard]

end CameraInputProofs

/-! ### FileSystem -/

/-- C10: the environment overrides the build-time root.  When `LOGL_ROOT_PATH` holds a
non-empty `e` at the first call, that call returns `e + "/" + p` whatever `logl_root` is, and
so does every later call, for every path and whatever the environment then holds. -/
theorem getPath_env_override (e : String) (he : e ≠ "") (logl_root : Option String)
    (p : String) :
    (FileSystem.getPath (some e) logl_root FileSystem.init p).1 = e ++ "/" ++ p ∧
    ∀ (env2 : Option String) (p2 : String),
      (FileSystem.getPath env2 logl_root
        (FileSystem.getPath (some e) logl_root FileSystem.init p).2 p2).1 = e ++ "/" ++ p2 := by
  simp [FileSystem.getPath, FileSystem.getPathBuilder, FileSystem.getRoot, FileSystem.init,
    FileSystem.getPathRelativeRoot, he]

/-- Witness of C10 with `LOGL_ROOT_PATH=/opt/logl` and a different build-time root. -/
theorem getPath_env_override_witness :
    "/opt/logl" ≠ "" ∧
    (FileSystem.getPath (some "/opt/logl") (some "/src/build") FileSystem.init
      "resources/textures/grass.jpeg").1 = "/opt/logl/resources/textures/grass.jpeg" :=
  ⟨by decide, (getPath_env_override "/opt/logl" (by decide) (some "/src/build")
    "resources/textures/grass.jpeg").1⟩

/-! ### The camera basis and the view matrix -/

section CameraBasisProofs

variable {K : Type} [LinearOrderedField K]

theorem dot_smul_smul (a b : Vec3 K) (k l : K) : dot (a * k) (b * l) = k * l * dot a b := by
  obtain ⟨a1, a2, a3⟩ := a
  obtain ⟨b1, b2, b3⟩ := b
  simp only [Vec3.smul_mk, dot]; ring

theorem dot_smul_right (a b : Vec3 K) (l : K) : dot a (b * l) = l * dot a b := by
  obtain ⟨a1, a2, a3⟩ := a
  obtain ⟨b1, b2, b3⟩ := b
  simp only [Vec3.smul_mk, dot]; ring

theorem dot_comm (a b : Vec3 K) : dot a b = dot b a := by
  simp only [dot]; ring

theorem dot_cross_self_left (a b : Vec3 K) : dot a (cross a b) = 0 := by
  simp only [dot, cross]; ring

theorem dot_cross_self_right (a b : Vec3 K) : dot b (cross a b) = 0 := by
  simp only [dot, cross]; ring

/-- Lagrange's identity for the GLM cross product. -/
theorem dot_cross_cross (a b : Vec3 K) :
    dot (cross a b) (cross a b) = dot a a * dot b b - dot a b ^ 2 := by
  simp only [dot, cross]; ring

theorem inversesqrt_one (m : Scalar K)
    (hr : ∀ x : K, 0 < x → 0 < m.inversesqrt x ∧ m.inversesqrt x ^ 2 * x = 1) :
    m.inversesqrt 1 = 1 := by
  obtain ⟨hpos, hsq⟩ := hr 1 one_pos
  have h : (m.inversesqrt 1 - 1) * (m.inversesqrt 1 + 1) = 0 := by linear_combination hsq
  rcases mul_eq_zero.mp h with h | h
  · linarith
  · linarith

theorem normalize_of_unit (m : Scalar K) (h1 : m.inversesqrt 1 = 1) (v : Vec3 K)
    (hv : dot v v = 1) : normalize m v = v := by
  obtain ⟨a, b, c⟩ := v
  simp only [normalize, hv, h1, Vec3.smul_mk, mul_one]

theorem dot_normalize_self (m : Scalar K)
    (hr : ∀ x : K, 0 < x → 0 < m.inversesqrt x ∧ m.inversesqrt x ^ 2 * x = 1)
    (v : Vec3 K) (hv : 0 < dot v v) : dot (normalize m v) (normalize m v) = 1 := by
  rw [normalize, dot_smul_smul, ← (hr _ hv).2]; ring

/-- The basis `updateCameraVectors` writes, for `WorldUp = (0, 1, 0)` and `cos(pitch) != 0`. -/
theorem updateCameraVectors_basis (m : Scalar K)
    (hcs : ∀ x : K, m.cos x ^ 2 + m.sin x ^ 2 = 1)
    (hr : ∀ x : K, 0 < x → 0 < m.inversesqrt x ∧ m.inversesqrt x ^ 2 * x = 1)
    (c : Camera K) (hw : c.WorldUp = ⟨0, 1, 0⟩) (hp : m.cos (m.radians c.Pitch) ≠ 0) :
    (c.updateCameraVectors m).DerivedBasis m := by
  have h1 := inversesqrt_one m hr
  have hy := hcs (m.radians c.Yaw)
  have hq := hcs (m.radians c.Pitch)
  -- Front
  have hFF : dot (⟨m.cos (m.radians c.Yaw) * m.cos (m.radians c.Pitch),
      m.sin (m.radians c.Pitch),
      m.sin (m.radians c.Yaw) * m.cos (m.radians c.Pitch)⟩ : Vec3 K)
      ⟨m.cos (m.radians c.Yaw) * m.cos (m.radians c.Pitch),
      m.sin (m.radians c.Pitch),
      m.sin (m.radians c.Yaw) * m.cos (m.radians c.Pitch)⟩ = 1 := by
    simp only [dot]
    linear_combination (m.cos (m.radians c.Pitch)) ^ 2 * hy + hq
  have hF : (c.updateCameraVectors m).Front =
      ⟨m.cos (m.radians c.Yaw) * m.cos (m.radians c.Pitch),
       m.sin (m.radians c.Pitch),
       m.sin (m.radians c.Yaw) * m.cos (m.radians c.Pitch)⟩ :=
    normalize_of_unit m h1 _ hFF
  have hR : (c.updateCameraVectors m).Right =
      normalize m (cross (c.updateCameraVectors m).Front (c.updateCameraVectors m).WorldUp) :=
    rfl
  have hUn : (c.updateCameraVectors m).Up =
      normalize m (cross (c.updateCameraVectors m).Right (c.updateCameraVectors m).Front) :=
    rfl
  have hW : (c.updateCameraVectors m).WorldUp = ⟨0, 1, 0⟩ := hw
  have hFF2 : dot (c.updateCameraVectors m).Front (c.updateCameraVectors m).Front = 1 := by
    rw [hF]; exact hFF
  -- Right
  have hG : dot (cross (c.updateCameraVectors m).Front (c.updateCameraVectors m).WorldUp)
      (cross (c.updateCameraVectors m).Front (c.updateCameraVectors m).WorldUp)
      = m.cos (m.radians c.Pitch) ^ 2 := by
    rw [hF, hW]
    simp only [dot, cross]
    linear_combination (m.cos (m.radians c.Pitch)) ^ 2 * hy
  have hGpos : 0 < dot (cross (c.updateCameraVectors m).Front (c.updateCameraVectors m).WorldUp)
      (cross (c.updateCameraVectors m).Front (c.updateCameraVectors m).WorldUp) := by
    rw [hG]; positivity
  have hRR : dot (c.updateCameraVectors m).Right (c.updateCameraVectors m).Right = 1 := by
    rw [hR]; exact dot_normalize_self m hr _ hGpos
  have hFR : dot (c.updateCameraVectors m).Front (c.updateCameraVectors m).Right = 0 := by
    rw [hR, normalize, dot_smul_right, dot_cross_self_left, mul_zero]
  -- Up
  have hCC : dot (cross (c.updateCameraVectors m).Right (c.updateCameraVectors m).Front)
      (cross (c.updateCameraVectors m).Right (c.updateCameraVectors m).Front) = 1 := by
    rw [dot_cross_cross, hRR, hFF2, dot_comm, hFR]; ring
  have hU : (c.updateCameraVectors m).Up =
      cross (c.updateCameraVectors m).Right (c.updateCameraVectors m).Front := by
    rw [hUn]; exact normalize_of_unit m h1 _ hCC
  refine ⟨hF, hR, hU, hFF2, hRR, ?_, hFR, ?_, ?_⟩
  · rw [hU]; exact hCC
  · rw [hU]; exact dot_cross_self_right _ _
  · rw [hU]; exact dot_cross_self_left _ _

/-- C5: the camera derives an orthonormal basis.  Over an ordered field with `cos` and `sin`
on the unit circle and `inversesqrt` the positive inverse square root (as over the reals), for
`WorldUp = (0, 1, 0)`, every yaw and every pitch with `cos(pitch) != 0`, after the constructor
and after `ProcessMouseMovement` the vectors are
`Front = (cos yaw * cos pitch, sin pitch, sin yaw * cos pitch)`,
`Right = normalize(Front x WorldUp)`, `Up = Right x Front`, each of unit length, pairwise
orthogonal. -/
theorem camera_basis_orthonormal (m : Scalar K)
    (hcs : ∀ x : K, m.cos x ^ 2 + m.sin x ^ 2 = 1)
    (hr : ∀ x : K, 0 < x → 0 < m.inversesqrt x ∧ m.inversesqrt x ^ 2 * x = 1) :
    (∀ (position : Vec3 K) (yaw pitch : K) (up0 right0 : Vec3 K),
      m.cos (m.radians pitch) ≠ 0 →
      (Camera.new m position ⟨0, 1, 0⟩ yaw pitch up0 right0).DerivedBasis m) ∧
    (∀ (c : Camera K) (xoffset yoffset : K) (constrainPitch : Bool),
      c.WorldUp = ⟨0, 1, 0⟩ →
      m.cos (m.radians (c.ProcessMouseMovement m xoffset yoffset constrainPitch).Pitch) ≠ 0 →
      (c.ProcessMouseMovement m xoffset yoffset constrainPitch).DerivedBasis m) := by
  constructor
  · intro position yaw pitch up0 right0 hp
    exact updateCameraVectors_basis m hcs hr _ rfl hp
  · intro c xoffset yoffset constrainPitch hw hp
    unfold Camera.ProcessMouseMovement at hp ⊢
    refine updateCameraVectors_basis m hcs hr _ ?_ hp
    simp only
    split_ifs <;> exact hw

theorem add_sub_self_vec (p v : Vec3 K) : p + v - p = v := by
  obtain ⟨a, b, c⟩ := p
  obtain ⟨d, e, f⟩ := v
  simp only [Vec3.add_mk, Vec3.sub_mk, add_sub_cancel_left]

/-- The view matrix of `lookAt` sends `eye + v` to the coordinates of `v` in its basis. -/
theorem lookAt_point_add (m : Scalar K) (eye center up v : Vec3 K) :
    (lookAt m eye center up).mulVec (point (eye + v)) =
      ⟨dot (normalize m (cross (normalize m (center - eye)) up)) v,
       dot (cross (normalize m (cross (normalize m (center - eye)) up))
         (normalize m (center - eye))) v,
       -dot (normalize m (center - eye)) v, 1⟩ := by
  obtain ⟨x, y, z⟩ := eye
  obtain ⟨a, b, c⟩ := v
  simp only [lookAt, Mat4.mulVec, point, Vec4.add, Vec4.smul, dot, Vec3.add_mk, Vec4.mk.injEq]
  refine ⟨by ring, by ring, by ring, by ring⟩

theorem dot_cross_cross_self (a b v : Vec3 K) :
    dot (cross (cross a b) a) v = dot a a * dot b v - dot a b * dot a v := by
  simp only [dot, cross]; ring

/-- The vector triple product `a x (b x a) = b (a . a) - a (a . b)`, by components. -/
theorem cross_cross_right (a b : Vec3 K) :
    cross a (cross b a) =
      ⟨b.x * dot a a - a.x * dot a b, b.y * dot a a - a.y * dot a b,
       b.z * dot a a - a.z * dot a b⟩ := by
  simp only [dot, cross, Vec3.mk.injEq]
  refine ⟨by ring, by ring, by ring⟩

/-- The view matrix of a camera whose basis is orthonormal with `Up = Right x Front`. -/
theorem lookAt_camera (m : Scalar K) (h1 : m.inversesqrt 1 = 1) (c : Camera K)
    (ho : c.Orthonormal) (hh : c.Up = cross c.Right c.Front) (v : Vec3 K) :
    (lookAt m c.Position (c.Position + c.Front) c.Up).mulVec (point (c.Position + v)) =
      ⟨dot c.Right v, dot c.Up v, -dot c.Front v, 1⟩ := by
  obtain ⟨hFF, hRR, hUU, hFR, hFU, hRU⟩ := ho
  have hS1 : dot (cross c.Front c.Up) (cross c.Front c.Up) = 1 := by
    rw [dot_cross_cross, hFF, hUU, hFU]; ring
  have hS : cross c.Front c.Up = c.Right := by
    rw [hh, cross_cross_right, hFF, hFR]
    simp
  rw [lookAt_point_add, add_sub_self_vec, normalize_of_unit m h1 _ hFF,
    normalize_of_unit m h1 _ hS1, dot_cross_cross_self, hFF, hFU, hS]
  simp

/-- C6 (as the specification states it, refuted), at two cameras.  Over the reals, a camera
whose `Front`, `Right`, `Up` are orthonormal but left-handed (`Front = (0,0,-1)`,
`Up = (0,1,0)`, `Right = (-1,0,0)`): the view matrix sends `Position + Right` to `(-1, 0, 0)`,
not to `(1, 0, 0)`.  On `float`, the camera `main` constructs, which is what
`Camera(vec3(0, 0, 3))` yields when `cos(radians(-90))` returns `-4.371139e-8f`
(`0xB33BBD2E`): its `Front`, `Right`, `Up` are orthonormal as `float` evaluates the dot
products, with `Up = Right x Front`, and the view matrix sends `Position + Right` to
`(1, 0, 4.371139e-8f)`, not to `(1, 0, 0)`. -/
theorem GetViewMatrix_counterexamples :
    ((⟨⟨0, 0, 3⟩, ⟨0, 0, -1⟩, ⟨0, 1, 0⟩, ⟨-1, 0, 0⟩, ⟨0, 1, 0⟩, -90, 0, 5 / 2, 1 / 10, 45⟩ :
        Camera ℝ).Orthonormal ∧
      ((⟨⟨0, 0, 3⟩, ⟨0, 0, -1⟩, ⟨0, 1, 0⟩, ⟨-1, 0, 0⟩, ⟨0, 1, 0⟩, -90, 0, 5 / 2, 1 / 10, 45⟩ :
        Camera ℝ).GetViewMatrix
          ⟨Real.sin, Real.cos, Real.tan, fun x => (Real.sqrt x)⁻¹, fun d => d * (Real.pi / 180)⟩
        ).1.mulVec (point ((⟨0, 0, 3⟩ : Vec3 ℝ) + ⟨-1, 0, 0⟩)) = ⟨-1, 0, 0, 1⟩ ∧
      (⟨-1, 0, 0, 1⟩ : Vec4 ℝ) ≠ ⟨1, 0, 0, 1⟩) ∧
    ((⟨⟨0, 0, 3⟩, ⟨F32.ofBits 0xB33BBD2E, 0, -1⟩, ⟨0, 1, 0⟩, ⟨1, 0, F32.ofBits 0xB33BBD2E⟩,
        ⟨0, 1, 0⟩, -90, 0, 5 / 2, 1 / 10, 45⟩ : Camera F32).Orthonormal ∧
      (⟨0, 1, 0⟩ : Vec3 F32) =
        cross (⟨1, 0, F32.ofBits 0xB33BBD2E⟩ : Vec3 F32) ⟨F32.ofBits 0xB33BBD2E, 0, -1⟩ ∧
      (∀ sin cos tan : F32 → F32,
        ((⟨⟨0, 0, 3⟩, ⟨F32.ofBits 0xB33BBD2E, 0, -1⟩, ⟨0, 1, 0⟩, ⟨1, 0, F32.ofBits 0xB33BBD2E⟩,
        ⟨0, 1, 0⟩, -90, 0, 5 / 2, 1 / 10, 45⟩ : Camera F32).GetViewMatrix (F32.scalar sin cos tan)).1.mulVec
          (point ((⟨0, 0, 3⟩ : Vec3 F32) + ⟨1, 0, F32.ofBits 0xB33BBD2E⟩))
          = ⟨1, 0, F32.ofBits 0x333BBD2E, 1⟩) ∧
      (⟨1, 0, F32.ofBits 0x333BBD2E, 1⟩ : Vec4 F32) ≠ ⟨1, 0, 0, 1⟩ ∧
      (∀ (sin cos tan : F32 → F32) (up0 right0 : Vec3 F32),
        cos (F32.radians YAW) = F32.ofBits 0xB33BBD2E → sin (F32.radians YAW) = -1 →
        cos (F32.radians PITCH) = 1 → sin (F32.radians PITCH) = 0 →
        Camera.new (F32.scalar sin cos tan) ⟨0, 0, 3⟩ ⟨0, 1, 0⟩ YAW PITCH up0 right0 =
          ⟨⟨0, 0, 3⟩, ⟨F32.ofBits 0xB33BBD2E, 0, -1⟩, ⟨0, 1, 0⟩, ⟨1, 0, F32.ofBits 0xB33BBD2E⟩,
        ⟨0, 1, 0⟩, -90, 0, 5 / 2, 1 / 10, 45⟩)) := by
  refine ⟨⟨?_, ?_, ?_⟩, ?_, by decide!, fun sin cos tan => ?_, by decide!, ?_⟩
  · simp [Camera.Orthonormal, dot]
  · simp [Camera.GetViewMatrix, lookAt, normalize, cross, dot, Mat4.mulVec, point, Vec4.add,
      Vec4.smul]
  · simp
    norm_num
  · unfold Camera.Orthonormal
    decide!
  · simp only [Camera.GetViewMatrix, lookAt, normalize, F32.scalar]
    decide!
  · intro sin cos tan up0 right0 h1 h2 h3 h4
    simp only [Camera.new, Camera.updateCameraVectors, F32.scalar, normalize, h1, h2, h3, h4,
      Camera.mk.injEq]
    decide!

/-- C6 (amended): `GetViewMatrix` returns `lookAt(Position, Position + Front, Up)` and leaves
the camera unchanged, whatever the arithmetic.  Over real arithmetic (an ordered field in which
the inverse square root of 1 is 1), for every camera whose `Front`, `Right`, `Up` are
orthonormal and right-handed, `Up = Right x Front` as `updateCameraVectors` derives it, the
matrix maps `Position` to the origin, `Position + Front` to `(0, 0, -1)`, `Position + Up` to
`(0, 1, 0)` and `Position + Right` to `(1, 0, 0)`. -/
theorem GetViewMatrix_maps_basis :
    (∀ (F : Type) [Add F] [Sub F] [Mul F] [Neg F] [Zero F] [One F] (m : Scalar F)
        (c : Camera F),
      (c.GetViewMatrix m).1 = lookAt m c.Position (c.Position + c.Front) c.Up ∧
      (c.GetViewMatrix m).2 = c) ∧
    (∀ (R : Type) [LinearOrderedField R] (m : Scalar R) (c : Camera R),
      m.inversesqrt 1 = 1 → c.Orthonormal → c.Up = cross c.Right c.Front →
        (c.GetViewMatrix m).1.mulVec (point c.Position) = ⟨0, 0, 0, 1⟩ ∧
        (c.GetViewMatrix m).1.mulVec (point (c.Position + c.Front)) = ⟨0, 0, -1, 1⟩ ∧
        (c.GetViewMatrix m).1.mulVec (point (c.Position + c.Up)) = ⟨0, 1, 0, 1⟩ ∧
        (c.GetViewMatrix m).1.mulVec (point (c.Position + c.Right)) = ⟨1, 0, 0, 1⟩) := by
  constructor
  · intro F _ _ _ _ _ _ m c
    exact ⟨rfl, rfl⟩
  · intro R _ m c h1 ho hh
    have ho2 := ho
    obtain ⟨hFF, hRR, hUU, hFR, hFU, hRU⟩ := ho2
    refine ⟨lookAt_eye _ _ _ _, ?_, ?_, ?_⟩
    · show (lookAt m c.Position (c.Position + c.Front) c.Up).mulVec _ = _
      rw [lookAt_camera m h1 c ho hh, dot_comm, hFR, dot_comm, hFU, hFF]
    · show (lookAt m c.Position (c.Position + c.Front) c.Up).mulVec _ = _
      rw [lookAt_camera m h1 c ho hh, hRU, hUU, hFU, neg_zero]
    · show (lookAt m c.Position (c.Position + c.Front) c.Up).mulVec _ = _
      rw [lookAt_camera m h1 c ho hh, hRR, dot_comm, hRU, hFR, neg_zero]

/-- Witness of C5 over the reals: the camera `main` constructs, with the default yaw and
pitch. -/
theorem camera_basis_orthonormal_witness :
    (Camera.new (⟨Real.sin, Real.cos, Real.tan, fun x => (Real.sqrt x)⁻¹, fun d => d * (Real.pi / 180)⟩ :
      Scalar ℝ) ⟨0, 0, 3⟩ ⟨0, 1, 0⟩ YAW PITCH ⟨0, 0, 0⟩ ⟨0, 0, 0⟩).DerivedBasis
      (⟨Real.sin, Real.cos, Real.tan, fun x => (Real.sqrt x)⁻¹, fun d => d * (Real.pi / 180)⟩ :
      Scalar ℝ) := by
  have hcs : ∀ x : ℝ, Real.cos x ^ 2 + Real.sin x ^ 2 = 1 := Real.cos_sq_add_sin_sq
  have hr : ∀ x : ℝ, 0 < x → 0 < (Real.sqrt x)⁻¹ ∧ (Real.sqrt x)⁻¹ ^ 2 * x = 1 := by
    intro x hx
    refine ⟨inv_pos.mpr (Real.sqrt_pos.mpr hx), ?_⟩
    rw [inv_pow, Real.sq_sqrt hx.le]
    exact inv_mul_cancel₀ hx.ne.symm
  exact (camera_basis_orthonormal (⟨Real.sin, Real.cos, Real.tan, fun x => (Real.sqrt x)⁻¹, fun d => d * (Real.pi / 180)⟩ :
      Scalar ℝ) hcs hr).1 ⟨0, 0, 3⟩ YAW PITCH ⟨0, 0, 0⟩ ⟨0, 0, 0⟩
    (by simp [PITCH])

/-- Witness of C6 over the reals: the right-handed camera looking down `-Z` from
`(0, 0, 3)`. -/
theorem GetViewMatrix_maps_basis_witness :
    (Real.sqrt 1)⁻¹ = 1 ∧
    (⟨⟨0, 0, 3⟩, ⟨0, 0, -1⟩, ⟨0, 1, 0⟩, ⟨1, 0, 0⟩, ⟨0, 1, 0⟩, -90, 0, 5 / 2, 1 / 10, 45⟩ :
      Camera ℝ).Orthonormal ∧
    ((⟨⟨0, 0, 3⟩, ⟨0, 0, -1⟩, ⟨0, 1, 0⟩, ⟨1, 0, 0⟩, ⟨0, 1, 0⟩, -90, 0, 5 / 2, 1 / 10, 45⟩ :
      Camera ℝ).GetViewMatrix (⟨Real.sin, Real.cos, Real.tan, fun x => (Real.sqrt x)⁻¹, fun d => d * (Real.pi / 180)⟩ :
      Scalar ℝ)).1.mulVec
        (point ((⟨0, 0, 3⟩ : Vec3 ℝ) + ⟨1, 0, 0⟩)) = ⟨1, 0, 0, 1⟩ :=
  ⟨by simp, by simp [Camera.Orthonormal, dot],
    (GetViewMatrix_maps_basis.2 ℝ (⟨Real.sin, Real.cos, Real.tan, fun x => (Real.sqrt x)⁻¹, fun d => d * (Real.pi / 180)⟩ :
      Scalar ℝ) (⟨⟨0, 0, 3⟩, ⟨0, 0, -1⟩, ⟨0, 1, 0⟩, ⟨1, 0, 0⟩, ⟨0, 1, 0⟩, -90, 0, 5 / 2, 1 / 10, 45⟩ :
      Camera ℝ) (by simp) (by simp [Camera.Orthonormal, dot])
      (by simp [cross])).2.2.2⟩

end CameraBasisProofs

/-! ### FileSystem: fallback, memoization, use by `main` -/

/-- C11: with `LOGL_ROOT_PATH` unset, `getPath(p)` returns `logl_root + "/" + p` when
`logl_root` is non-null and non-empty, and `"../../../" + p` when it is null or empty. -/
theorem getPath_fallback (logl_root : Option String) (p : String) :
    (FileSystem.getPath none logl_root FileSystem.init p).1 =
      match logl_root with
      | some r => if r = "" then "../../../" ++ p else r ++ "/" ++ p
      | none => "../../../" ++ p := by
  cases logl_root with
  | none => rfl
  | some r =>
    by_cases h : r = ""
    · simp [FileSystem.getPath, FileSystem.getPathBuilder, FileSystem.getRoot, FileSystem.init,
        FileSystem.getPathRelativeBinary, h]
    · simp [FileSystem.getPath, FileSystem.getPathBuilder, FileSystem.getRoot, FileSystem.init,
        FileSystem.getPathRelativeRoot, h]

/-- After its first call `getPath` no longer reads the environment. -/
theorem getPath_memoized (logl_root env0 env : Option String) (p0 p : String) :
    FileSystem.getPath env logl_root
        (FileSystem.getPath env0 logl_root FileSystem.init p0).2 p =
      ((FileSystem.getPath env0 logl_root FileSystem.init p).1,
        (FileSystem.getPath env0 logl_root FileSystem.init p0).2) := by
  rcases env0 with _ | e <;> rcases logl_root with _ | r
  · simp [FileSystem.getPath, FileSystem.getPathBuilder, FileSystem.getRoot, FileSystem.init,
      FileSystem.getPathRelativeBinary]
  · by_cases h : r = "" <;>
      simp [FileSystem.getPath, FileSystem.getPathBuilder, FileSystem.getRoot, FileSystem.init,
        FileSystem.getPathRelativeBinary, FileSystem.getPathRelativeRoot, h]
  · by_cases h : e = "" <;>
      simp [FileSystem.getPath, FileSystem.getPathBuilder, FileSystem.getRoot, FileSystem.init,
        FileSystem.getPathRelativeBinary, FileSystem.getPathRelativeRoot, h]
  · by_cases h : e = "" <;>
      simp [FileSystem.getPath, FileSystem.getPathBuilder, FileSystem.getRoot, FileSystem.init,
        FileSystem.getPathRelativeBinary, FileSystem.getPathRelativeRoot, h]

theorem getPathSeq_memoized (logl_root env0 : Option String) (p0 : String)
    (rest : List (Option String × String)) :
    FileSystem.getPathSeq logl_root (FileSystem.getPath env0 logl_root FileSystem.init p0).2 rest
      = rest.map (fun c => (FileSystem.getPath env0 logl_root FileSystem.init c.2).1) := by
  induction rest with
  | nil => rfl
  | cons c cs ih =>
    obtain ⟨env, p⟩ := c
    simp only [FileSystem.getPathSeq, getPath_memoized, List.map_cons, ih]

/-- C12: the root is memoized.  Over every sequence of `getPath` calls, each made with its own
value of `LOGL_ROOT_PATH`, every call `getPath(p)` returns what the first call would have
returned for `p`: the value fixed by `p` and the environment of the first call. -/
theorem getPathSeq_first_env (logl_root env0 : Option String) (p0 : String)
    (rest : List (Option String × String)) :
    FileSystem.getPathSeq logl_root FileSystem.init ((env0, p0) :: rest) =
      ((env0, p0) :: rest).map
        (fun c => (FileSystem.getPath env0 logl_root FileSystem.init c.2).1) := by
  simp only [FileSystem.getPathSeq, getPathSeq_memoized, List.map_cons]

/-- C18 (as the specification states it, refuted): the path from which `main` loads its
texture differs between two values of the root. -/
theorem grassTexturePath_depends_on_root :
    grassTexturePath (some "/opt/logl") (some "/src/build") = "/opt/logl/resources/textures/grass.jpeg" ∧
    grassTexturePath none (some "/src/build") = "/src/build/resources/textures/grass.jpeg" ∧
    grassTexturePath none none = "../../../resources/textures/grass.jpeg" ∧
    grassTexturePath (some "/opt/logl") (some "/src/build") ≠
      grassTexturePath none (some "/src/build") := by
  decide

/-- C18 (amended): `main` does use `FileSystem::getPath`: the path from which it loads its
texture is `root + "/resources/textures/grass.jpeg"` for the root in force (`LOGL_ROOT_PATH`
when set, else `logl_root`) when that root is non-empty, and
`"../../../resources/textures/grass.jpeg"` otherwise. -/
theorem grassTexturePath_eq (getenv logl_root : Option String) :
    grassTexturePath getenv logl_root =
      match (match getenv with
        | some e => some e
        | none => logl_root) with
      | some r =>
        if r = "" then "../../../resources/textures/grass.jpeg"
        else r ++ "/" ++ "resources/textures/grass.jpeg"
      | none => "../../../resources/textures/grass.jpeg" := by
  rcases getenv with _ | e <;> rcases logl_root with _ | r
  · rfl
  · by_cases h : r = "" <;>
      simp [grassTexturePath, FileSystem.getPath, FileSystem.getPathBuilder, FileSystem.getRoot,
        FileSystem.init, FileSystem.getPathRelativeBinary, FileSystem.getPathRelativeRoot, h]
  · by_cases h : e = "" <;>
      simp [grassTexturePath, FileSystem.getPath, FileSystem.getPathBuilder, FileSystem.getRoot,
        FileSystem.init, FileSystem.getPathRelativeBinary, FileSystem.getPathRelativeRoot, h]
  · by_cases h : e = "" <;>
      simp [grassTexturePath, FileSystem.getPath, FileSystem.getPathBuilder, FileSystem.getRoot,
        FileSystem.init, FileSystem.getPathRelativeBinary, FileSystem.getPathRelativeRoot, h]

/-! ### Shader -/

theorem emit_trace (s : ShaderLocals) (e : ShaderEvent) : (s.emit e).trace = s.trace ++ [e] :=
  rfl

theorem emit_vertexCode (s : ShaderLocals) (e : ShaderEvent) :
    (s.emit e).vertexCode = s.vertexCode := rfl

theorem emit_fragmentCode (s : ShaderLocals) (e : ShaderEvent) :
    (s.emit e).fragmentCode = s.fragmentCode := rfl

theorem emit_geometryCode (s : ShaderLocals) (e : ShaderEvent) :
    (s.emit e).geometryCode = s.geometryCode := rfl

theorem checkCompileErrors_trace (env : ShaderEnv) (shader : Nat) (type : String)
    (s : ShaderLocals) :
    (Shader.checkCompileErrors env shader type s).trace
      = s.trace ++ Shader.checkOutput env shader type := by
  unfold Shader.checkOutput Shader.checkCompileErrors
  split_ifs <;> simp [ShaderLocals.emit]

theorem checkCompileErrors_codes (env : ShaderEnv) (shader : Nat) (type : String)
    (s : ShaderLocals) :
    (Shader.checkCompileErrors env shader type s).vertexCode = s.vertexCode ∧
    (Shader.checkCompileErrors env shader type s).fragmentCode = s.fragmentCode ∧
    (Shader.checkCompileErrors env shader type s).geometryCode = s.geometryCode := by
  unfold Shader.checkCompileErrors
  split_ifs <;> exact ⟨rfl, rfl, rfl⟩

/-- The events of the constructor, piece by piece. -/
theorem Shader_new_trace (env : ShaderEnv) (vertexPath fragmentPath : String)
    (geometryPath : Option String) :
    (Shader.new env vertexPath fragmentPath geometryPath).2 =
      (Shader.sources env vertexPath fragmentPath geometryPath).trace ++
      Shader.catchOutput
        (Shader.tryBlock env vertexPath fragmentPath geometryPath ⟨"", "", "", []⟩).1 ++
      [.glCreateShader GL_VERTEX_SHADER env.vertex,
       .glShaderSource env.vertex
         (Shader.sources env vertexPath fragmentPath geometryPath).vertexCode,
       .glCompileShader env.vertex] ++
      Shader.checkOutput env env.vertex "VERTEX" ++
      [.glCreateShader GL_FRAGMENT_SHADER env.fragment,
       .glShaderSource env.fragment
         (Shader.sources env vertexPath fragmentPath geometryPath).fragmentCode,
       .glCompileShader env.fragment] ++
      Shader.checkOutput env env.fragment "FRAGMENT" ++
      (match geometryPath with
        | some _ =>
          [.glCreateShader GL_GEOMETRY_SHADER env.geometry,
           .glShaderSource env.geometry
             (Shader.sources env vertexPath fragmentPath geometryPath).geometryCode,
           .glCompileShader env.geometry] ++
          Shader.checkOutput env env.geometry "GEOMETRY"
        | none => []) ++
      [.glCreateProgram env.program,
       .glAttachShader env.program env.vertex,
       .glAttachShader env.program env.fragment] ++
      (match geometryPath with
        | some _ => [.glAttachShader env.program env.geometry]
        | none => []) ++
      [.glLinkProgram env.program] ++
      Shader.checkOutput env env.program "PROGRAM" ++
      [.glDeleteShader env.vertex, .glDeleteShader env.fragment] ++
      (match geometryPath with
        | some _ => [.glDeleteShader env.geometry]
        | none => []) := by
  unfold Shader.new Shader.sources
  generalize Shader.tryBlock env vertexPath fragmentPath geometryPath ⟨"", "", "", []⟩ = r
  obtain ⟨r1, r2⟩ := r
  cases r1 <;> cases geometryPath <;>
    simp only [Shader.catchOutput, emit_trace, emit_vertexCode, emit_fragmentCode,
      emit_geometryCode, checkCompileErrors_trace, checkCompileErrors_codes,
      List.append_assoc, List.cons_append, List.nil_append, List.append_nil]

theorem sources_trace (env : ShaderEnv) (vertexPath fragmentPath : String)
    (geometryPath : Option String) :
    (Shader.sources env vertexPath fragmentPath geometryPath).trace =
      .ifstreamOpen vertexPath ::
        (if env.file vertexPath = none then []
         else .ifstreamOpen fragmentPath ::
          (if env.file fragmentPath = none then []
           else match geometryPath with
            | some g => [.ifstreamOpen g]
            | none => [])) := by
  unfold Shader.sources Shader.tryBlock
  rcases hv : env.file vertexPath with _ | v
  · simp [ShaderLocals.emit]
  · rcases hf : env.file fragmentPath with _ | f
    · simp [ShaderLocals.emit]
    · rcases geometryPath with _ | gp
      · simp [ShaderLocals.emit]
      · rcases hg : env.file gp with _ | g <;> simp [ShaderLocals.emit, hg]

theorem catchOutput_tryBlock (env : ShaderEnv) (vertexPath fragmentPath : String)
    (geometryPath : Option String) :
    Shader.catchOutput
        (Shader.tryBlock env vertexPath fragmentPath geometryPath ⟨"", "", "", []⟩).1 =
      match Shader.firstUnreadable env vertexPath fragmentPath geometryPath with
      | some p => [.cout ["ERROR::SHADER::FILE_NOT_SUCCESSFULLY_READ: ", env.what p]]
      | none => [] := by
  unfold Shader.tryBlock Shader.firstUnreadable
  rcases hv : env.file vertexPath with _ | v
  · simp [Shader.catchOutput]
  · rcases hf : env.file fragmentPath with _ | f
    · simp [Shader.catchOutput]
    · rcases geometryPath with _ | gp
      · simp [Shader.catchOutput]
      · rcases hg : env.file gp with _ | g <;> simp [Shader.catchOutput, hg]

theorem checkOutput_stage (env : ShaderEnv) (shader : Nat) (type : String)
    (ht : type ≠ "PROGRAM") :
    Shader.checkOutput env shader type =
      if env.compileStatus shader then []
      else [compileErrorLine type (env.shaderInfoLog shader)] := by
  unfold Shader.checkOutput Shader.checkCompileErrors
  cases h : env.compileStatus shader <;> simp [ht, ShaderLocals.emit, compileErrorLine]

theorem checkOutput_program (env : ShaderEnv) (program : Nat) :
    Shader.checkOutput env program "PROGRAM" =
      if env.linkStatus program then []
      else [linkErrorLine (env.programInfoLog program)] := by
  unfold Shader.checkOutput Shader.checkCompileErrors
  cases h : env.linkStatus program <;> simp [ShaderLocals.emit, linkErrorLine]

theorem sources_trace_isCout (env : ShaderEnv) (vertexPath fragmentPath : String)
    (geometryPath : Option String) :
    (Shader.sources env vertexPath fragmentPath geometryPath).trace.filter ShaderEvent.isCout
      = [] := by
  rw [sources_trace]
  rcases geometryPath with _ | gp <;> split_ifs <;> simp [ShaderEvent.isCout]

theorem sources_trace_isGL (env : ShaderEnv) (vertexPath fragmentPath : String)
    (geometryPath : Option String) :
    (Shader.sources env vertexPath fragmentPath geometryPath).trace.filter ShaderEvent.isGL
      = [] := by
  rw [sources_trace]
  rcases geometryPath with _ | gp <;> split_ifs <;> simp [ShaderEvent.isGL]

theorem checkOutput_isGL (env : ShaderEnv) (shader : Nat) (type : String) :
    (Shader.checkOutput env shader type).filter ShaderEvent.isGL = [] := by
  unfold Shader.checkOutput Shader.checkCompileErrors
  split_ifs <;> simp [ShaderLocals.emit, ShaderEvent.isGL]

theorem checkOutput_isOpen (env : ShaderEnv) (shader : Nat) (type : String) :
    (Shader.checkOutput env shader type).filter ShaderEvent.isOpen = [] := by
  unfold Shader.checkOutput Shader.checkCompileErrors
  split_ifs <;> simp [ShaderLocals.emit, ShaderEvent.isOpen]

theorem checkOutput_isCout (env : ShaderEnv) (shader : Nat) (type : String) :
    (Shader.checkOutput env shader type).filter ShaderEvent.isCout
      = Shader.checkOutput env shader type := by
  unfold Shader.checkOutput Shader.checkCompileErrors
  split_ifs <;> simp [ShaderLocals.emit, ShaderEvent.isCout]

theorem catchOutput_filters (r : Except String Unit) :
    (Shader.catchOutput r).filter ShaderEvent.isGL = [] ∧
    (Shader.catchOutput r).filter ShaderEvent.isOpen = [] ∧
    (Shader.catchOutput r).filter ShaderEvent.isCout = Shader.catchOutput r := by
  cases r <;> simp [Shader.catchOutput, ShaderEvent.isGL, ShaderEvent.isOpen, ShaderEvent.isCout]

/-- C13: the `Shader` constructor never propagates a failure.  For every file system and
every compile and link outcome it returns normally with the program `ID`, and all it writes to
`std::cout` is, in order: one `ERROR::SHADER::FILE_NOT_SUCCESSFULLY_READ` line when a file
cannot be opened, one `ERROR::SHADER_COMPILATION_ERROR` line per stage that fails to compile,
and one `ERROR::PROGRAM_LINKING_ERROR` line when the link fails. -/
theorem Shader_new_never_fails (env : ShaderEnv) (vertexPath fragmentPath : String)
    (geometryPath : Option String) :
    (Shader.new env vertexPath fragmentPath geometryPath).1 = .ok ⟨env.program⟩ ∧
    (Shader.new env vertexPath fragmentPath geometryPath).2.filter ShaderEvent.isCout =
      (match Shader.firstUnreadable env vertexPath fragmentPath geometryPath with
        | some p => [.cout ["ERROR::SHADER::FILE_NOT_SUCCESSFULLY_READ: ", env.what p]]
        | none => []) ++
      (if env.compileStatus env.vertex then []
        else [compileErrorLine "VERTEX" (env.shaderInfoLog env.vertex)]) ++
      (if env.compileStatus env.fragment then []
        else [compileErrorLine "FRAGMENT" (env.shaderInfoLog env.fragment)]) ++
      (match geometryPath with
        | some _ =>
          if env.compileStatus env.geometry then []
          else [compileErrorLine "GEOMETRY" (env.shaderInfoLog env.geometry)]
        | none => []) ++
      (if env.linkStatus env.program then []
        else [linkErrorLine (env.programInfoLog env.program)]) := by
  refine ⟨rfl, ?_⟩
  rw [Shader_new_trace]
  simp only [List.filter_append, sources_trace_isCout, checkOutput_isCout,
    (catchOutput_filters _).2.2, List.nil_append]
  rw [catchOutput_tryBlock, checkOutput_stage env env.vertex "VERTEX" (by decide),
    checkOutput_stage env env.fragment "FRAGMENT" (by decide), checkOutput_program]
  rcases geometryPath with _ | gp
  · simp [ShaderEvent.isCout]
  · simp only [List.filter_append, checkOutput_isCout]
    rw [checkOutput_stage env env.geometry "GEOMETRY" (by decide)]
    simp [ShaderEvent.isCout]

theorem sources_trace_isOpen (env : ShaderEnv) (vertexPath fragmentPath : String)
    (geometryPath : Option String) :
    (Shader.sources env vertexPath fragmentPath geometryPath).trace.filter ShaderEvent.isOpen
      = (Shader.sources env vertexPath fragmentPath geometryPath).trace := by
  rw [sources_trace]
  rcases geometryPath with _ | gp <;> split_ifs <;> simp [ShaderEvent.isOpen]

/-- C14 (as the specification states it, refuted): no file can be opened and a geometry path
is given.  The geometry stage is compiled and attached, but the geometry file is never read:
the failure of the first `open` leaves the `try` block before it. -/
theorem Shader_new_geometry_not_read :
    (some "depth.gs").isSome = true ∧
    ShaderEvent.glCompileShader 3 ∈
      (Shader.new ShaderEnv.noFiles "depth.vs" "depth.fs" (some "depth.gs")).2 ∧
    ShaderEvent.glAttachShader 4 3 ∈
      (Shader.new ShaderEnv.noFiles "depth.vs" "depth.fs" (some "depth.gs")).2 ∧
    ShaderEvent.ifstreamOpen "depth.gs" ∉
      (Shader.new ShaderEnv.noFiles "depth.vs" "depth.fs" (some "depth.gs")).2 := by
  decide

/-- The three source strings the `try` block leaves: the vertex and the fragment content
when both files could be opened, and the geometry content when, after them, the geometry file
could be opened too; the empty string otherwise. -/
theorem sources_codes (env : ShaderEnv) (vertexPath fragmentPath : String)
    (geometryPath : Option String) :
    (Shader.sources env vertexPath fragmentPath geometryPath).vertexCode =
      (if (env.file vertexPath).isSome ∧ (env.file fragmentPath).isSome
        then (env.file vertexPath).getD "" else "") ∧
    (Shader.sources env vertexPath fragmentPath geometryPath).fragmentCode =
      (if (env.file vertexPath).isSome ∧ (env.file fragmentPath).isSome
        then (env.file fragmentPath).getD "" else "") ∧
    (Shader.sources env vertexPath fragmentPath geometryPath).geometryCode =
      (match geometryPath with
        | some g =>
          if (env.file vertexPath).isSome ∧ (env.file fragmentPath).isSome
            then (env.file g).getD "" else ""
        | none => "") := by
  unfold Shader.sources Shader.tryBlock
  rcases geometryPath with _ | gp
  · rcases hv : env.file vertexPath with _ | v
    · simp [ShaderLocals.emit]
    · rcases hf : env.file fragmentPath with _ | f <;> simp [ShaderLocals.emit]
  · rcases hv : env.file vertexPath with _ | v
    · simp [ShaderLocals.emit]
    · rcases hf : env.file fragmentPath with _ | f
      · simp [ShaderLocals.emit]
      · rcases hg : env.file gp with _ | g <;> simp [ShaderLocals.emit, hg]

/-- C14 (amended): the constructor creates, compiles, attaches and deletes exactly a vertex
and a fragment stage when `geometryPath` is null and exactly a vertex, a fragment and a
geometry stage when it is not; the geometry stage is compiled and attached if and only if
`geometryPath` is given; all attachments precede the single link.  The geometry file is opened
exactly when `geometryPath` is given and the vertex and the fragment file could both be
opened, and the geometry stage is compiled from the content of that file when it could be
opened, from the empty string otherwise.  (The vertex and the fragment stage are compiled from
their files when both could be opened, from the empty string otherwise.) -/
theorem Shader_new_stages (env : ShaderEnv) (vertexPath fragmentPath : String)
    (geometryPath : Option String) :
    (Shader.new env vertexPath fragmentPath geometryPath).2.filter ShaderEvent.isGL =
      [.glCreateShader GL_VERTEX_SHADER env.vertex,
       .glShaderSource env.vertex
         (if (env.file vertexPath).isSome ∧ (env.file fragmentPath).isSome
           then (env.file vertexPath).getD "" else ""),
       .glCompileShader env.vertex,
       .glCreateShader GL_FRAGMENT_SHADER env.fragment,
       .glShaderSource env.fragment
         (if (env.file vertexPath).isSome ∧ (env.file fragmentPath).isSome
           then (env.file fragmentPath).getD "" else ""),
       .glCompileShader env.fragment] ++
      (match geometryPath with
        | some g =>
          [.glCreateShader GL_GEOMETRY_SHADER env.geometry,
           .glShaderSource env.geometry
             (if (env.file vertexPath).isSome ∧ (env.file fragmentPath).isSome
               then (env.file g).getD "" else ""),
           .glCompileShader env.geometry]
        | none => []) ++
      [.glCreateProgram env.program,
       .glAttachShader env.program env.vertex,
       .glAttachShader env.program env.fragment] ++
      (match geometryPath with
        | some _ => [.glAttachShader env.program env.geometry]
        | none => []) ++
      [.glLinkProgram env.program,
       .glDeleteShader env.vertex,
       .glDeleteShader env.fragment] ++
      (match geometryPath with
        | some _ => [.glDeleteShader env.geometry]
        | none => []) ∧
    (Shader.new env vertexPath fragmentPath geometryPath).2.filter ShaderEvent.isOpen =
      .ifstreamOpen vertexPath ::
        (if env.file vertexPath = none then []
         else .ifstreamOpen fragmentPath ::
          (if env.file fragmentPath = none then []
           else match geometryPath with
            | some g => [.ifstreamOpen g]
            | none => [])) := by
  obtain ⟨hv, hf, hg⟩ := sources_codes env vertexPath fragmentPath geometryPath
  constructor
  · rw [Shader_new_trace]
    simp only [List.filter_append, sources_trace_isGL, checkOutput_isGL,
      (catchOutput_filters _).1, List.nil_append, List.append_nil]
    rw [hv, hf]
    rcases geometryPath with _ | gp
    · simp [ShaderEvent.isGL]
    · simp only [List.filter_append, checkOutput_isGL]
      rw [hg]
      simp [ShaderEvent.isGL]
  · rw [Shader_new_trace]
    simp only [List.filter_append, sources_trace_isOpen, checkOutput_isOpen,
      (catchOutput_filters _).2.1, List.nil_append, List.append_nil]
    rw [sources_trace]
    rcases geometryPath with _ | gp
    · simp [ShaderEvent.isOpen]
    · simp only [List.filter_append, checkOutput_isOpen]
      simp [ShaderEvent.isOpen]

/-! ### Mesh -/

theorem number_countersAfter (pre : List Texture) (t : Texture) (rest : List Texture) :
    t.type ++ (Mesh.number t.type (countersAfter pre)).1
      = samplerName (pre ++ t :: rest) pre.length ∧
    (Mesh.number t.type (countersAfter pre)).2 = countersAfter (pre ++ [t]) := by
  have htake : (pre ++ t :: rest).take (pre.length + 1) = pre ++ [t] := by
    rw [show pre ++ t :: rest = (pre ++ [t]) ++ rest by simp]
    exact List.take_left' (by simp)
  have hget : (pre ++ t :: rest)[pre.length]? = some t := by
    rw [List.getElem?_append_right (Nat.le_refl _)]; simp
  unfold samplerName
  rw [hget, htake]
  simp only [Mesh.number, countersAfter, List.countP_append]
  by_cases h1 : t.type = "texture_diffuse"
  · simp [h1, Nat.add_comm, Nat.add_assoc]
  · by_cases h2 : t.type = "texture_specular"
    · simp [h2, Nat.add_comm, Nat.add_assoc]
    · by_cases h3 : t.type = "texture_normal"
      · simp [h3, Nat.add_comm, Nat.add_assoc]
      · by_cases h4 : t.type = "texture_height"
        · simp [h4, Nat.add_comm, Nat.add_assoc]
        · simp [h1, h2, h3, h4]

theorem bindTextures_eq (shader : Shader) (pre rest : List Texture) :
    Mesh.bindTextures shader pre.length (countersAfter pre) rest
      = expectedBinds shader (pre ++ rest) pre.length rest := by
  induction rest generalizing pre with
  | nil => rfl
  | cons t ts ih =>
    have h := number_countersAfter pre t ts
    have ih2 := ih (pre ++ [t])
    simp only [List.length_append, List.length_singleton, List.append_assoc,
      List.singleton_append] at ih2
    simp only [Mesh.bindTextures, expectedBinds, h.1, h.2, ih2]

/-- C17: `Mesh::Draw` numbers the samplers per texture type.  For every texture list the
texture at index `i` is bound to unit `GL_TEXTURE0 + i` and its sampler uniform, set to `i`,
is named by the type and the 1-based count of textures of that type among indices `0..i` for
the four numbered types and by the bare type otherwise; then one `glDrawElements` of
`indices.size()` elements is issued and unit `GL_TEXTURE0` is left active. -/
theorem Mesh_Draw_sampler_names {K : Type} (mesh : Mesh K) (shader : Shader) :
    mesh.Draw shader =
      expectedBinds shader mesh.textures 0 mesh.textures ++
      [ .glBindVertexArray mesh.VAO,
        .glDrawElements GL_TRIANGLES mesh.indices.length GL_UNSIGNED_INT,
        .glBindVertexArray 0,
        .glActiveTexture GL_TEXTURE0 ] ∧
    samplerName [⟨7, "texture_diffuse", "a.png"⟩, ⟨8, "texture_specular", "b.png"⟩,
      ⟨9, "texture_diffuse", "c.png"⟩, ⟨10, "texture_emissive", "d.png"⟩] 0
        = "texture_diffuse1" ∧
    samplerName [⟨7, "texture_diffuse", "a.png"⟩, ⟨8, "texture_specular", "b.png"⟩,
      ⟨9, "texture_diffuse", "c.png"⟩, ⟨10, "texture_emissive", "d.png"⟩] 2
        = "texture_diffuse2" ∧
    samplerName [⟨7, "texture_diffuse", "a.png"⟩, ⟨8, "texture_specular", "b.png"⟩,
      ⟨9, "texture_diffuse", "c.png"⟩, ⟨10, "texture_emissive", "d.png"⟩] 3
        = "texture_emissive" := by
  refine ⟨?_, by decide, by decide, by decide⟩
  have h := bindTextures_eq shader [] mesh.textures
  simp only [List.length_nil, List.nil_append] at h
  unfold Mesh.Draw
  rw [← h]
  rfl

/-! ### Model: the node tree -/

section ModelTreeProofs

variable {K : Type} [Zero K]

omit [Zero K] in
theorem loadTexture_meshes (gl : GLNames) (typeName str : String)
    (acc : List Texture × Model K × World) :
    (Model.loadTexture gl typeName str acc).2.1.meshes = acc.2.1.meshes ∧
    (Model.loadTexture gl typeName str acc).2.1.directory = acc.2.1.directory := by
  unfold Model.loadTexture
  split <;> exact ⟨rfl, rfl⟩

omit [Zero K] in
theorem foldl_loadTexture_meshes (gl : GLNames) (typeName : String) (strs : List String)
    (acc : List Texture × Model K × World) :
    (strs.foldl (fun acc str => Model.loadTexture gl typeName str acc) acc).2.1.meshes
      = acc.2.1.meshes ∧
    (strs.foldl (fun acc str => Model.loadTexture gl typeName str acc) acc).2.1.directory
      = acc.2.1.directory := by
  induction strs generalizing acc with
  | nil => exact ⟨rfl, rfl⟩
  | cons s ss ih =>
    simp only [List.foldl_cons]
    exact ⟨(ih _).1.trans (loadTexture_meshes gl typeName s acc).1,
      (ih _).2.trans (loadTexture_meshes gl typeName s acc).2⟩

omit [Zero K] in
theorem loadMaterialTextures_meshes (gl : GLNames) (mat : aiMaterial) (type : aiTextureType)
    (typeName : String) (m : Model K) (w : World) :
    (Model.loadMaterialTextures gl mat type typeName m w).2.1.meshes = m.meshes ∧
    (Model.loadMaterialTextures gl mat type typeName m w).2.1.directory = m.directory :=
  foldl_loadTexture_meshes gl typeName _ _

theorem processMesh_meshes (gl : GLNames) (scene : aiScene K) (mesh : aiMesh K) (m : Model K)
    (w : World) :
    (Model.processMesh gl scene mesh m w).2.1.meshes = m.meshes ∧
    (Model.processMesh gl scene mesh m w).1.geometry
      = (Model.processVertices mesh, Model.processIndices mesh) := by
  refine ⟨?_, rfl⟩
  simp only [Model.processMesh, loadMaterialTextures_meshes]

theorem processNodeMeshes_meshes (gl : GLNames) (scene : aiScene K) (idxs : List Nat)
    (st : Model K × World) :
    ∃ app : List (Mesh K),
      (Model.processNodeMeshes gl scene idxs st).1.meshes = st.1.meshes ++ app ∧
      app.map Mesh.geometry = idxs.map scene.geometry := by
  induction idxs generalizing st with
  | nil => exact ⟨[], by simp [Model.processNodeMeshes], rfl⟩
  | cons idx rest ih =>
    obtain ⟨app, h1, h2⟩ := ih
      ({ (Model.processMesh gl scene
            (scene.mMeshes.getD idx ⟨[], none, none, [], [], [], 0⟩) st.1 st.2).2.1 with
          meshes := (Model.processMesh gl scene
            (scene.mMeshes.getD idx ⟨[], none, none, [], [], [], 0⟩) st.1 st.2).2.1.meshes ++
            [(Model.processMesh gl scene
              (scene.mMeshes.getD idx ⟨[], none, none, [], [], [], 0⟩) st.1 st.2).1] },
        (Model.processMesh gl scene
          (scene.mMeshes.getD idx ⟨[], none, none, [], [], [], 0⟩) st.1 st.2).2.2)
    refine ⟨(Model.processMesh gl scene
      (scene.mMeshes.getD idx ⟨[], none, none, [], [], [], 0⟩) st.1 st.2).1 :: app, ?_, ?_⟩
    · rw [Model.processNodeMeshes, h1]
      simp [(processMesh_meshes gl scene _ st.1 st.2).1]
    · simp only [List.map_cons, h2, (processMesh_meshes gl scene _ st.1 st.2).2]
      rfl

mutual
theorem processNode_meshes (gl : GLNames) (scene : aiScene K) (node : aiNode)
    (st : Model K × World) :
    ∃ app : List (Mesh K),
      (Model.processNode gl scene node st).1.meshes = st.1.meshes ++ app ∧
      app.map Mesh.geometry = node.meshRefs.map scene.geometry := by
  cases node with
  | mk mMeshes mChildren =>
    obtain ⟨a1, h1, g1⟩ := processNodeMeshes_meshes gl scene mMeshes st
    obtain ⟨a2, h2, g2⟩ := processChildren_meshes gl scene mChildren
      (Model.processNodeMeshes gl scene mMeshes st)
    refine ⟨a1 ++ a2, ?_, ?_⟩
    · rw [Model.processNode, h2, h1, List.append_assoc]
    · rw [aiNode.meshRefs, List.map_append, List.map_append, g1, g2]
theorem processChildren_meshes (gl : GLNames) (scene : aiScene K) (nodes : List aiNode)
    (st : Model K × World) :
    ∃ app : List (Mesh K),
      (Model.processChildren gl scene nodes st).1.meshes = st.1.meshes ++ app ∧
      app.map Mesh.geometry = (aiNode.meshRefsList nodes).map scene.geometry := by
  cases nodes with
  | nil => exact ⟨[], by simp [Model.processChildren], by simp [aiNode.meshRefsList]⟩
  | cons c cs =>
    obtain ⟨a1, h1, g1⟩ := processNode_meshes gl scene c st
    obtain ⟨a2, h2, g2⟩ := processChildren_meshes gl scene cs (Model.processNode gl scene c st)
    refine ⟨a1 ++ a2, ?_, ?_⟩
    · rw [Model.processChildren, h2, h1, List.append_assoc]
    · rw [aiNode.meshRefsList, List.map_append, List.map_append, g1, g2]
end

mutual
theorem meshRefs_length (node : aiNode) : node.meshRefs.length = node.totalMeshes := by
  cases node with
  | mk mMeshes mChildren =>
    rw [aiNode.meshRefs, aiNode.totalMeshes, List.length_append, meshRefsList_length]
theorem meshRefsList_length (nodes : List aiNode) :
    (aiNode.meshRefsList nodes).length = aiNode.totalMeshesList nodes := by
  cases nodes with
  | nil => simp [aiNode.meshRefsList, aiNode.totalMeshesList]
  | cons c cs =>
    rw [aiNode.meshRefsList, aiNode.totalMeshesList, List.length_append, meshRefs_length,
      meshRefsList_length]
end

/-- C15: `processNode` flattens the node tree in depth-first pre-order.  For every node tree
(a finite tree, on which the recursion is total) and every model, the meshes of the model are
kept and the meshes appended are, in order, those of the node's indices followed by those of
each child subtree in child order; so the number appended is the sum of `mNumMeshes` over all
nodes, a mesh referenced twice appearing twice. -/
theorem processNode_preorder (gl : GLNames) (scene : aiScene K) (node : aiNode) (m : Model K)
    (w : World) :
    (Model.processNode gl scene node (m, w)).1.meshes.take m.meshes.length = m.meshes ∧
    ((Model.processNode gl scene node (m, w)).1.meshes.drop m.meshes.length).map Mesh.geometry
      = node.meshRefs.map scene.geometry ∧
    (Model.processNode gl scene node (m, w)).1.meshes.length
      = m.meshes.length + node.totalMeshes ∧
    aiNode.meshRefs (.mk [0] [.mk [1, 0] [.mk [2] []], .mk [3] []]) = [0, 1, 0, 2, 3] := by
  obtain ⟨app, h, g⟩ := processNode_meshes gl scene node (m, w)
  have hl : app.length = node.totalMeshes := by
    rw [← meshRefs_length, ← List.length_map app Mesh.geometry, g, List.length_map]
  refine ⟨?_, ?_, ?_, ?_⟩
  · rw [h]; exact List.take_left _ _
  · rw [h, List.drop_left]; exact g
  · rw [h, List.length_append, hl]
  · simp [aiNode.meshRefs, aiNode.meshRefsList]

end ModelTreeProofs

/-! ### Model: the texture cache -/

section TextureCacheProofs

variable {K : Type}

theorem loadTexture_loadedOnce (gl : GLNames) (typeName str : String)
    (acc : List Texture × Model K × World) (h : Model.LoadedOnce acc.2.1 acc.2.2) :
    Model.LoadedOnce (Model.loadTexture gl typeName str acc).2.1
      (Model.loadTexture gl typeName str acc).2.2 ∧
    (Model.loadTexture gl typeName str acc).1.map (fun t => t.path)
      = acc.1.map (fun t => t.path) ++ [str] := by
  unfold Model.loadTexture
  split
  · rename_i t hfind
    have hp : t.path = str := by
      have := List.find?_some hfind
      simpa using this
    exact ⟨h, by simp [hp]⟩
  · rename_i hfind
    have hnot : str ∉ acc.2.1.textures_loaded.map (fun t => t.path) := by
      intro hmem
      obtain ⟨t, ht, hp⟩ := List.mem_map.mp hmem
      have := List.find?_eq_none.mp hfind t ht
      simp [hp] at this
    refine ⟨⟨?_, ?_⟩, ?_⟩
    · simp [TextureFromFile, h.1]
    · simp only [List.map_append, List.map_cons, List.map_nil]
      exact List.Nodup.append h.2 (List.nodup_singleton _) (by simpa using hnot)
    · simp

theorem foldl_loadTexture_loadedOnce (gl : GLNames) (typeName : String) (strs : List String)
    (acc : List Texture × Model K × World) (h : Model.LoadedOnce acc.2.1 acc.2.2) :
    Model.LoadedOnce
      (strs.foldl (fun acc str => Model.loadTexture gl typeName str acc) acc).2.1
      (strs.foldl (fun acc str => Model.loadTexture gl typeName str acc) acc).2.2 ∧
    (strs.foldl (fun acc str => Model.loadTexture gl typeName str acc) acc).1.map
      (fun t => t.path) = acc.1.map (fun t => t.path) ++ strs := by
  induction strs generalizing acc with
  | nil => exact ⟨h, by simp⟩
  | cons s ss ih =>
    obtain ⟨h1, h2⟩ := loadTexture_loadedOnce gl typeName s acc h
    obtain ⟨h3, h4⟩ := ih _ h1
    exact ⟨h3, by rw [List.foldl_cons, h4, h2]; simp⟩

theorem loadMaterialTextures_loadedOnce (gl : GLNames) (mat : aiMaterial)
    (type : aiTextureType) (typeName : String) (m : Model K) (w : World)
    (h : Model.LoadedOnce m w) :
    Model.LoadedOnce (Model.loadMaterialTextures gl mat type typeName m w).2.1
      (Model.loadMaterialTextures gl mat type typeName m w).2.2 ∧
    (Model.loadMaterialTextures gl mat type typeName m w).1.map (fun t => t.path)
      = mat.textures type := by
  have := foldl_loadTexture_loadedOnce gl typeName (mat.textures type) ([], m, w) h
  exact ⟨this.1, by simpa using this.2⟩

theorem loadSeq_loadedOnce (gl : GLNames) (calls : List (aiMaterial × aiTextureType × String))
    (m : Model K) (w : World) (h : Model.LoadedOnce m w) :
    Model.LoadedOnce (Model.loadSeq gl calls m w).2.1 (Model.loadSeq gl calls m w).2.2 ∧
    (Model.loadSeq gl calls m w).1.map (fun ts => ts.map (fun t => t.path))
      = calls.map (fun c => c.1.textures c.2.1) := by
  induction calls generalizing m w with
  | nil => exact ⟨h, rfl⟩
  | cons c cs ih =>
    obtain ⟨h1, h2⟩ := loadMaterialTextures_loadedOnce gl c.1 c.2.1 c.2.2 m w h
    obtain ⟨h3, h4⟩ := ih _ _ h1
    exact ⟨h3, by simp only [Model.loadSeq, List.map_cons, h2, h4]⟩

/-- C16: a model does not load a texture twice.  Over every sequence of
`loadMaterialTextures` calls on a model that starts with no loaded texture, the paths
`TextureFromFile` is called with are pairwise distinct (at most one call per path), the paths
in `textures_loaded` stay pairwise distinct, and each call returns one texture per texture of
the material for that type, with the material's paths in material order. -/
theorem loadMaterialTextures_loads_once (gl : GLNames)
    (calls : List (aiMaterial × aiTextureType × String)) (meshes : List (Mesh K))
    (directory : String) (gamma : Bool) (vertexArrays : Nat) (cout : List (List String)) :
    ((Model.loadSeq gl calls ⟨[], meshes, directory, gamma⟩ ⟨[], vertexArrays, cout⟩).2.2.loads.map
      (fun l => l.path)).Nodup ∧
    ((Model.loadSeq gl calls ⟨[], meshes, directory, gamma⟩
      ⟨[], vertexArrays, cout⟩).2.1.textures_loaded.map (fun t => t.path)).Nodup ∧
    (Model.loadSeq gl calls ⟨[], meshes, directory, gamma⟩ ⟨[], vertexArrays, cout⟩).1.map
      (fun ts => ts.map (fun t => t.path)) = calls.map (fun c => c.1.textures c.2.1) ∧
    (Model.loadSeq gl calls ⟨[], meshes, directory, gamma⟩ ⟨[], vertexArrays, cout⟩).1.map
      List.length = calls.map (fun c => (c.1.textures c.2.1).length) := by
  have h0 : Model.LoadedOnce (⟨[], meshes, directory, gamma⟩ : Model K)
      ⟨[], vertexArrays, cout⟩ := ⟨rfl, List.nodup_nil⟩
  obtain ⟨⟨h1, h2⟩, h3⟩ := loadSeq_loadedOnce gl calls _ _ h0
  refine ⟨by rw [h1]; exact h2, h2, h3, ?_⟩
  have := congrArg (List.map List.length) h3
  simpa [Function.comp_def] using this

end TextureCacheProofs

/-! ### Model: loading -/

/-- C19: `loadModel` does not fail on a bad asset.  When the importer returns no scene, a
scene with the incomplete flag, or a scene without root node, the constructor completes, all
it does is print `ERROR::ASSIMP::` with the importer's message, `meshes` and `textures_loaded`
are empty and `directory` is still the empty string, and `Model::Draw` issues no call at
all. -/
theorem loadModel_bad_asset {K : Type} [Zero K] (gl : GLNames) (importer : Importer K)
    (path : String) (gamma : Bool) (w : World) (shader : Shader)
    (hbad : importer.ReadFile path = none ∨
      ∃ scene, importer.ReadFile path = some scene ∧
        (scene.mFlags &&& AI_SCENE_FLAGS_INCOMPLETE ≠ 0 ∨ scene.mRootNode = none)) :
    Model.new gl importer path gamma w =
      (⟨[], [], "", gamma⟩,
        { w with cout := w.cout ++ [["ERROR::ASSIMP:: ", importer.GetErrorString path]] }) ∧
    (Model.new gl importer path gamma w).1.Draw shader = [] := by
  have key : Model.new gl importer path gamma w =
      (⟨[], [], "", gamma⟩,
        { w with cout := w.cout ++ [["ERROR::ASSIMP:: ", importer.GetErrorString path]] }) := by
    unfold Model.new Model.loadModel
    rcases hbad with h | ⟨scene, h, hflag | hroot⟩
    · simp only [h]
    · simp only [h]
      rw [if_pos hflag]
    · simp only [h, hroot]
      split_ifs <;> rfl
  exact ⟨key, by rw [key]; rfl⟩

/-- Witness of C19: an importer that finds no file. -/
theorem loadModel_bad_asset_witness :
    (Model.new ⟨fun n => n + 1, fun n => n + 1⟩
      (⟨fun _ => none, fun _ => "Unable to open file"⟩ : Importer ℚ)
      "resources/objects/missing.obj" false World.init).1.Draw ⟨3⟩ = [] :=
  (loadModel_bad_asset ⟨fun n => n + 1, fun n => n + 1⟩
    (⟨fun _ => none, fun _ => "Unable to open file"⟩ : Importer ℚ)
    "resources/objects/missing.obj" false World.init ⟨3⟩ (Or.inl rfl)).2

/-! ### `renderScene` -/

/-- C20: `renderScene` draws exactly six cubes, whatever shader is passed and whatever the
state before.  The first, the room (scaled by 5), is drawn with face culling disabled and
`reverse_normals` 1; the five others with culling enabled and `reverse_normals` 0; on return
culling is enabled and `reverse_normals` is 0. -/
theorem renderScene_six_cubes {K : Type} [Field K] (shader : Shader) (s : SceneState K) :
    (cubesDrawn shader s (renderScene shader)).length = 6 ∧
    (cubesDrawn shader s (renderScene shader)).map (fun d => (d.1, d.2.1)) =
      [(false, 1), (true, 0), (true, 0), (true, 0), (true, 0), (true, 0)] ∧
    (cubesDrawn shader s (renderScene shader)).map (fun d => d.2.2) =
      [ ⟨⟨5, 0, 0, 0⟩, ⟨0, 5, 0, 0⟩, ⟨0, 0, 5, 0⟩, ⟨0, 0, 0, 1⟩⟩,
        ⟨⟨1 / 2, 0, 0, 0⟩, ⟨0, 1 / 2, 0, 0⟩, ⟨0, 0, 1 / 2, 0⟩, ⟨4, -(7 / 2), 0, 1⟩⟩,
        ⟨⟨3 / 4, 0, 0, 0⟩, ⟨0, 3 / 4, 0, 0⟩, ⟨0, 0, 3 / 4, 0⟩, ⟨2, 3, 1, 1⟩⟩,
        ⟨⟨1 / 2, 0, 0, 0⟩, ⟨0, 1 / 2, 0, 0⟩, ⟨0, 0, 1 / 2, 0⟩, ⟨-3, -1, 0, 1⟩⟩,
        ⟨⟨1 / 2, 0, 0, 0⟩, ⟨0, 1 / 2, 0, 0⟩, ⟨0, 0, 1 / 2, 0⟩, ⟨-(3 / 2), 1, 3 / 2, 1⟩⟩,
        ⟨⟨3 / 4, 0, 0, 0⟩, ⟨0, 3 / 4, 0, 0⟩, ⟨0, 0, 3 / 4, 0⟩, ⟨-(3 / 2), 2, -3, 1⟩⟩ ] ∧
    (s.run (renderScene shader)).cullFace = true ∧
    (s.run (renderScene shader)).ints shader.ID "reverse_normals" = 0 := by
  refine ⟨?_, ?_, ?_, ?_, ?_⟩
  · simp [renderScene, cubesDrawn]
  · simp [renderScene, cubesDrawn, SceneState.step]
  · simp [renderScene, cubesDrawn, SceneState.step, scale, translate, Mat4.identity, Vec4.smul,
      Vec4.add]
  · simp [renderScene, SceneState.run, SceneState.step]
  · simp [renderScene, SceneState.run, SceneState.step]

/-! ### `renderCube` -/

section CubeProofs

variable {K : Type} [LinearOrderedField K]

set_option maxRecDepth 4000 in
/-- The 36 vertices read from the array of `renderCube`. -/
theorem readVertices_vertices :
    (readVertices renderCube.vertices : List (CubeVertex K)).length = 36 ∧
    (renderCube.vertices : List K).length = 36 * 8 ∧
    (renderCube.drawn : List (CubeVertex K)) = readVertices renderCube.vertices := by
  refine ⟨?_, ?_, ?_⟩
  · simp [renderCube.vertices, readVertices]
  · rfl
  · simp [renderCube.drawn, renderCube.vertices, readVertices]

/-- C21: the vertex positions of `renderCube` span an extent of 2, not 1, along each of the
x, y and z axes: every coordinate is -1 or 1. -/
theorem renderCube_extent :
    extent ((renderCube.drawn : List (CubeVertex K)).map (fun v => v.position.x)) = 2 ∧
    extent ((renderCube.drawn : List (CubeVertex K)).map (fun v => v.position.y)) = 2 ∧
    extent ((renderCube.drawn : List (CubeVertex K)).map (fun v => v.position.z)) = 2 ∧
    extent ((renderCube.drawn : List (CubeVertex K)).map (fun v => v.position.x)) ≠ 1 ∧
    ∀ v ∈ (renderCube.drawn : List (CubeVertex K)),
      (v.position.x = -1 ∨ v.position.x = 1) ∧ (v.position.y = -1 ∨ v.position.y = 1) ∧
      (v.position.z = -1 ∨ v.position.z = 1) := by
  have h1 : max (-1 : K) 1 = 1 := max_eq_right (by norm_num)
  have h2 : max (1 : K) (-1) = 1 := max_eq_left (by norm_num)
  have h3 : min (-1 : K) 1 = -1 := min_eq_left (by norm_num)
  have h4 : min (1 : K) (-1) = -1 := min_eq_right (by norm_num)
  refine ⟨?_, ?_, ?_, ?_, ?_⟩
  · simp [renderCube.drawn, renderCube.vertices, readVertices, extent, h1, h2, h3, h4]
    norm_num
  · simp [renderCube.drawn, renderCube.vertices, readVertices, extent, h1, h2, h3, h4]
    norm_num
  · simp [renderCube.drawn, renderCube.vertices, readVertices, extent, h1, h2, h3, h4]
    norm_num
  · simp [renderCube.drawn, renderCube.vertices, readVertices, extent, h1, h2, h3, h4]
  · simp [renderCube.drawn, renderCube.vertices, readVertices]

set_option maxRecDepth 4000 in
/-- C22: the cube's vertex data is consistent with back-face culling and lighting.  The array
holds exactly 36 vertices of 8 floats, the count `glDrawArrays` draws, and in each of the 12
triangles of consecutive vertex triples the three vertices carry the same axis-aligned unit
normal `n`, each vertex has coordinate 1 along `n`, and `((v1 - v0) x (v2 - v0)) . n > 0`:
the triangle is counter-clockwise seen from outside. -/
theorem renderCube_triangles_front_facing :
    (renderCube.vertices : List K).length = 36 * 8 ∧
    (renderCube.drawn : List (CubeVertex K)).length = 36 ∧
    (assembleTriangles (renderCube.drawn : List (CubeVertex K))).length = 12 ∧
    ∀ t ∈ assembleTriangles (renderCube.drawn : List (CubeVertex K)), FrontFacing t := by
  refine ⟨rfl, ?_, ?_, ?_⟩
  · simp [renderCube.drawn, renderCube.vertices, readVertices]
  · simp [renderCube.drawn, renderCube.vertices, readVertices, assembleTriangles]
  · simp [renderCube.drawn, renderCube.vertices, readVertices, assembleTriangles, FrontFacing,
      dot, cross]
    norm_num

end CubeProofs

/-! ### FileSystem: an empty environment root -/

/-- C27: an empty environment root disables the build-time root.  When `LOGL_ROOT_PATH` is
set to the empty string, `getPath(p)` returns `"../../../" + p` for every `p`, whatever
`logl_root` is, on the first call and on every later one. -/
theorem getPath_empty_env (logl_root : Option String) (p : String) :
    (FileSystem.getPath (some "") logl_root FileSystem.init p).1 = "../../../" ++ p ∧
    ∀ (env2 : Option String) (p2 : String),
      (FileSystem.getPath env2 logl_root
        (FileSystem.getPath (some "") logl_root FileSystem.init p).2 p2).1
          = "../../../" ++ p2 := by
  simp [FileSystem.getPath, FileSystem.getPathBuilder, FileSystem.getRoot, FileSystem.init,
    FileSystem.getPathRelativeBinary]

/-! ### Shader: a read failure -/

theorem checkOutput_isSource (env : ShaderEnv) (shader : Nat) (type : String) :
    (Shader.checkOutput env shader type).filter ShaderEvent.isSource = [] := by
  unfold Shader.checkOutput Shader.checkCompileErrors
  split_ifs <;> simp [ShaderLocals.emit, ShaderEvent.isSource]

theorem sources_trace_isSource (env : ShaderEnv) (vertexPath fragmentPath : String)
    (geometryPath : Option String) :
    (Shader.sources env vertexPath fragmentPath geometryPath).trace.filter ShaderEvent.isSource
      = [] := by
  rw [sources_trace]
  rcases geometryPath with _ | gp <;> split_ifs <;> simp [ShaderEvent.isSource]

theorem catchOutput_isSource (r : Except String Unit) :
    (Shader.catchOutput r).filter ShaderEvent.isSource = [] := by
  cases r <;> simp [Shader.catchOutput, ShaderEvent.isSource]

/-- The `glShaderSource` calls of the constructor: one per stage, with the locals left by the
`try` block. -/
theorem Shader_new_isSource (env : ShaderEnv) (vertexPath fragmentPath : String)
    (geometryPath : Option String) :
    (Shader.new env vertexPath fragmentPath geometryPath).2.filter ShaderEvent.isSource =
      [.glShaderSource env.vertex
         (Shader.sources env vertexPath fragmentPath geometryPath).vertexCode,
       .glShaderSource env.fragment
         (Shader.sources env vertexPath fragmentPath geometryPath).fragmentCode] ++
      (match geometryPath with
        | some _ => [.glShaderSource env.geometry
            (Shader.sources env vertexPath fragmentPath geometryPath).geometryCode]
        | none => []) := by
  rw [Shader_new_trace]
  simp only [List.filter_append, sources_trace_isSource, checkOutput_isSource,
    catchOutput_isSource, List.nil_append, List.append_nil]
  rcases geometryPath with _ | gp
  · simp [ShaderEvent.isSource]
  · simp only [List.filter_append, checkOutput_isSource]
    simp [ShaderEvent.isSource]

/-- C28: a read failure discards shader sources already read.  If the vertex file can be
opened but the fragment file cannot, every stage is compiled from the empty string; if the
vertex and fragment files can be opened but the geometry file cannot, the vertex and fragment
stages are compiled from their file contents and the geometry stage from the empty string. -/
theorem Shader_new_read_failure (env : ShaderEnv) (vertexPath fragmentPath : String)
    (geometryPath : Option String) :
    (∀ v, env.file vertexPath = some v → env.file fragmentPath = none →
      (Shader.new env vertexPath fragmentPath geometryPath).2.filter ShaderEvent.isSource =
        [.glShaderSource env.vertex "", .glShaderSource env.fragment ""] ++
        (match geometryPath with
          | some _ => [.glShaderSource env.geometry ""]
          | none => [])) ∧
    (∀ v f g, env.file vertexPath = some v → env.file fragmentPath = some f →
      geometryPath = some g → env.file g = none →
      (Shader.new env vertexPath fragmentPath geometryPath).2.filter ShaderEvent.isSource =
        [.glShaderSource env.vertex v, .glShaderSource env.fragment f,
         .glShaderSource env.geometry ""]) := by
  constructor
  · intro v hv hf
    rw [Shader_new_isSource]
    simp [Shader.sources, Shader.tryBlock, hv, hf, ShaderLocals.emit]
  · intro v f g hv hf hg hgf
    subst hg
    rw [Shader_new_isSource]
    simp [Shader.sources, Shader.tryBlock, hv, hf, hgf, ShaderLocals.emit]

/-- Witness of C28: the vertex and the fragment file exist, the geometry file does not. -/
theorem Shader_new_read_failure_witness :
    (Shader.new (ShaderEnv.withFiles [("depth.vs", "#version 330 core // vs"),
        ("depth.fs", "#version 330 core // fs")]) "depth.vs" "depth.fs"
        (some "depth.gs")).2.filter ShaderEvent.isSource =
      [.glShaderSource 1 "#version 330 core // vs", .glShaderSource 2 "#version 330 core // fs",
       .glShaderSource 3 ""] :=
  (Shader_new_read_failure (ShaderEnv.withFiles [("depth.vs", "#version 330 core // vs"),
      ("depth.fs", "#version 330 core // fs")]) "depth.vs" "depth.fs" (some "depth.gs")).2
    "#version 330 core // vs" "#version 330 core // fs" "depth.gs" (by decide) (by decide) rfl
    (by decide)

/-! ### Model: cached textures keep their type -/

section CachedTypeProofs

variable {K : Type}

theorem loadTexture_cached (gl : GLNames) (typeName str : String)
    (acc : List Texture × Model K × World) (t : Texture)
    (h : acc.2.1.textures_loaded.find? (fun u => u.path = str) = some t) :
    Model.loadTexture gl typeName str acc = (acc.1 ++ [t], acc.2.1, acc.2.2) := by
  unfold Model.loadTexture
  rw [h]

theorem loadTexture_find_mono (gl : GLNames) (typeName str s0 : String)
    (acc : List Texture × Model K × World) (t : Texture)
    (h : acc.2.1.textures_loaded.find? (fun u => u.path = s0) = some t) :
    (Model.loadTexture gl typeName str acc).2.1.textures_loaded.find? (fun u => u.path = s0)
      = some t := by
  unfold Model.loadTexture
  split
  · exact h
  · simp [List.find?_append, h]

theorem loadTexture_returned (gl : GLNames) (typeName str : String)
    (acc : List Texture × Model K × World) :
    ∃ x, (Model.loadTexture gl typeName str acc).1 = acc.1 ++ [x] := by
  unfold Model.loadTexture
  split
  · exact ⟨_, rfl⟩
  · exact ⟨_, rfl⟩

theorem foldl_loadTexture_returned (gl : GLNames) (typeName : String) (strs : List String)
    (acc : List Texture × Model K × World) :
    ∃ xs, (strs.foldl (fun acc str => Model.loadTexture gl typeName str acc) acc).1
      = acc.1 ++ xs := by
  induction strs generalizing acc with
  | nil => exact ⟨[], by simp⟩
  | cons s ss ih =>
    obtain ⟨x, hx⟩ := loadTexture_returned gl typeName s acc
    obtain ⟨xs, hxs⟩ := ih (Model.loadTexture gl typeName s acc)
    exact ⟨x :: xs, by rw [List.foldl_cons, hxs, hx]; simp⟩

theorem foldl_loadTexture_cached (gl : GLNames) (typeName : String) (strs : List String)
    (acc : List Texture × Model K × World) (i : Nat) (str : String) (t : Texture)
    (hstr : strs[i]? = some str)
    (h : acc.2.1.textures_loaded.find? (fun u => u.path = str) = some t) :
    (strs.foldl (fun acc str => Model.loadTexture gl typeName str acc) acc).1[acc.1.length + i]?
      = some t := by
  induction strs generalizing acc i with
  | nil => simp at hstr
  | cons s ss ih =>
    rw [List.foldl_cons]
    cases i with
    | zero =>
      simp only [List.getElem?_cons_zero, Option.some.injEq] at hstr
      subst hstr
      obtain ⟨xs, hxs⟩ := foldl_loadTexture_returned gl typeName ss
        (Model.loadTexture gl typeName s acc)
      rw [hxs, loadTexture_cached gl typeName s acc t h]
      simp only [List.append_assoc, List.singleton_append, Nat.add_zero]
      rw [List.getElem?_append_right (Nat.le_refl _)]
      simp
    | succ j =>
      simp only [List.getElem?_cons_succ] at hstr
      have h2 := loadTexture_find_mono gl typeName s str acc t h
      have := ih (Model.loadTexture gl typeName s acc) j hstr h2
      obtain ⟨x, hx⟩ := loadTexture_returned gl typeName s acc
      rw [hx] at this
      simpa [Nat.add_assoc, Nat.add_comm 1 j] using this

theorem mem_expectedBinds (shader : Shader) (all : List Texture) (start : Nat)
    (ts : List Texture) (i : Nat) (hi : i < ts.length) :
    DrawCall.glUniform1i shader.ID (samplerName all (start + i)) (start + i)
      ∈ expectedBinds shader all start ts := by
  induction ts generalizing start i with
  | nil => simp at hi
  | cons t ts ih =>
    cases i with
    | zero => simp [expectedBinds]
    | succ j =>
      have := ih (start + 1) j (by simpa using hi)
      simp only [expectedBinds, List.cons_append, List.nil_append, List.mem_cons]
      right; right; right
      simpa [Nat.add_assoc, Nat.add_comm 1 j] using this

theorem samplerName_type (textures : List Texture) (i : Nat) (t : Texture)
    (h : textures[i]? = some t) : ∃ suffix, samplerName textures i = t.type ++ suffix := by
  unfold samplerName
  rw [h]
  simp only
  split_ifs
  · exact ⟨_, rfl⟩
  · exact ⟨"", by simp⟩

/-- C29: a cached texture keeps the type of its first load.  If the path of the `i`-th texture
of the material is already in `textures_loaded` as `t` (type A), then whatever `typeName` (B)
`loadMaterialTextures` is called with, the `i`-th texture it returns is `t` itself, with the
type and the id of the first load, and `Mesh::Draw` of a mesh with the returned textures sets
for it a sampler named after A. -/
theorem loadMaterialTextures_cached_type (gl : GLNames) (mat : aiMaterial)
    (type : aiTextureType) (typeName : String) (m : Model K) (w : World) (i : Nat)
    (str : String) (t : Texture) (hstr : (mat.textures type)[i]? = some str)
    (hfind : m.textures_loaded.find? (fun u => u.path = str) = some t) :
    (Model.loadMaterialTextures gl mat type typeName m w).1[i]? = some t ∧
    ∀ (vertices : List (Vertex K)) (indices : List Nat) (vao : Nat) (shader : Shader),
      ∃ suffix, DrawCall.glUniform1i shader.ID (t.type ++ suffix) i ∈
        (⟨vertices, indices, (Model.loadMaterialTextures gl mat type typeName m w).1, vao⟩ :
          Mesh K).Draw shader := by
  have h1 : (Model.loadMaterialTextures gl mat type typeName m w).1[i]? = some t := by
    have := foldl_loadTexture_cached gl typeName (mat.textures type) ([], m, w) i str t hstr hfind
    simpa [Model.loadMaterialTextures] using this
  refine ⟨h1, ?_⟩
  intro vertices indices vao shader
  obtain ⟨suffix, hs⟩ := samplerName_type _ i t h1
  refine ⟨suffix, ?_⟩
  have hi : i < (Model.loadMaterialTextures gl mat type typeName m w).1.length := by
    by_contra hcon
    rw [List.getElem?_eq_none (Nat.le_of_not_lt hcon)] at h1
    exact Option.noConfusion h1
  have hb := bindTextures_eq shader [] (Model.loadMaterialTextures gl mat type typeName m w).1
  have hm := mem_expectedBinds shader (Model.loadMaterialTextures gl mat type typeName m w).1 0
    (Model.loadMaterialTextures gl mat type typeName m w).1 i hi
  simp only [List.length_nil, List.nil_append, Nat.zero_add] at hb hm
  rw [hs] at hm
  unfold Mesh.Draw
  exact List.mem_append_left _ (by
    show _ ∈ Mesh.bindTextures shader 0 ⟨1, 1, 1, 1⟩ _
    rw [show (⟨1, 1, 1, 1⟩ : SamplerCounters) = countersAfter [] from rfl, hb]
    exact hm)

/-- Witness of C29: `wood.png` was first loaded as a diffuse map with id 7; asked for again as
a specular map it comes back as the diffuse texture 7. -/
theorem loadMaterialTextures_cached_type_witness :
    (Model.loadMaterialTextures ⟨fun n => n + 100, fun n => n + 1⟩
      (aiMaterial.single .aiTextureType_SPECULAR ["wood.png"]) .aiTextureType_SPECULAR
      "texture_specular"
      (⟨[⟨7, "texture_diffuse", "wood.png"⟩], [], "objects", false⟩ : Model ℚ)
      World.init).1[0]? = some ⟨7, "texture_diffuse", "wood.png"⟩ :=
  (loadMaterialTextures_cached_type ⟨fun n => n + 100, fun n => n + 1⟩
    (aiMaterial.single .aiTextureType_SPECULAR ["wood.png"]) .aiTextureType_SPECULAR
    "texture_specular" (⟨[⟨7, "texture_diffuse", "wood.png"⟩], [], "objects", false⟩ : Model ℚ)
    World.init 0 "wood.png" ⟨7, "texture_diffuse", "wood.png"⟩ (by decide) (by decide)).1

end CachedTypeProofs

/-! ### Model: the texture directory -/

section DirectoryProofs

variable {K : Type} [Zero K]

omit [Zero K] in
theorem loadTexture_dir (gl : GLNames) (typeName str d : String)
    (acc : List Texture × Model K × World)
    (h : acc.2.1.directory = d ∧ World.LoadsFrom d acc.2.2) :
    (Model.loadTexture gl typeName str acc).2.1.directory = d ∧
    World.LoadsFrom d (Model.loadTexture gl typeName str acc).2.2 := by
  unfold Model.loadTexture
  split
  · exact h
  · refine ⟨h.1, ?_⟩
    intro l hl
    simp only [TextureFromFile, List.mem_append, List.mem_singleton] at hl
    rcases hl with hl | hl
    · exact h.2 l hl
    · subst hl
      exact ⟨h.1, by simp only [h.1]⟩

omit [Zero K] in
theorem foldl_loadTexture_dir (gl : GLNames) (typeName d : String) (strs : List String)
    (acc : List Texture × Model K × World)
    (h : acc.2.1.directory = d ∧ World.LoadsFrom d acc.2.2) :
    (strs.foldl (fun acc str => Model.loadTexture gl typeName str acc) acc).2.1.directory = d ∧
    World.LoadsFrom d
      (strs.foldl (fun acc str => Model.loadTexture gl typeName str acc) acc).2.2 := by
  induction strs generalizing acc with
  | nil => exact h
  | cons s ss ih => exact ih _ (loadTexture_dir gl typeName s d acc h)

omit [Zero K] in
theorem loadMaterialTextures_dir (gl : GLNames) (mat : aiMaterial) (type : aiTextureType)
    (typeName d : String) (m : Model K) (w : World)
    (h : m.directory = d ∧ World.LoadsFrom d w) :
    (Model.loadMaterialTextures gl mat type typeName m w).2.1.directory = d ∧
    World.LoadsFrom d (Model.loadMaterialTextures gl mat type typeName m w).2.2 :=
  foldl_loadTexture_dir gl typeName d _ _ h

theorem processMesh_dir (gl : GLNames) (scene : aiScene K) (mesh : aiMesh K) (d : String)
    (m : Model K) (w : World) (h : m.directory = d ∧ World.LoadsFrom d w) :
    (Model.processMesh gl scene mesh m w).2.1.directory = d ∧
    World.LoadsFrom d (Model.processMesh gl scene mesh m w).2.2 := by
  have h1 := loadMaterialTextures_dir gl
    (scene.mMaterials.getD mesh.mMaterialIndex ⟨fun _ => []⟩) .aiTextureType_DIFFUSE
    "texture_diffuse" d m w h
  have h2 := loadMaterialTextures_dir gl
    (scene.mMaterials.getD mesh.mMaterialIndex ⟨fun _ => []⟩) .aiTextureType_SPECULAR
    "texture_specular" d _ _ h1
  have h3 := loadMaterialTextures_dir gl
    (scene.mMaterials.getD mesh.mMaterialIndex ⟨fun _ => []⟩) .aiTextureType_HEIGHT
    "texture_normal" d _ _ h2
  have h4 := loadMaterialTextures_dir gl
    (scene.mMaterials.getD mesh.mMaterialIndex ⟨fun _ => []⟩) .aiTextureType_AMBIENT
    "texture_height" d _ _ h3
  exact ⟨h4.1, h4.2⟩

theorem processNodeMeshes_dir (gl : GLNames) (scene : aiScene K) (d : String)
    (idxs : List Nat) (st : Model K × World)
    (h : st.1.directory = d ∧ World.LoadsFrom d st.2) :
    (Model.processNodeMeshes gl scene idxs st).1.directory = d ∧
    World.LoadsFrom d (Model.processNodeMeshes gl scene idxs st).2 := by
  induction idxs generalizing st with
  | nil => exact h
  | cons idx rest ih =>
    rw [Model.processNodeMeshes]
    exact ih _ (processMesh_dir gl scene _ d st.1 st.2 h)

mutual
theorem processNode_dir (gl : GLNames) (scene : aiScene K) (d : String) (node : aiNode)
    (st : Model K × World) (h : st.1.directory = d ∧ World.LoadsFrom d st.2) :
    (Model.processNode gl scene node st).1.directory = d ∧
    World.LoadsFrom d (Model.processNode gl scene node st).2 := by
  cases node with
  | mk mMeshes mChildren =>
    rw [Model.processNode]
    exact processChildren_dir gl scene d mChildren _
      (processNodeMeshes_dir gl scene d mMeshes st h)
theorem processChildren_dir (gl : GLNames) (scene : aiScene K) (d : String)
    (nodes : List aiNode) (st : Model K × World)
    (h : st.1.directory = d ∧ World.LoadsFrom d st.2) :
    (Model.processChildren gl scene nodes st).1.directory = d ∧
    World.LoadsFrom d (Model.processChildren gl scene nodes st).2 := by
  cases nodes with
  | nil => rw [Model.processChildren]; exact h
  | cons c cs =>
    rw [Model.processChildren]
    exact processChildren_dir gl scene d cs _ (processNode_dir gl scene d c st h)
end

theorem find_last_of_absent (s : List Char) (c : Char) (h : c ∉ s) :
    find_last_of s c = none := by
  induction s with
  | nil => rfl
  | cons x xs ih =>
    simp only [List.mem_cons, not_or] at h
    simp [find_last_of, ih h.2, Ne.symm h.1]

theorem find_last_of_split (pre post : List Char) (c : Char) (h : c ∉ post) :
    find_last_of (pre ++ c :: post) c = some pre.length := by
  induction pre with
  | nil => simp [find_last_of, find_last_of_absent post c h]
  | cons x xs ih => simp [find_last_of, ih]

/-- C30: `loadModel` sets `directory` to `path.substr(0, path.find_last_of('/'))`: the prefix
of the path before its last `'/'`, and the whole path when it contains no `'/'`; the
directory is not changed afterwards and every `TextureFromFile` call of the load opens
`directory + "/" + textureName`, which for a path without `'/'` is
`path + "/" + textureName`. -/
theorem loadModel_directory (gl : GLNames) (importer : Importer K) (path : String)
    (gamma : Bool) (scene : aiScene K) (root : aiNode)
    (hread : importer.ReadFile path = some scene)
    (hflag : scene.mFlags &&& AI_SCENE_FLAGS_INCOMPLETE = 0)
    (hroot : scene.mRootNode = some root) :
    (Model.new gl importer path gamma World.init).1.directory
      = substr0 path (find_last_of path.data '/') ∧
    (∀ l ∈ (Model.new gl importer path gamma World.init).2.loads,
      l.filename = (Model.new gl importer path gamma World.init).1.directory ++ "/" ++ l.path) ∧
    (∀ pre post : List Char, path.data = pre ++ '/' :: post → '/' ∉ post →
      (Model.new gl importer path gamma World.init).1.directory = String.mk pre) ∧
    ('/' ∉ path.data →
      (Model.new gl importer path gamma World.init).1.directory = path ∧
      ∀ l ∈ (Model.new gl importer path gamma World.init).2.loads,
        l.filename = path ++ "/" ++ l.path) := by
  have hnew : Model.new gl importer path gamma World.init =
      Model.processNode gl scene root
        (⟨[], [], substr0 path (find_last_of path.data '/'), gamma⟩, World.init) := by
    unfold Model.new Model.loadModel
    simp only [hread, hroot]
    rw [if_neg (by simp [hflag])]
  have hinv := processNode_dir gl scene (substr0 path (find_last_of path.data '/')) root
    (⟨[], [], substr0 path (find_last_of path.data '/'), gamma⟩, World.init)
    ⟨rfl, by intro l hl; simp [World.init] at hl⟩
  rw [← hnew] at hinv
  refine ⟨hinv.1, ?_, ?_, ?_⟩
  · intro l hl
    rw [hinv.1]
    exact (hinv.2 l hl).2
  · intro pre post hsplit hpost
    have hf : find_last_of path.data '/' = some pre.length := by
      rw [hsplit]; exact find_last_of_split pre post '/' hpost
    rw [hinv.1, hf]
    simp only [substr0]
    rw [hsplit, List.take_left]
  · intro hno
    have hd : (Model.new gl importer path gamma World.init).1.directory = path := by
      rw [hinv.1, find_last_of_absent _ _ hno]
      rfl
    refine ⟨hd, ?_⟩
    intro l hl
    rw [← hd, hinv.1]
    exact (hinv.2 l hl).2

/-- Witness of C30: the model `model.obj` (no slash in the path), one mesh with one diffuse
texture `wood.png`. -/
theorem loadModel_directory_witness :
    (Model.new ⟨fun n => n + 100, fun n => n + 1⟩
      (⟨fun _ => some ⟨0, some (.mk [0] []), [⟨[], none, none, [], [], [], 0⟩],
          [aiMaterial.single .aiTextureType_DIFFUSE ["wood.png"]]⟩,
        fun _ => ""⟩ : Importer ℚ)
      "model.obj" false World.init).1.directory = "model.obj" :=
  ((loadModel_directory ⟨fun n => n + 100, fun n => n + 1⟩
    (⟨fun _ => some ⟨0, some (.mk [0] []), [⟨[], none, none, [], [], [], 0⟩],
        [aiMaterial.single .aiTextureType_DIFFUSE ["wood.png"]]⟩,
      fun _ => ""⟩ : Importer ℚ)
    "model.obj" false _ (.mk [0] []) rfl (by decide) rfl).2.2.2 (by decide)).1

end DirectoryProofs

/-! ### The shadow frusta -/

section FrustaProofs

variable {K : Type} [LinearOrderedField K]

theorem Mat4.mul_def (a b : Mat4 K) : a * b = Mat4.mul a b := rfl

theorem clip_coords (m : Scalar K) (h1 : m.inversesqrt 1 = 1)
    (ht : m.tan (m.radians 90 / 2) = 1) (lx ly lz px py pz : K) :
    (shadowTransforms m ⟨lx, ly, lz⟩).map
        (fun M => ((M.mulVec (point ⟨px, py, pz⟩)).x, (M.mulVec (point ⟨px, py, pz⟩)).y,
          (M.mulVec (point ⟨px, py, pz⟩)).w)) =
      [ (-(pz - lz), -(py - ly), px - lx),
        (pz - lz, -(py - ly), -(px - lx)),
        (px - lx, pz - lz, py - ly),
        (px - lx, -(pz - lz), -(py - ly)),
        (px - lx, -(py - ly), pz - lz),
        (-(px - lx), -(py - ly), -(pz - lz)) ] := by
  simp only [shadowTransforms, shadowProj, perspective, lookAt, normalize, cross, dot,
    Mat4.mul_def, Mat4.mul, Mat4.mulCol, Mat4.mulVec, point, Vec4.add, Vec4.smul, ht, SHADOW_WIDTH,
    SHADOW_HEIGHT, near_plane, far_plane, Vec3.add_mk, Vec3.sub_mk, Vec3.smul_mk, List.map_cons,
    List.map_nil, add_sub_cancel_left]
  norm_num [h1]
  refine ⟨⟨?_, ?_, ?_⟩, ⟨?_, ?_, ?_⟩, ⟨?_, ?_, ?_⟩, ⟨?_, ?_, ?_⟩, ⟨?_, ?_, ?_⟩, ⟨?_, ?_, ?_⟩⟩ <;>
    ring
theorem dominant_axis (a b c : K) (hb : |b| ≤ |a|) (hc : |c| ≤ |a|)
    (hpos : 0 < |a| + |b| + |c|) :
    (0 < a ∧ |b| ≤ a ∧ |c| ≤ a) ∨ (0 < -a ∧ |b| ≤ -a ∧ |c| ≤ -a) := by
  have hb0 := abs_nonneg b
  have hc0 := abs_nonneg c
  rcases abs_cases a with ⟨ha, _⟩ | ⟨ha, _⟩
  · left; exact ⟨by linarith, by linarith, by linarith⟩
  · right; exact ⟨by linarith, by linarith, by linarith⟩

theorem cover_aux (dx dy dz : K) (hd : dx ≠ 0 ∨ dy ≠ 0 ∨ dz ≠ 0) :
    (0 < dx ∧ |dz| ≤ dx ∧ |dy| ≤ dx) ∨ (0 < -dx ∧ |dz| ≤ -dx ∧ |dy| ≤ -dx) ∨
    (0 < dy ∧ |dx| ≤ dy ∧ |dz| ≤ dy) ∨ (0 < -dy ∧ |dx| ≤ -dy ∧ |dz| ≤ -dy) ∨
    (0 < dz ∧ |dx| ≤ dz ∧ |dy| ≤ dz) ∨ (0 < -dz ∧ |dx| ≤ -dz ∧ |dy| ≤ -dz) := by
  have hpos : 0 < |dx| + |dy| + |dz| := by
    rcases hd with h | h | h
    · have := abs_pos.mpr h; have := abs_nonneg dy; have := abs_nonneg dz; linarith
    · have := abs_pos.mpr h; have := abs_nonneg dx; have := abs_nonneg dz; linarith
    · have := abs_pos.mpr h; have := abs_nonneg dx; have := abs_nonneg dy; linarith
  rcases le_total |dy| |dx| with hyx | hxy
  · rcases le_total |dz| |dx| with hzx | hxz
    · rcases dominant_axis dx dz dy hzx hyx (by linarith) with h | h
      · exact Or.inl h
      · exact Or.inr (Or.inl h)
    · rcases dominant_axis dz dx dy hxz (le_trans hyx hxz) (by linarith) with h | h
      · exact Or.inr (Or.inr (Or.inr (Or.inr (Or.inl h))))
      · exact Or.inr (Or.inr (Or.inr (Or.inr (Or.inr h))))
  · rcases le_total |dz| |dy| with hzy | hyz
    · rcases dominant_axis dy dx dz hxy hzy (by linarith) with h | h
      · exact Or.inr (Or.inr (Or.inl h))
      · exact Or.inr (Or.inr (Or.inr (Or.inl h)))
    · rcases dominant_axis dz dx dy (le_trans hxy hyz) hyz (by linarith) with h | h
      · exact Or.inr (Or.inr (Or.inr (Or.inr (Or.inl h))))
      · exact Or.inr (Or.inr (Or.inr (Or.inr (Or.inr h))))

theorem face_clip (m : Scalar K) (h1 : m.inversesqrt 1 = 1)
    (ht : m.tan (m.radians 90 / 2) = 1) (lx ly lz px py pz : K) (i : Nat) (tx ty tw : K)
    (hi : [ (-(pz - lz), -(py - ly), px - lx),
        (pz - lz, -(py - ly), -(px - lx)),
        (px - lx, pz - lz, py - ly),
        (px - lx, -(pz - lz), -(py - ly)),
        (px - lx, -(py - ly), pz - lz),
        (-(px - lx), -(py - ly), -(pz - lz)) ][i]? = some (tx, ty, tw)) :
    ∃ M, (shadowTransforms m ⟨lx, ly, lz⟩)[i]? = some M ∧
      (M.mulVec (point ⟨px, py, pz⟩)).x = tx ∧ (M.mulVec (point ⟨px, py, pz⟩)).y = ty ∧
      (M.mulVec (point ⟨px, py, pz⟩)).w = tw := by
  rw [← clip_coords m h1 ht lx ly lz px py pz, List.getElem?_map] at hi
  obtain ⟨M, hM, hf⟩ := Option.map_eq_some'.mp hi
  simp only [Prod.mk.injEq] at hf
  exact ⟨M, hM, hf.1, hf.2.1, hf.2.2⟩

/-- C23: the six shadow frusta cover every direction around the light.  With
`tan(radians(90) / 2) = 1` and `inversesqrt(1) = 1` (as over the reals), for every light
position and every point `p` other than it there is a face `i` in `0..5` for which the clip
coordinates `(x, y, z, w)` of `shadowTransforms[i] * p` satisfy `w > 0`, `|x| <= w` and
`|y| <= w`. -/
theorem shadow_frusta_cover (m : Scalar K) (h1 : m.inversesqrt 1 = 1)
    (ht : m.tan (m.radians 90 / 2) = 1) (lightPos p : Vec3 K) (hne : p ≠ lightPos) :
    ∃ i : Fin 6, ∃ M, (shadowTransforms m lightPos)[i.val]? = some M ∧
      0 < (M.mulVec (point p)).w ∧ |(M.mulVec (point p)).x| ≤ (M.mulVec (point p)).w ∧
      |(M.mulVec (point p)).y| ≤ (M.mulVec (point p)).w := by
  obtain ⟨lx, ly, lz⟩ := lightPos
  obtain ⟨px, py, pz⟩ := p
  have hd : px - lx ≠ 0 ∨ py - ly ≠ 0 ∨ pz - lz ≠ 0 := by
    by_contra hcon
    push_neg at hcon
    apply hne
    rw [sub_eq_zero.mp hcon.1, sub_eq_zero.mp hcon.2.1, sub_eq_zero.mp hcon.2.2]
  rcases cover_aux (px - lx) (py - ly) (pz - lz) hd with h | h | h | h | h | h
  · obtain ⟨M, hM, hx, hy, hw⟩ := face_clip m h1 ht lx ly lz px py pz 0 _ _ _ rfl
    exact ⟨0, M, hM, by rw [hw]; exact h.1, by rw [hx, hw, abs_neg]; exact h.2.1,
      by rw [hy, hw, abs_neg]; exact h.2.2⟩
  · obtain ⟨M, hM, hx, hy, hw⟩ := face_clip m h1 ht lx ly lz px py pz 1 _ _ _ rfl
    exact ⟨1, M, hM, by rw [hw]; exact h.1, by rw [hx, hw]; exact h.2.1,
      by rw [hy, hw, abs_neg]; exact h.2.2⟩
  · obtain ⟨M, hM, hx, hy, hw⟩ := face_clip m h1 ht lx ly lz px py pz 2 _ _ _ rfl
    exact ⟨2, M, hM, by rw [hw]; exact h.1, by rw [hx, hw]; exact h.2.1,
      by rw [hy, hw]; exact h.2.2⟩
  · obtain ⟨M, hM, hx, hy, hw⟩ := face_clip m h1 ht lx ly lz px py pz 3 _ _ _ rfl
    exact ⟨3, M, hM, by rw [hw]; exact h.1, by rw [hx, hw]; exact h.2.1,
      by rw [hy, hw, abs_neg]; exact h.2.2⟩
  · obtain ⟨M, hM, hx, hy, hw⟩ := face_clip m h1 ht lx ly lz px py pz 4 _ _ _ rfl
    exact ⟨4, M, hM, by rw [hw]; exact h.1, by rw [hx, hw]; exact h.2.1,
      by rw [hy, hw, abs_neg]; exact h.2.2⟩
  · obtain ⟨M, hM, hx, hy, hw⟩ := face_clip m h1 ht lx ly lz px py pz 5 _ _ _ rfl
    exact ⟨5, M, hM, by rw [hw]; exact h.1, by rw [hx, hw, abs_neg]; exact h.2.1,
      by rw [hy, hw, abs_neg]; exact h.2.2⟩
/-- Witness of C23 over the reals: the light at the origin, the point `(1, 2, 3)`. -/
theorem shadow_frusta_cover_witness :
    ∃ i : Fin 6, ∃ M, (shadowTransforms (⟨Real.sin, Real.cos, Real.tan, fun x => (Real.sqrt x)⁻¹, fun d => d * (Real.pi / 180)⟩ :
      Scalar ℝ) ⟨0, 0, 0⟩)[i.val]? = some M ∧
      0 < (M.mulVec (point ⟨1, 2, 3⟩)).w ∧
      |(M.mulVec (point ⟨1, 2, 3⟩)).x| ≤ (M.mulVec (point ⟨1, 2, 3⟩)).w ∧
      |(M.mulVec (point ⟨1, 2, 3⟩)).y| ≤ (M.mulVec (point ⟨1, 2, 3⟩)).w := by
  have h1 : (Real.sqrt 1)⁻¹ = 1 := by simp
  have ht : Real.tan ((90 : ℝ) * (Real.pi / 180) / 2) = 1 := by
    rw [show (90 : ℝ) * (Real.pi / 180) / 2 = Real.pi / 4 by ring]
    exact Real.tan_pi_div_four
  have hne : (⟨1, 2, 3⟩ : Vec3 ℝ) ≠ ⟨0, 0, 0⟩ := by
    intro h
    have := congrArg Vec3.x h
    norm_num at this
  exact shadow_frusta_cover (⟨Real.sin, Real.cos, Real.tan, fun x => (Real.sqrt x)⁻¹, fun d => d * (Real.pi / 180)⟩ :
      Scalar ℝ) h1 ht ⟨0, 0, 0⟩ ⟨1, 2, 3⟩ hne

end FrustaProofs

/-! ### The light and the scene geometry -/

section LightProofs

variable {K : Type} [LinearOrderedField K]

/-- The model matrices of the six cubes `renderScene` draws, in order. -/
theorem renderScene_models (shader : Shader) (s : SceneState K) :
    (cubesDrawn shader s (renderScene shader)).map (fun d => d.2.2) =
      [ ⟨⟨5, 0, 0, 0⟩, ⟨0, 5, 0, 0⟩, ⟨0, 0, 5, 0⟩, ⟨0, 0, 0, 1⟩⟩,
        ⟨⟨1 / 2, 0, 0, 0⟩, ⟨0, 1 / 2, 0, 0⟩, ⟨0, 0, 1 / 2, 0⟩, ⟨4, -(7 / 2), 0, 1⟩⟩,
        ⟨⟨3 / 4, 0, 0, 0⟩, ⟨0, 3 / 4, 0, 0⟩, ⟨0, 0, 3 / 4, 0⟩, ⟨2, 3, 1, 1⟩⟩,
        ⟨⟨1 / 2, 0, 0, 0⟩, ⟨0, 1 / 2, 0, 0⟩, ⟨0, 0, 1 / 2, 0⟩, ⟨-3, -1, 0, 1⟩⟩,
        ⟨⟨1 / 2, 0, 0, 0⟩, ⟨0, 1 / 2, 0, 0⟩, ⟨0, 0, 1 / 2, 0⟩, ⟨-(3 / 2), 1, 3 / 2, 1⟩⟩,
        ⟨⟨3 / 4, 0, 0, 0⟩, ⟨0, 3 / 4, 0, 0⟩, ⟨0, 0, 3 / 4, 0⟩, ⟨-(3 / 2), 2, -3, 1⟩⟩ ] := by
  simp [renderScene, cubesDrawn, SceneState.step, scale, translate, Mat4.identity, Vec4.smul,
    Vec4.add]

/-- The cube with centre `c` and half-extent `h`: the points within `h` of `c` along each
axis. -/
theorem inCube_centre (h cx cy cz : K) (hh : 0 < h) (q : Vec3 K) :
    InCube ⟨⟨h, 0, 0, 0⟩, ⟨0, h, 0, 0⟩, ⟨0, 0, h, 0⟩, ⟨cx, cy, cz, 1⟩⟩ q ↔
      |q.x - cx| ≤ h ∧ |q.y - cy| ≤ h ∧ |q.z - cz| ≤ h := by
  obtain ⟨qx, qy, qz⟩ := q
  constructor
  · rintro ⟨⟨vx, vy, vz⟩, hx, hy, hz, hv⟩
    simp only [Mat4.mulVec, point, Vec4.add, Vec4.smul, Vec4.mk.injEq, mul_zero, zero_mul,
      add_zero, zero_add, mul_one] at hv
    obtain ⟨e1, e2, e3, _⟩ := hv
    rw [abs_le] at hx hy hz ⊢
    rw [abs_le, abs_le]
    simp only at hx hy hz ⊢
    refine ⟨⟨?_, ?_⟩, ⟨?_, ?_⟩, ⟨?_, ?_⟩⟩ <;> nlinarith
  · rintro ⟨hx, hy, hz⟩
    simp only at hx hy hz
    refine ⟨⟨(qx - cx) / h, (qy - cy) / h, (qz - cz) / h⟩, ?_, ?_, ?_, ?_⟩
    · simp only; rw [abs_div, abs_of_pos hh]; exact (div_le_one hh).mpr hx
    · simp only; rw [abs_div, abs_of_pos hh]; exact (div_le_one hh).mpr hy
    · simp only; rw [abs_div, abs_of_pos hh]; exact (div_le_one hh).mpr hz
    · simp only [Mat4.mulVec, point, Vec4.add, Vec4.smul, Vec4.mk.injEq, mul_zero, zero_mul,
        add_zero, zero_add, mul_one]
      refine ⟨?_, ?_, ?_, trivial⟩ <;> field_simp

/-- A cube with centre `c` and half-extent `h` that fits in `[-5, 5]^3` lies in it. -/
theorem inCube_bounds (h cx cy cz : K) (hh : 0 < h)
    (hx1 : -5 ≤ cx - h) (hx2 : cx + h ≤ 5) (hy1 : -5 ≤ cy - h) (hy2 : cy + h ≤ 5)
    (hz1 : -5 ≤ cz - h) (hz2 : cz + h ≤ 5) (q : Vec3 K)
    (hq : InCube ⟨⟨h, 0, 0, 0⟩, ⟨0, h, 0, 0⟩, ⟨0, 0, h, 0⟩, ⟨cx, cy, cz, 1⟩⟩ q) :
    |q.x| ≤ 5 ∧ |q.y| ≤ 5 ∧ |q.z| ≤ 5 := by
  rw [inCube_centre h cx cy cz hh] at hq
  obtain ⟨qx, qy, qz⟩ := q
  obtain ⟨bx, by', bz⟩ := hq
  simp only at bx by' bz ⊢
  rw [abs_le] at bx by' bz ⊢
  rw [abs_le, abs_le]
  exact ⟨⟨by linarith [bx.1], by linarith [bx.2]⟩, ⟨by linarith [by'.1], by linarith [by'.2]⟩,
    ⟨by linarith [bz.1], by linarith [bz.2]⟩⟩

/-- C24: the light never enters scene geometry.  For every light position `(0, 0, z)` with
`|z| <= 3`, which covers `sin(t * 0.5) * 3.0` whenever the sine is within `[-1, 1]`, the light
lies strictly inside the room cube (the first cube `renderScene` draws) and outside each of
the five other cubes it draws. -/
theorem light_outside_geometry (shader : Shader) (s : SceneState K) (z : K) (hz : |z| ≤ 3) :
    (∀ (m : Scalar K) (time : K), |m.sin (time * (1 / 2))| ≤ 1 →
      (lightPosAt m time).x = 0 ∧ (lightPosAt m time).y = 0 ∧ |(lightPosAt m time).z| ≤ 3) ∧
    ∃ room small,
      (cubesDrawn shader s (renderScene shader)).map (fun d => d.2.2) = room :: small ∧
      small.length = 5 ∧
      StrictlyInCube room ⟨0, 0, z⟩ ∧
      ∀ M ∈ small, ¬ InCube M ⟨0, 0, z⟩ := by
  constructor
  · intro m time hsin
    refine ⟨rfl, rfl, ?_⟩
    simp only [lightPosAt]
    rw [abs_mul, abs_of_pos (by norm_num : (0 : K) < 3)]
    linarith
  · refine ⟨_, _, renderScene_models shader s, rfl, ?_, ?_⟩
    · refine ⟨⟨0, 0, z / 5⟩, ?_, ?_, ?_, ?_⟩
      · simp
      · simp
      · simp only; rw [abs_div, abs_of_pos (by norm_num : (0 : K) < 5)]
        rw [div_lt_one (by norm_num)]; linarith
      · simp only [Mat4.mulVec, point, Vec4.add, Vec4.smul, Vec4.mk.injEq, mul_zero, zero_mul,
          add_zero, zero_add, mul_one]
        refine ⟨trivial, trivial, ?_, trivial⟩
        field_simp
    · intro M hM
      simp only [List.mem_cons, List.mem_singleton, List.not_mem_nil, or_false] at hM
      rcases hM with rfl | rfl | rfl | rfl | rfl
      · rw [inCube_centre _ _ _ _ (by norm_num)]
        rintro ⟨hx, _, _⟩
        rw [abs_le] at hx; simp only at hx; linarith [hx.1, hx.2]
      · rw [inCube_centre _ _ _ _ (by norm_num)]
        rintro ⟨hx, _, _⟩
        rw [abs_le] at hx; simp only at hx; linarith [hx.1, hx.2]
      · rw [inCube_centre _ _ _ _ (by norm_num)]
        rintro ⟨hx, _, _⟩
        rw [abs_le] at hx; simp only at hx; linarith [hx.1, hx.2]
      · rw [inCube_centre _ _ _ _ (by norm_num)]
        rintro ⟨hx, _, _⟩
        rw [abs_le] at hx; simp only at hx; linarith [hx.1, hx.2]
      · rw [inCube_centre _ _ _ _ (by norm_num)]
        rintro ⟨hx, _, _⟩
        rw [abs_le] at hx; simp only at hx; linarith [hx.1, hx.2]

/-- Witness of C24: the light at its farthest, `(0, 0, 3)`. -/
theorem light_outside_geometry_witness :
    |(3 : ℚ)| ≤ 3 ∧
    ∃ room small,
      (cubesDrawn ⟨3⟩ (⟨true, fun _ _ => 0, fun _ _ => Mat4.identity⟩ : SceneState ℚ)
        (renderScene ⟨3⟩)).map (fun d => d.2.2) = room :: small ∧
      small.length = 5 ∧
      StrictlyInCube room ⟨0, 0, 3⟩ ∧
      ∀ M ∈ small, ¬ InCube M ⟨0, 0, 3⟩ :=
  ⟨by norm_num, (light_outside_geometry ⟨3⟩
    (⟨true, fun _ _ => 0, fun _ _ => Mat4.identity⟩ : SceneState ℚ) 3 (by norm_num)).2⟩

/-- C25: all scene geometry is within the shadow far plane.  For every light position
`(0, 0, z)` with `|z| <= 3`, the room cube `renderScene` draws is `[-5, 5]^3`, it contains the
five small cubes, and for every point `p` of it the squared distance from the light to `p` is
at most 114, so the distance is strictly less than `far_plane = 25`. -/
theorem scene_within_far_plane (shader : Shader) (s : SceneState K) (z : K) (hz : |z| ≤ 3) :
    ∃ room small,
      (cubesDrawn shader s (renderScene shader)).map (fun d => d.2.2) = room :: small ∧
      (∀ q, InCube room q ↔ |q.x| ≤ 5 ∧ |q.y| ≤ 5 ∧ |q.z| ≤ 5) ∧
      (∀ M ∈ small, ∀ q, InCube M q → InCube room q) ∧
      ∀ p, InCube room p →
        dot (p - ⟨0, 0, z⟩) (p - ⟨0, 0, z⟩) ≤ 114 ∧
        ∀ d : K, 0 ≤ d → d * d = dot (p - ⟨0, 0, z⟩) (p - ⟨0, 0, z⟩) → d < far_plane := by
  have hroom : ∀ q : Vec3 K,
      InCube ⟨⟨5, 0, 0, 0⟩, ⟨0, 5, 0, 0⟩, ⟨0, 0, 5, 0⟩, ⟨0, 0, 0, 1⟩⟩ q ↔
        |q.x| ≤ 5 ∧ |q.y| ≤ 5 ∧ |q.z| ≤ 5 := by
    intro q
    rw [inCube_centre _ _ _ _ (by norm_num)]
    simp only [sub_zero]
  refine ⟨_, _, renderScene_models shader s, hroom, ?_, ?_⟩
  · intro M hM q hq
    rw [hroom]
    simp only [List.mem_cons, List.mem_singleton, List.not_mem_nil, or_false] at hM
    rcases hM with rfl | rfl | rfl | rfl | rfl
    · exact inCube_bounds (1 / 2) 4 (-(7 / 2)) 0 (by norm_num) (by norm_num) (by norm_num)
        (by norm_num) (by norm_num) (by norm_num) (by norm_num) q hq
    · exact inCube_bounds (3 / 4) 2 3 1 (by norm_num) (by norm_num) (by norm_num)
        (by norm_num) (by norm_num) (by norm_num) (by norm_num) q hq
    · exact inCube_bounds (1 / 2) (-3) (-1) 0 (by norm_num) (by norm_num) (by norm_num)
        (by norm_num) (by norm_num) (by norm_num) (by norm_num) q hq
    · exact inCube_bounds (1 / 2) (-(3 / 2)) 1 (3 / 2) (by norm_num) (by norm_num)
        (by norm_num) (by norm_num) (by norm_num) (by norm_num) (by norm_num) q hq
    · exact inCube_bounds (3 / 4) (-(3 / 2)) 2 (-3) (by norm_num) (by norm_num)
        (by norm_num) (by norm_num) (by norm_num) (by norm_num) (by norm_num) q hq
  · intro p hp
    rw [hroom] at hp
    obtain ⟨px, py, pz⟩ := p
    obtain ⟨hx, hy, hpz⟩ := hp
    simp only at hx hy hpz
    rw [abs_le] at hx hy hpz hz
    have hdist : dot ((⟨px, py, pz⟩ : Vec3 K) - ⟨0, 0, z⟩) (⟨px, py, pz⟩ - ⟨0, 0, z⟩) ≤ 114 := by
      simp only [Vec3.sub_mk, dot, sub_zero]
      nlinarith [mul_nonneg (sub_nonneg.mpr hx.2) (sub_nonneg.mpr hx.1),
        mul_nonneg (sub_nonneg.mpr hy.2) (sub_nonneg.mpr hy.1),
        mul_nonneg (sub_nonneg.mpr (show pz - z ≤ 8 by linarith))
          (sub_nonneg.mpr (show -8 ≤ pz - z by linarith))]
    refine ⟨hdist, ?_⟩
    intro d hd hdd
    rw [← hdd] at hdist
    simp only [far_plane]
    by_contra hcon
    push_neg at hcon
    nlinarith

/-- Witness of C25: the light at its farthest, `(0, 0, 3)`, and the room corner
`(5, 5, -5)`, at squared distance 114. -/
theorem scene_within_far_plane_witness :
    |(3 : ℚ)| ≤ 3 ∧
    ∃ room small,
      (cubesDrawn ⟨3⟩ (⟨true, fun _ _ => 0, fun _ _ => Mat4.identity⟩ : SceneState ℚ)
        (renderScene ⟨3⟩)).map (fun d => d.2.2) = room :: small ∧
      (∀ q, InCube room q ↔ |q.x| ≤ 5 ∧ |q.y| ≤ 5 ∧ |q.z| ≤ 5) ∧
      (∀ M ∈ small, ∀ q, InCube M q → InCube room q) ∧
      ∀ p, InCube room p →
        dot (p - ⟨0, 0, 3⟩) (p - ⟨0, 0, 3⟩) ≤ 114 ∧
        ∀ d : ℚ, 0 ≤ d → d * d = dot (p - ⟨0, 0, 3⟩) (p - ⟨0, 0, 3⟩) → d < far_plane :=
  ⟨by norm_num, scene_within_far_plane ⟨3⟩
    (⟨true, fun _ _ => 0, fun _ _ => Mat4.identity⟩ : SceneState ℚ) 3 (by norm_num)⟩

end LightProofs


/-! ### Sampler units -/

section SamplerProofs

variable {K : Type} [LinearOrderedField K]

omit [LinearOrderedField K] in
theorem passStates_append (s : GLState) (g : GLObjects) (a b : List (Call K)) :
    passStates s g (a ++ b) = passStates s g a ++ passStates (s.run a) (g.run s a) b := by
  induction a generalizing s g with
  | nil => rfl
  | cons c cs ih => cases c <;> simp [passStates, GLState.run, GLObjects.run, ih]

omit [LinearOrderedField K] in
theorem GLState.step_program (s : GLState) (c : Call K) :
    (s.step c).program = match c with
      | .use shader => shader
      | _ => s.program := by
  cases c <;> try rfl
  · simp only [GLState.step]; split_ifs <;> rfl
  · rename_i r
    rcases r with _ | ⟨w, h⟩ <;> rfl

omit [LinearOrderedField K] in
theorem GLState.step_framebuffer (s : GLState) (c : Call K) :
    (s.step c).framebuffer = match c with
      | .glBindFramebuffer target framebuffer =>
        if target = GL_FRAMEBUFFER then framebuffer else s.framebuffer
      | _ => s.framebuffer := by
  cases c <;> try rfl
  · simp only [GLState.step]; split_ifs <;> rfl
  · rename_i r
    rcases r with _ | ⟨w, h⟩ <;> rfl

omit [LinearOrderedField K] in
theorem GLState.step_activeTexture (s : GLState) (c : Call K) :
    (s.step c).activeTexture = match c with
      | .glActiveTexture texture => texture
      | _ => s.activeTexture := by
  cases c <;> try rfl
  · simp only [GLState.step]; split_ifs <;> rfl
  · rename_i r
    rcases r with _ | ⟨w, h⟩ <;> rfl

omit [LinearOrderedField K] in
theorem GLState.step_boundTexture (s : GLState) (c : Call K) (u t : Nat) :
    (s.step c).boundTexture u t = match c with
      | .glBindTexture target texture =>
        if u = s.activeTexture ∧ t = target then texture else s.boundTexture u t
      | _ => s.boundTexture u t := by
  cases c <;> try rfl
  · simp only [GLState.step]; split_ifs <;> rfl
  · rename_i r
    rcases r with _ | ⟨w, h⟩ <;> rfl

omit [LinearOrderedField K] in
theorem setupCalls_samplers (h : Handles) (s : GLState) (g : GLObjects) :
    passStates s g (setupCalls h : List (Call K)) = [] ∧
    SamplersSet h (g.run s (setupCalls h : List (Call K))) := by
  constructor
  · simp [setupCalls, passStates]
  · simp [SamplersSet, setupCalls, GLObjects.run, GLObjects.step, GLState.step_program,
      GLState.step_framebuffer, GL_FRAMEBUFFER, GL_DEPTH_ATTACHMENT]

theorem frameCalls_passes (m : Scalar K) (h : Handles) (camera : Camera K) (shadows : Bool)
    (lightPos : Vec3 K) (resize : Option (Int × Int)) (s : GLState) (g : GLObjects) :
    (passStates s g (frameCalls m h camera shadows lightPos resize)).length = 2 := by
  simp [frameCalls, shadowTransforms, List.enum, List.enumFrom, passStates]

theorem frameCalls_forward (m : Scalar K) (h : Handles) (camera : Camera K) (shadows : Bool)
    (lightPos : Vec3 K) (resize : Option (Int × Int)) (s : GLState) (g : GLObjects)
    (hg : SamplersSet h g) (st : GLState × GLObjects)
    (hst : (passStates s g (frameCalls m h camera shadows lightPos resize))[1]? = some st) :
    st.1.program = h.shader ∧ SamplersAgree h st := by
  obtain ⟨h1, h2, h3⟩ := hg
  simp only [frameCalls, shadowTransforms, List.enum, List.enumFrom, List.map_cons,
    List.map_nil, List.cons_append, List.nil_append, passStates, List.getElem?_cons_succ,
    List.getElem?_cons_zero, Option.some.injEq] at hst
  subst hst
  simp [SamplersAgree, GLObjects.step, GLState.step_program, GLState.step_framebuffer,
    GLState.step_activeTexture, GLState.step_boundTexture, GL_FRAMEBUFFER, GL_TEXTURE0,
    GL_TEXTURE1, GL_TEXTURE_2D, GL_TEXTURE_CUBE_MAP, h1, h2, h3]

theorem frameCalls_keeps (m : Scalar K) (h : Handles) (camera : Camera K) (shadows : Bool)
    (lightPos : Vec3 K) (resize : Option (Int × Int)) (s : GLState) (g : GLObjects)
    (hg : SamplersSet h g) :
    SamplersSet h (g.run s (frameCalls m h camera shadows lightPos resize)) := by
  obtain ⟨h1, h2, h3⟩ := hg
  simp [SamplersSet, frameCalls, shadowTransforms, List.enum, List.enumFrom, GLObjects.run,
    GLObjects.step, GLState.step_program, GLState.step_framebuffer, GL_FRAMEBUFFER, h1, h2, h3]

theorem renderLoop_samplers (m : Scalar K) (h : Handles) (frames : List (Frame K))
    (s : GLState) (g : GLObjects) (hg : SamplersSet h g) :
    (passStates s g (renderLoop m h frames)).length = 2 * frames.length ∧
    ∀ (k : Nat) (st : GLState × GLObjects),
      (passStates s g (renderLoop m h frames))[2 * k + 1]? = some st →
        st.1.program = h.shader ∧ SamplersAgree h st := by
  induction frames generalizing s g with
  | nil =>
    refine ⟨rfl, ?_⟩
    intro k st hst
    simp [renderLoop, passStates] at hst
  | cons f fs ih =>
    have hlen := frameCalls_passes m h f.camera f.shadows f.lightPos f.resize s g
    have hkeep := frameCalls_keeps m h f.camera f.shadows f.lightPos f.resize s g hg
    obtain ⟨ihl, ihk⟩ := ih (s.run (frameCalls m h f.camera f.shadows f.lightPos f.resize))
      (g.run s (frameCalls m h f.camera f.shadows f.lightPos f.resize)) hkeep
    rw [renderLoop, passStates_append]
    refine ⟨?_, ?_⟩
    · rw [List.length_append, hlen, ihl, List.length_cons]; ring
    · intro k st hst
      cases k with
      | zero =>
        rw [List.getElem?_append_left (by rw [hlen]; decide)] at hst
        exact frameCalls_forward m h f.camera f.shadows f.lightPos f.resize s g hg st hst
      | succ j =>
        rw [List.getElem?_append_right (by rw [hlen]; omega), hlen] at hst
        have e : 2 * (j + 1) + 1 - 2 = 2 * j + 1 := by omega
        rw [e] at hst
        exact ihk j st hst

/-- C26: the sampler units set at start-up agree with the texture units bound in the forward
pass of every frame.  From any context state, after the set-up of `main` and over any number of
frames, at the second scene pass of each frame the lighting shader is in use, its uniform
`diffuseTexture` is 0 and the diffuse texture is bound as `GL_TEXTURE_2D` on unit
`GL_TEXTURE0`, its uniform `depthMap` is 1 and bound as `GL_TEXTURE_CUBE_MAP` on unit
`GL_TEXTURE1` is the depth cubemap, the texture attached as depth attachment of
`depthMapFBO`. -/
theorem sampler_units_agree (m : Scalar K) (h : Handles) (frames : List (Frame K))
    (s : GLState) (g : GLObjects) :
    (passStates s g (setupCalls h ++ renderLoop m h frames)).length = 2 * frames.length ∧
    ∀ (k : Nat) (st : GLState × GLObjects),
      (passStates s g (setupCalls h ++ renderLoop m h frames))[2 * k + 1]? = some st →
        st.1.program = h.shader ∧ SamplersAgree h st := by
  obtain ⟨hs1, hs2⟩ := @setupCalls_samplers K h s g
  rw [passStates_append, hs1, List.nil_append]
  exact renderLoop_samplers m h frames _ _ hs2

end SamplerProofs

end OmniShadows
